import Mathlib

/-!
# Quad3DR viewpoint planner data: derivation pipeline

A shallow embedding of `viewpoint_planner/src/planner/viewpoint_planner_data.cpp`.

Conventions of the embedding.

* `float` values are modelled by the rationals they denote (`Rat`); comparisons, minima and
  clipping are exact on finite floats.  The grid geometry of `generateDistanceField` is a
  quotient, a product and a sum whose rounding decides what the grid box contains: these are
  rounded to single precision (`fl32`).  NaN and infinities are not modelled.
* Observation counts are natural numbers, grid indices are integers (`int`), grid
  dimensions are natural numbers (a grid of `N * N * N` cells is allocated, which keeps `N`
  far below the `int` range).
* A node pointer is `null` or points to a node with its payload and eight child pointers;
  a tree is its root pointer.
* `throw` and a failing `AIT_ASSERT` are the `Except.error` outcome.
-/

namespace Quad3DR

/-! ## Occupancy tree -/

/-- Pointer to a node of an occupancy tree: either the null pointer, or a node holding
occupancy, observation count, weight and the eight child pointers. -/
inductive NodePtr where
  | null : NodePtr
  | node (occupancy : Rat) (observationCount : Nat) (weight : Rat)
      (children : Fin 8 → NodePtr) : NodePtr

/-- An occupancy tree (raw or augmented) is given by its root pointer.  A raw tree does not
read its weight field. -/
abbrev OccupancyMapType := NodePtr

/-- Occupancy of the node pointed to (`node->getOccupancy()`). -/
def NodePtr.getOccupancy : NodePtr → Rat
  | .null => 0
  | .node o _ _ _ => o

/-- Observation count of the node pointed to (`node->getObservationCount()`). -/
def NodePtr.getObservationCount : NodePtr → Nat
  | .null => 0
  | .node _ c _ _ => c

/-- Weight of the node pointed to (`node->getWeight()`). -/
def NodePtr.getWeight : NodePtr → Rat
  | .null => 0
  | .node _ _ w _ => w

/-- Whether the pointer is non-null. -/
def NodePtr.isNode : NodePtr → Bool
  | .null => false
  | .node _ _ _ _ => true

/-- The `i`-th child pointer (`node->getChild(i)`). -/
def NodePtr.getChild : NodePtr → Fin 8 → NodePtr
  | .null, _ => .null
  | .node _ _ _ ch, i => ch i

/-- Whether the `i`-th child exists (`node->hasChild(i)`). -/
def NodePtr.hasChild (n : NodePtr) (i : Fin 8) : Bool :=
  (n.getChild i).isNode

/-- Whether any child exists (`node->hasChildren()`). -/
def NodePtr.hasChildren (n : NodePtr) : Bool :=
  (List.finRange 8).any (fun i => n.hasChild i)

/-- Follow a sequence of child indices from a node (`TreeNavigator` descent); the result is
`null` as soon as a child on the way does not exist. -/
def NodePtr.find : NodePtr → List (Fin 8) → NodePtr
  | n, [] => n
  | n, i :: key => (n.getChild i).find key

/-- State of a tree iterator: the position of the current node in the tree (child indices
from the root, standing for octomap's key and depth) and the node itself. -/
structure TreeIterator where
  key : List (Fin 8)
  node : NodePtr

/-- Depth of the iterator's node (`it.getDepth()`), the root being at depth 0. -/
def TreeIterator.getDepth (it : TreeIterator) : Nat := it.key.length

/-- Nodes visited by a depth-first pre-order tree iterator started at `n` (whose position
is `key`), not descending below depth `maxDepth` when a limit is given. -/
def traverse (maxDepth : Option Nat) : List (Fin 8) → NodePtr → List TreeIterator
  | _, .null => []
  | key, .node o c w ch =>
    ⟨key, .node o c w ch⟩ ::
      (if (match maxDepth with
           | none => true
           | some d => decide (key.length < d)) then
        (List.finRange 8).flatMap (fun i => traverse maxDepth (key ++ [i]) (ch i))
      else [])

/-- Modelled from the spec: the octomap tree iterator `tree.begin_tree(maxDepth)` ..
`tree.end_tree()`, a depth-first traversal of every node of the tree; `maxDepth = 0`
stands for the depth of the tree, that is for no depth limit. -/
def begin_tree (tree : OccupancyMapType) (maxDepth : Nat) : List TreeIterator :=
  traverse (if maxDepth = 0 then none else some maxDepth) [] tree

/-- Whether the iterator is at a leaf (`it.isLeaf()`) in a traversal without depth limit: the
node has no children. -/
def TreeIterator.isLeaf (it : TreeIterator) : Bool := !it.node.hasChildren

/-- Inner loop of `isTreeConsistent` over the child indices still to visit: the value of
`consistent` when the loop is left (by `break` or at the end). -/
def isTreeConsistent.childLoop (it : NodePtr) : List (Fin 8) → Bool
  | [] => true
  | i :: rest =>
    if it.hasChild i then
      if it.getObservationCount > (it.getChild i).getObservationCount then false
      else if it.getOccupancy < (it.getChild i).getOccupancy then false
      else isTreeConsistent.childLoop it rest
    else isTreeConsistent.childLoop it rest

/-- Outer loop of `isTreeConsistent` over the remaining iterator positions. -/
def isTreeConsistent.loop : List TreeIterator → Bool
  | [] => true
  | it :: rest =>
    if it.node.hasChildren then
      if isTreeConsistent.childLoop it.node (List.finRange 8) then isTreeConsistent.loop rest
      else false
    else isTreeConsistent.loop rest

/-- `ViewpointPlannerData::isTreeConsistent`. -/
def isTreeConsistent (tree : OccupancyMapType) : Bool :=
  isTreeConsistent.loop (begin_tree tree 0)

/-- The two-level tree of the scenario: root with occupancy 0.5 and 10 observations, one
child (slot 0) with occupancy 0.8 and 20 observations. -/
def scenarioTree : OccupancyMapType :=
  .node (1/2) 10 0 (fun i =>
    if i = 0 then .node (4/5) 20 0 (fun _ => .null) else .null)

/-- The parent/child condition checked at one node. -/
def childOK (n : NodePtr) (i : Fin 8) : Prop :=
  n.getObservationCount ≤ (n.getChild i).getObservationCount ∧
    (n.getChild i).getOccupancy ≤ n.getOccupancy

/-- Whether a traversal with the given depth limit descends to depth `d`. -/
def withinDepth : Option Nat → Nat → Prop
  | none, _ => True
  | some m, d => d ≤ m

/-! ## Vectors and bounding boxes -/

/-- A point or vector of three floats (`Vector3`). -/
structure Vector3 where
  x : Rat
  y : Rat
  z : Rat

/-- A triple of `int` (`Vector3i`). -/
structure Vector3i where
  x : Int
  y : Int
  z : Int

/-- Componentwise sum. -/
def Vector3.add (a b : Vector3) : Vector3 := ⟨a.x + b.x, a.y + b.y, a.z + b.z⟩

/-- Componentwise difference. -/
def Vector3.sub (a b : Vector3) : Vector3 := ⟨a.x - b.x, a.y - b.y, a.z - b.z⟩

/-- Product with a scalar. -/
def Vector3.smul (s : Rat) (a : Vector3) : Vector3 := ⟨s * a.x, s * a.y, s * a.z⟩

/-- Quotient by a scalar. -/
def Vector3.sdiv (a : Vector3) (s : Rat) : Vector3 := ⟨a.x / s, a.y / s, a.z / s⟩

/-- Conversion `indices.cast<float>()`. -/
def Vector3i.castFloat (v : Vector3i) : Vector3 := ⟨v.x, v.y, v.z⟩

/-- Axis-aligned box given by its minimum and maximum corner (`BoundingBoxType`). -/
structure BoundingBoxType where
  min : Vector3
  max : Vector3

/-- Modelled from the spec: the constructor `BoundingBoxType(center, size)` of the bounding
box class, "a box centered at the leaf's world position with extent equal to its voxel
size". -/
def BoundingBoxType.ofCenterSize (center : Vector3) (size : Rat) : BoundingBoxType :=
  ⟨⟨center.x - size / 2, center.y - size / 2, center.z - size / 2⟩,
   ⟨center.x + size / 2, center.y + size / 2, center.z + size / 2⟩⟩

/-- Modelled from the spec: `BoundingBoxType::constrainTo`, "clip the box to
`regionOfInterest`": the intersection of the two boxes, corner by corner. -/
def BoundingBoxType.constrainTo (b roi : BoundingBoxType) : BoundingBoxType :=
  ⟨⟨Max.max b.min.x roi.min.x, Max.max b.min.y roi.min.y, Max.max b.min.z roi.min.z⟩,
   ⟨Min.min b.max.x roi.max.x, Min.min b.max.y roi.max.y, Min.min b.max.z roi.max.z⟩⟩

/-- Modelled from the spec: `BoundingBoxType::isEmpty`, the "emptiness test" of the bounding
box class: the box has no extent along some axis. -/
def BoundingBoxType.isEmpty (b : BoundingBoxType) : Bool :=
  decide (b.max.x ≤ b.min.x) || decide (b.max.y ≤ b.min.y) || decide (b.max.z ≤ b.min.z)

/-- Modelled from the spec: `BoundingBoxType::isInside`, whether a point lies in the box
(boundary included). -/
def BoundingBoxType.isInside (b : BoundingBoxType) (p : Vector3) : Bool :=
  decide (b.min.x ≤ p.x) && decide (p.x ≤ b.max.x) &&
  decide (b.min.y ≤ p.y) && decide (p.y ≤ b.max.y) &&
  decide (b.min.z ≤ p.z) && decide (p.z ≤ b.max.z)

/-- Modelled from the spec: `BoundingBoxType::getMaxExtent`, the "box's largest-axis
extent". -/
def BoundingBoxType.getMaxExtent (b : BoundingBoxType) : Rat :=
  Max.max (b.max.x - b.min.x) (Max.max (b.max.y - b.min.y) (b.max.z - b.min.z))

/-- The box lies entirely within `roi`: each of its corners is within `roi`'s range on
every axis. -/
def BoundingBoxType.within (b roi : BoundingBoxType) : Prop :=
  (roi.min.x ≤ b.min.x ∧ roi.min.y ≤ b.min.y ∧ roi.min.z ≤ b.min.z) ∧
  (b.max.x ≤ roi.max.x ∧ b.max.y ≤ roi.max.y ∧ b.max.z ≤ roi.max.z)

/-! ## BVH construction -/

/-- Payload of one BVH object (`NodeObject`). -/
structure NodeObject where
  occupancy : Rat
  observation_count : Nat
  weight : Rat

/-- One entry of the vector handed to the BVH build (`ObjectWithBoundingBox`). -/
structure ObjectWithBoundingBox where
  bounding_box : BoundingBoxType
  object : NodeObject

/-- What `generateBVHTree` reads from the occupancy map besides the nodes: the threshold
below which a node counts as free, and the world position and size the tree iterator
reports for the node at a given position of the tree (`it.getCoordinate()`,
`it.getSize()`). -/
structure OccupancyMapGeometry where
  occupancy_thres_free : Rat
  getCoordinate : List (Fin 8) → Vector3
  getSize : List (Fin 8) → Rat

/-- Modelled from the spec: `OccupancyMapType::isNodeFree`, "free (occupancy below a "free"
threshold)". -/
def OccupancyMapGeometry.isNodeFree (m : OccupancyMapGeometry) (n : NodePtr) : Bool :=
  decide (n.getOccupancy < m.occupancy_thres_free)

/-- Modelled from the spec: `OccupancyMapType::isNodeKnown`, "known (observation count >
0)". -/
def isNodeKnown (n : NodePtr) : Bool :=
  decide (n.getObservationCount > 0)

/-- Loop of `generateBVHTree` over the remaining iterator positions; `objects` is the vector
built so far. -/
def generateBVHTree.loop (m : OccupancyMapGeometry) (roi_bbox : BoundingBoxType) :
    List TreeIterator → List ObjectWithBoundingBox → List ObjectWithBoundingBox
  | [], objects => objects
  | it :: rest, objects =>
    if it.isLeaf then
      if m.isNodeFree it.node && isNodeKnown it.node then
        generateBVHTree.loop m roi_bbox rest objects
      else
        let center := m.getCoordinate it.key
        let size := m.getSize it.key
        let bounding_box := BoundingBoxType.ofCenterSize center size
        let object : NodeObject :=
          ⟨it.node.getOccupancy, it.node.getObservationCount, it.node.getWeight⟩
        let bounding_box := bounding_box.constrainTo roi_bbox
        if bounding_box.isEmpty then
          generateBVHTree.loop m roi_bbox rest objects
        else
          generateBVHTree.loop m roi_bbox rest (objects ++ [⟨bounding_box, object⟩])
    else generateBVHTree.loop m roi_bbox rest objects

/-- `ViewpointPlannerData::generateBVHTree`: the vector of objects handed to
`occupied_bvh_.build`. -/
def generateBVHTree (m : OccupancyMapGeometry) (roi_bbox : BoundingBoxType)
    (octree : OccupancyMapType) : List ObjectWithBoundingBox :=
  generateBVHTree.loop m roi_bbox (begin_tree octree 0) []

/-- The spec's description of the retained leaves: a leaf that is not at once free and known
and whose box (leaf centre, leaf size), clipped to the region of interest, is not empty. -/
def retainedLeaf (m : OccupancyMapGeometry) (roi_bbox : BoundingBoxType)
    (it : TreeIterator) : Bool :=
  !it.node.hasChildren && !(m.isNodeFree it.node && isNodeKnown it.node) &&
    !((BoundingBoxType.ofCenterSize (m.getCoordinate it.key) (m.getSize it.key)).constrainTo
      roi_bbox).isEmpty

/-! ## Single-precision arithmetic -/

/-- Round to the nearest integer, a tie to the even neighbour (the rounding of the `float`
operations). -/
def roundNearestEven (q : Rat) : Int :=
  if q - ⌊q⌋ < 1 / 2 then ⌊q⌋
  else if 1 / 2 < q - ⌊q⌋ then ⌊q⌋ + 1
  else if ⌊q⌋ % 2 = 0 then ⌊q⌋ else ⌊q⌋ + 1

/-- The binary exponent under which a `float` stores a value near `q`: that of `q`, or the
least exponent of the format when `q` is smaller. -/
def fl32.exponent (q : Rat) : Int := Max.max (Int.log 2 |q|) (-126)

/-- The `float` that an operation with exact result `q` returns: `q` rounded to a
significand of 24 bits, to nearest, a tie to even.  Results beyond the largest finite
`float` are rounded in the same way, not replaced by infinity. -/
def fl32 (q : Rat) : Rat :=
  if q = 0 then 0
  else roundNearestEven (q / 2 ^ (fl32.exponent q - 23)) * 2 ^ (fl32.exponent q - 23)

/-! ## Distance field grid -/

/-- `Eigen::round` (`std::round`) followed by the cast to `int`: the nearest integer, halves
away from zero. -/
def roundToInt (q : Rat) : Int :=
  if 0 ≤ q then ⌊q + 1 / 2⌋ else -⌊-q + 1 / 2⌋

/-- The members describing the grid of the distance field (`grid_dim_`, `grid_origin_`,
`grid_increment_`, `grid_bbox_`). -/
structure GridGeometry where
  grid_dim_ : Vector3i
  grid_origin_ : Vector3
  grid_increment_ : Rat
  grid_bbox_ : BoundingBoxType

/-- `ViewpointPlannerData::isInsideGrid`. -/
def isInsideGrid (g : GridGeometry) (xyz : Vector3) : Bool :=
  g.grid_bbox_.isInside xyz

/-- One round of the loop of `getGridIndices`: the index of one axis is decremented when it
is not below the grid dimension while the coordinate is below the maximum of the grid box. -/
def getGridIndices.adjust (dim : Int) (index : Int) (coord boxMax : Rat) : Int :=
  if index ≥ dim ∧ coord < boxMax then index - 1 else index

/-- `ViewpointPlannerData::getGridIndices`. -/
def getGridIndices (g : GridGeometry) (xyz : Vector3) : Vector3i :=
  let indices_float := (xyz.sub g.grid_origin_).sdiv g.grid_increment_
  let indices : Vector3i :=
    ⟨roundToInt indices_float.x, roundToInt indices_float.y, roundToInt indices_float.z⟩
  ⟨getGridIndices.adjust g.grid_dim_.x indices.x xyz.x g.grid_bbox_.max.x,
   getGridIndices.adjust g.grid_dim_.y indices.y xyz.y g.grid_bbox_.max.y,
   getGridIndices.adjust g.grid_dim_.z indices.z xyz.z g.grid_bbox_.max.z⟩

/-- `ViewpointPlannerData::getGridPosition`. -/
def getGridPosition (g : GridGeometry) (indices : Vector3i) : Vector3 :=
  g.grid_origin_.add (Vector3.smul g.grid_increment_ indices.castFloat)

/-- A dense three-dimensional array of floats (`ml::Grid3f`, also the storage of the
distance field). -/
structure Grid3f where
  dimX : Nat
  dimY : Nat
  dimZ : Nat
  data : Nat → Nat → Nat → Rat

/-- The grid with every cell set to `v` (`Grid3f(dx, dy, dz)` followed by `setValues(v)`). -/
def Grid3f.filled (dimX dimY dimZ : Nat) (v : Rat) : Grid3f :=
  ⟨dimX, dimY, dimZ, fun _ _ _ => v⟩

/-- Whether `int` indices address a cell of the grid. -/
def Grid3f.inRange (grid : Grid3f) (i : Vector3i) : Bool :=
  decide (0 ≤ i.x ∧ i.x < grid.dimX ∧ 0 ≤ i.y ∧ i.y < grid.dimY ∧ 0 ≤ i.z ∧ i.z < grid.dimZ)

/-- Write access `grid(x, y, z) = v`. -/
def Grid3f.set (grid : Grid3f) (x y z : Nat) (v : Rat) : Grid3f :=
  { grid with data := fun a b c => if a = x ∧ b = y ∧ c = z then v else grid.data a b c }

/-- The mesh: its vertices and, per face, the indices of the face's vertices. -/
structure MeshType where
  m_Vertices : List Vector3
  m_FaceIndicesVertices : List (List Nat)

/-- The value `std::numeric_limits<float>::max()`. -/
def floatMax : Rat := 340282346638528859811704183484516925440

/-- First lines of `generateDistanceField`: the grid members derived from the bounding box of
the BVH root.  The quotient `bbox.getMaxExtent() / (grid_dimension_ + 1)`, the product with
`grid_dimension_ + 1` and the sum with the origin are `float` operations and are rounded as
such, and so is the conversion of `grid_dimension_ + 1` to `float`. -/
def generateDistanceField.setupGrid (grid_dimension_ : Nat) (bbox : BoundingBoxType) :
    GridGeometry :=
  let grid_origin_ := bbox.min
  let grid_increment_ := fl32 (bbox.getMaxExtent / fl32 ((grid_dimension_ : Rat) + 1))
  let scaled := fl32 (grid_increment_ * fl32 ((grid_dimension_ : Rat) + 1))
  let grid_max : Vector3 :=
    ⟨fl32 (grid_origin_.x + scaled), fl32 (grid_origin_.y + scaled),
      fl32 (grid_origin_.z + scaled)⟩
  ⟨⟨grid_dimension_, grid_dimension_, grid_dimension_⟩, grid_origin_, grid_increment_,
    ⟨grid_origin_, grid_max⟩⟩

/-- Loop of `generateDistanceField` over the remaining faces of the mesh, updating the seed
grid.  `norm` is the Euclidean length of a vector (`.norm()`).  A face that does not have
three vertices fails the assertion; a vertex index outside the vertex array or a cell index
outside the seed grid is an access out of bounds, reported as an error, and so is the
division by a grid increment of zero (the quotient is not a finite float). -/
def generateDistanceField.seedLoop (g : GridGeometry) (norm : Vector3 → Rat)
    (m_Vertices : List Vector3) : List (List Nat) → Grid3f → Except String Grid3f
  | [], seed_grid => .ok seed_grid
  | face :: rest, seed_grid =>
    match face with
    | [i1, i2, i3] =>
      match m_Vertices.get? i1, m_Vertices.get? i2, m_Vertices.get? i3 with
      | some vertex1, some vertex2, some vertex3 =>
        let tri_xyz := ((vertex1.add vertex2).add vertex3).sdiv 3
        if isInsideGrid g tri_xyz then
          if g.grid_increment_ = 0 then .error "division by a zero grid increment"
          else
            let indices := getGridIndices g tri_xyz
            let xyz := getGridPosition g indices
            if seed_grid.inRange indices then
              let cur_dist := seed_grid.data indices.x.toNat indices.y.toNat indices.z.toNat
              let new_dist := norm (xyz.sub tri_xyz) / g.grid_increment_
              if new_dist < cur_dist then
                generateDistanceField.seedLoop g norm m_Vertices rest
                  (seed_grid.set indices.x.toNat indices.y.toNat indices.z.toNat new_dist)
              else generateDistanceField.seedLoop g norm m_Vertices rest seed_grid
            else .error "seed_grid index out of range"
        else generateDistanceField.seedLoop g norm m_Vertices rest seed_grid
      | _, _, _ => .error "vertex index out of range"
    | _ => .error "Mesh faces need to have a valence of 3"

/-- The seed grid of `generateDistanceField` after the loop over the faces. -/
def generateDistanceField.seedGrid (grid_dimension_ : Nat) (bbox : BoundingBoxType)
    (poisson_mesh_ : MeshType) (norm : Vector3 → Rat) : Except String Grid3f :=
  generateDistanceField.seedLoop (generateDistanceField.setupGrid grid_dimension_ bbox) norm
    poisson_mesh_.m_Vertices poisson_mesh_.m_FaceIndicesVertices
    (Grid3f.filled grid_dimension_ grid_dimension_ grid_dimension_ floatMax)

/-- Body of the innermost clipping loop of `generateDistanceField`. -/
def generateDistanceField.clipCell (df_cutoff_ : Rat) (x y : Nat) (distance_field_ : Grid3f)
    (z : Nat) : Grid3f :=
  if distance_field_.data x y z > df_cutoff_ then distance_field_.set x y z df_cutoff_
  else distance_field_

/-- The three nested clipping loops of `generateDistanceField`. -/
def generateDistanceField.clip (g : GridGeometry) (df_cutoff_ : Rat)
    (distance_field_ : Grid3f) : Grid3f :=
  (List.range g.grid_dim_.x.toNat).foldl (fun df x =>
    (List.range g.grid_dim_.y.toNat).foldl (fun df y =>
      (List.range g.grid_dim_.z.toNat).foldl
        (generateDistanceField.clipCell df_cutoff_ x y) df) df) distance_field_

/-- `ViewpointPlannerData::generateDistanceField`: the grid members and the distance field
it leaves.  `bbox` is the bounding box of the BVH root; `transform` is the external distance
transform (the constructor `DistanceFieldType(seed_grid)`). -/
def generateDistanceField (grid_dimension_ : Nat) (df_cutoff_ : Rat) (bbox : BoundingBoxType)
    (poisson_mesh_ : MeshType) (norm : Vector3 → Rat) (transform : Grid3f → Grid3f) :
    Except String (GridGeometry × Grid3f) :=
  match generateDistanceField.seedGrid grid_dimension_ bbox poisson_mesh_ norm with
  | .error e => .error e
  | .ok seed_grid =>
    let g := generateDistanceField.setupGrid grid_dimension_ bbox
    .ok (g, generateDistanceField.clip g df_cutoff_ (transform seed_grid))

/-- The grid `df'` is `df` with the cells selected by `P` clipped to `c` and all other cells
untouched. -/
def ClipsOn (P : Nat → Nat → Nat → Prop) (c : Rat) (df df' : Grid3f) : Prop :=
  ∀ x y z, (P x y z → df'.data x y z = Min.min (df.data x y z) c) ∧
    (¬ P x y z → df'.data x y z = df.data x y z)

/-! ## Tree augmentation -/

/-- Modelled from the spec: `convertToAugmentedMap`, "deep-copy `rawTree` into
`augmentedTree` (same structure, occupancy/observation fields carried over, weight
initialized to 0)". -/
def convertToAugmentedMap : NodePtr → NodePtr
  | .null => .null
  | .node o c _ ch => .node o c 0 (fun i => convertToAugmentedMap (ch i))

/-- The tuning constants of the augmentation (`OCCUPANCY_WEIGHT_DEPTH`,
`OCCUPANCY_WEIGHT_REACH`, `OCCUPANCY_WEIGHT_DEPTH_CUTOFF`) and the map's test
`isNodeOccupied`. -/
structure AugmentationConstants where
  OCCUPANCY_WEIGHT_DEPTH : Nat
  OCCUPANCY_WEIGHT_REACH : Nat
  OCCUPANCY_WEIGHT_DEPTH_CUTOFF : Nat
  isNodeOccupied : NodePtr → Bool

/-- A tree navigator is the position of its node in the tree. `gotoParent` drops the last
child index (applied `count` times here). -/
def gotoParent : Nat → List (Fin 8) → List (Fin 8)
  | 0, nav => nav
  | count + 1, nav => gotoParent count nav.dropLast

/-- The exploration loop of `generateAugmentedOctree` (the `while` over `node_stack`),
started with a stack holding one navigator at depth `depth` on the node given: the value of
`total_weight` once everything this entry brings onto the stack has been popped.  The stack
of the source is the recursion here; children are pushed for index 0 to 7, hence popped and
explored from index 7 down to 0. -/
def accumulateWeight (k : AugmentationConstants) : Nat → NodePtr → Rat → Rat
  | _, .null, total_weight => total_weight
  | depth, .node o c w ch, total_weight =>
    if (NodePtr.node o c w ch).hasChildren && decide (depth < k.OCCUPANCY_WEIGHT_DEPTH_CUTOFF) then
      (List.finRange 8).reverse.foldl
        (fun total i =>
          if (ch i).isNode then accumulateWeight k (depth + 1) (ch i) total else total)
        total_weight
    else if decide (c > 0) && k.isNodeOccupied (.node o c w ch) then
      let weight : Rat := 0
      total_weight + weight
    else total_weight

/-- The loop of `generateAugmentedOctree` that passes the weight down (the `while` over
`node_stack2`), started with a stack holding one navigator at position `key` on the node
given: the subtree after the pass together with the positions whose weight was set, in the
order of the writes, or an error when the assertion `nav->getWeight() == 0` fails. -/
def passWeightDown (total_weight : Rat) :
    List (Fin 8) → NodePtr → Except String (NodePtr × List (List (Fin 8)))
  | _, .null => .ok (.null, [])
  | key, .node o c w ch =>
    if w = 0 then
      if (List.finRange 8).all
          (fun i => (passWeightDown total_weight (key ++ [i]) (ch i)).toBool) then
        .ok (.node o c total_weight
              (fun i =>
                match passWeightDown total_weight (key ++ [i]) (ch i) with
                | .ok r => r.1
                | .error _ => ch i),
            key :: (List.finRange 8).reverse.flatMap
              (fun i =>
                match passWeightDown total_weight (key ++ [i]) (ch i) with
                | .ok r => r.2
                | .error _ => []))
      else .error "Assertion failed: nav->getWeight() == 0"
    else .error "Assertion failed: nav->getWeight() == 0"

/-- The tree with the subtree at position `key` replaced. -/
def NodePtr.replaceAt : NodePtr → List (Fin 8) → NodePtr → NodePtr
  | _, [], new => new
  | .null, _ :: _, _ => .null
  | .node o c w ch, i :: key, new =>
    .node o c w (Function.update ch i ((ch i).replaceAt key new))

/-- State of the loop over the query nodes: the output tree, `max_total_weight`, and a
record of every `setWeight` done so far as a pair (query node, node written). -/
structure AugmentState where
  output_tree : OccupancyMapType
  max_total_weight : Rat
  writes : List (List (Fin 8) × List (Fin 8))

/-- The query nodes collected by `generateAugmentedOctree`: the positions at depth
`OCCUPANCY_WEIGHT_DEPTH` of a traversal limited to that depth. -/
def generateAugmentedOctree.collectQueryNodes (k : AugmentationConstants)
    (output_tree : OccupancyMapType) : List (List (Fin 8)) :=
  ((begin_tree output_tree k.OCCUPANCY_WEIGHT_DEPTH).filter
    (fun it => it.getDepth == k.OCCUPANCY_WEIGHT_DEPTH)).map TreeIterator.key

/-- Loop of `generateAugmentedOctree` over the remaining query nodes. -/
def generateAugmentedOctree.queryLoop (k : AugmentationConstants) :
    List (List (Fin 8)) → AugmentState → Except String AugmentState
  | [], st => .ok st
  | query_nav :: rest, st =>
    let parent_nav := gotoParent k.OCCUPANCY_WEIGHT_REACH query_nav
    let total_weight :=
      accumulateWeight k parent_nav.length (st.output_tree.find parent_nav) 0
    let max_total_weight :=
      if total_weight > st.max_total_weight then total_weight else st.max_total_weight
    match passWeightDown total_weight query_nav (st.output_tree.find query_nav) with
    | .error e => .error e
    | .ok (subtree, written) =>
      generateAugmentedOctree.queryLoop k rest
        ⟨st.output_tree.replaceAt query_nav subtree, max_total_weight,
          st.writes ++ written.map (fun key => (query_nav, key))⟩

/-- `ViewpointPlannerData::generateAugmentedOctree`: the augmented tree returned, with the
maximum weight it prints and the record of the weights written. -/
def generateAugmentedOctree (k : AugmentationConstants) (raw_octree : OccupancyMapType) :
    Except String AugmentState :=
  if !isTreeConsistent raw_octree then .error "Input tree is inconsistent"
  else
    let output_tree := convertToAugmentedMap raw_octree
    if !isTreeConsistent output_tree then .error "Augmented tree is inconsistent"
    else if ¬ ((k.OCCUPANCY_WEIGHT_DEPTH : Int) - (k.OCCUPANCY_WEIGHT_REACH : Int) > 0) then
      .error "Assertion failed: OCCUPANCY_WEIGHT_DEPTH - OCCUPANCY_WEIGHT_REACH > 0"
    else if ¬ (k.OCCUPANCY_WEIGHT_DEPTH_CUTOFF > k.OCCUPANCY_WEIGHT_DEPTH) then
      .error "Assertion failed: OCCUPANCY_WEIGHT_DEPTH_CUTOFF > OCCUPANCY_WEIGHT_DEPTH"
    else
      generateAugmentedOctree.queryLoop k
        (generateAugmentedOctree.collectQueryNodes k output_tree) ⟨output_tree, 0, []⟩

/-- The positions of the existing nodes of the subtree at `key`, in the order in which the
pass that hands the weight down visits them. -/
def passOrder : List (Fin 8) → NodePtr → List (List (Fin 8))
  | _, .null => []
  | key, .node _ _ _ ch =>
    key :: (List.finRange 8).reverse.flatMap (fun i => passOrder (key ++ [i]) (ch i))

/-- Every node of the subtree has weight 0. -/
def weightsZero : NodePtr → Prop
  | .null => True
  | .node _ _ w ch => w = 0 ∧ ∀ i, weightsZero (ch i)

/-! ## Cached artifacts -/

/-- The three derived artifacts. -/
inductive Artifact where
  | augmentedTree
  | bvh
  | distanceField
  deriving DecidableEq, Repr

/-- What the constructor and its read steps do, as far as the cache protocol is concerned:
load an artifact from its cache file, generate it, write a file, run `updateWeights`. -/
inductive Event where
  | loadCached (a : Artifact)
  | generate (a : Artifact)
  | write (file : String)
  | updateWeights
  deriving DecidableEq, Repr

/-- The surroundings of the read steps: the last write time of every file (`none` when the
file does not exist), the time a write done now is stamped with, and the record of what has
been done so far.  Loading and generating an artifact are taken to succeed. -/
structure World where
  last_write_time : String → Option Nat
  now : Nat
  events : List Event

/-- Append an event to the record. -/
def World.log (w : World) (e : Event) : World :=
  { w with events := w.events ++ [e] }

/-- Write a file: it exists afterwards, with the current time as last write time. -/
def World.write (w : World) (file : String) : World :=
  { w with
    last_write_time := fun f => if f = file then some w.now else w.last_write_time f
    events := w.events ++ [Event.write file] }

/-- `ViewpointPlannerData::readAndAugmentOctree`: the value returned and the world left.
`boost::filesystem::last_write_time` throws for a file that does not exist; with `binary`
set, `readRawOctree` throws ("Binary occupancy maps not supported"). -/
def readAndAugmentOctree (w : World) (octree_filename raw_octree_filename : String)
    (binary : Bool) : Except String (Bool × World) :=
  let cached : Except String (Bool × World) :=
    match w.last_write_time octree_filename with
    | none => .ok (false, w)
    | some cache_time =>
      match w.last_write_time raw_octree_filename with
      | none => .error "boost::filesystem::last_write_time: No such file or directory"
      | some raw_time =>
        if cache_time > raw_time then .ok (true, w.log (.loadCached .augmentedTree))
        else .ok (false, w)
  match cached with
  | .error e => .error e
  | .ok (read_cached_tree, w1) =>
    if !read_cached_tree then
      if binary then .error "Binary occupancy maps not supported"
      else
        match w1.last_write_time raw_octree_filename with
        | none => .error "Unable to read octomap file"
        | some _ =>
          .ok (!read_cached_tree, (w1.log (.generate .augmentedTree)).write octree_filename)
    else .ok (!read_cached_tree, w1)

/-- `ViewpointPlannerData::readBVHTree`: the value returned and the world left. -/
def readBVHTree (w : World) (bvh_filename octree_filename : String) :
    Except String (Bool × World) :=
  let cached : Except String (Bool × World) :=
    match w.last_write_time bvh_filename with
    | none => .ok (false, w)
    | some cache_time =>
      match w.last_write_time octree_filename with
      | none => .error "boost::filesystem::last_write_time: No such file or directory"
      | some octree_time =>
        if cache_time > octree_time then .ok (true, w.log (.loadCached .bvh))
        else .ok (false, w)
  match cached with
  | .error e => .error e
  | .ok (read_cached_tree, w1) =>
    if !read_cached_tree then
      .ok (!read_cached_tree, (w1.log (.generate .bvh)).write bvh_filename)
    else .ok (!read_cached_tree, w1)

/-- `ViewpointPlannerData::readMeshDistanceField`: the value returned and the world left. -/
def readMeshDistanceField (w : World) (df_filename mesh_filename : String) :
    Except String (Bool × World) :=
  let cached : Except String (Bool × World) :=
    match w.last_write_time df_filename with
    | none => .ok (false, w)
    | some cache_time =>
      match w.last_write_time mesh_filename with
      | none => .error "boost::filesystem::last_write_time: No such file or directory"
      | some mesh_time =>
        if cache_time > mesh_time then .ok (true, w.log (.loadCached .distanceField))
        else .ok (false, w)
  match cached with
  | .error e => .error e
  | .ok (read_cached_df, w1) =>
    if !read_cached_df then
      .ok (!read_cached_df, (w1.log (.generate .distanceField)).write df_filename)
    else .ok (!read_cached_df, w1)

/-- The cache file is missing, or its last write time is not later than the source's. -/
def cacheNotNewer (w : World) (cache : String) (source_time : Nat) : Prop :=
  w.last_write_time cache = none ∨ ∃ t, w.last_write_time cache = some t ∧ t ≤ source_time

/-- What a read step of artifact `a` with cache file `cache` leaves, given the world before,
the value it returned and the world after: a regeneration followed by the write of the cache
file when the value is true, a load of the cache when it is false. -/
def readOutcome (a : Artifact) (cache : String) (w : World) (generated : Bool)
    (w' : World) : Prop :=
  (generated = true → w'.events = w.events ++ [Event.generate a, Event.write cache]) ∧
  (generated = false → w'.events = w.events ++ [Event.loadCached a])

/-- A world for examples: the raw tree, the augmented tree and its BVH were all last
written at time 5, the mesh at time 3 and the distance field at time 4; it is now 9. -/
def exampleWorld : World :=
  ⟨fun f =>
      if f = "tree.ot" then some 5
      else if f = "tree.ot.aug" then some 5
      else if f = "tree.ot.aug.bvh" then some 5
      else if f = "mesh.ply" then some 3
      else if f = "mesh.ply.df" then some 4
      else none,
    9, []⟩

/-! ## The constructor -/

/-- The file names the constructor works with. -/
structure Filenames where
  raw_octree_filename : String
  mesh_filename : String
  octree_filename : String
  bvh_filename : String
  df_filename : String

/-- The file names as the constructor derives them from the options: an empty name of a
cache file is replaced by the name of its source with a suffix appended. -/
def Filenames.ofOptions (raw_octree_filename mesh_filename octree_filename bvh_filename
    df_filename : String) : Filenames :=
  let octree_filename :=
    if octree_filename.isEmpty then raw_octree_filename ++ ".aug" else octree_filename
  let bvh_filename :=
    if bvh_filename.isEmpty then octree_filename ++ ".bvh" else bvh_filename
  let df_filename :=
    if df_filename.isEmpty then mesh_filename ++ ".df" else df_filename
  ⟨raw_octree_filename, mesh_filename, octree_filename, bvh_filename, df_filename⟩

/-- The five file names are pairwise different. -/
def Filenames.distinct (f : Filenames) : Prop :=
  [f.raw_octree_filename, f.mesh_filename, f.octree_filename, f.bvh_filename,
    f.df_filename].Nodup

/-- Time that passes during a run of the constructor, in units of the file time stamps
(`std::time_t`, seconds): before the write a step may do.  A value of 0 means that the write
gets the same time stamp as what happened just before. -/
structure Elapsed where
  beforeOctree : Nat
  beforeBVH : Nat
  beforeDistanceField : Nat
  beforeOctreeRewrite : Nat
  beforeBVHRewrite : Nat

/-- Let time pass. -/
def World.advance (w : World) (d : Nat) : World :=
  { w with now := w.now + d }

/-- What a run of the constructor leaves: the three flags, the grid members (`none` when
they were never assigned), and the world. -/
structure ConstructorRun where
  augmented_octree_generated : Bool
  bvh_generated : Bool
  df_generated : Bool
  grid : Option GridGeometry
  world : World

/-- `ViewpointPlannerData::ViewpointPlannerData`, from `readPoissonMesh` on.  Reading the mesh
fails when the mesh file does not exist; `readDenseReconstruction` is taken to succeed.
`bvhRootBox` is the bounding box of the root of the BVH in memory after `readBVHTree`.  The
grid members are assigned by `generateDistanceField` only, which `readMeshDistanceField`
calls exactly when it returns true. -/
def ViewpointPlannerData (grid_dimension_ : Nat) (bvhRootBox : BoundingBoxType)
    (f : Filenames) (e : Elapsed) (w : World) : Except String ConstructorRun :=
  match w.last_write_time f.mesh_filename with
  | none => .error "Could not open mesh file"
  | some _ =>
    match readAndAugmentOctree (w.advance e.beforeOctree) f.octree_filename
        f.raw_octree_filename false with
    | .error err => .error err
    | .ok (augmented_octree_generated, w1) =>
      match readBVHTree (w1.advance e.beforeBVH) f.bvh_filename f.octree_filename with
      | .error err => .error err
      | .ok (bvh_generated, w2) =>
        match readMeshDistanceField (w2.advance e.beforeDistanceField) f.df_filename
            f.mesh_filename with
        | .error err => .error err
        | .ok (df_generated, w3) =>
          let grid :=
            if df_generated then
              some (generateDistanceField.setupGrid grid_dimension_ bvhRootBox)
            else none
          if augmented_octree_generated || bvh_generated || df_generated then
            let w4 := w3.log Event.updateWeights
            let w5 := (w4.advance e.beforeOctreeRewrite).write f.octree_filename
            let w6 := (w5.advance e.beforeBVHRewrite).write f.bvh_filename
            .ok ⟨augmented_octree_generated, bvh_generated, df_generated, grid, w6⟩
          else
            .ok ⟨augmented_octree_generated, bvh_generated, df_generated, grid, w3⟩

/-- The record a read step leaves for artifact `a` with cache file `cache`. -/
def stepEvents (a : Artifact) (cache : String) (generated : Bool) : List Event :=
  if generated then [Event.generate a, Event.write cache] else [Event.loadCached a]

/-- The cache file exists and is strictly newer than the source file, which exists. -/
def cacheNewer (w : World) (cache source : String) : Bool :=
  match w.last_write_time cache, w.last_write_time source with
  | some tc, some ts => decide (ts < tc)
  | _, _ => false

/-- The world a read step leaves when it loads the cache, and when it regenerates. -/
def World.afterStep (w : World) (a : Artifact) (cache : String) (generated : Bool) : World :=
  if generated then (w.log (Event.generate a)).write cache else w.log (Event.loadCached a)

/-- A read step that does not fail, after `elapsed` units of time: the value it returns and
the world it leaves. -/
def World.readStep (w : World) (a : Artifact) (cache source : String) (elapsed : Nat) :
    Bool × World :=
  (!cacheNewer w cache source,
    (w.advance elapsed).afterStep a cache (!cacheNewer w cache source))

/-- The run of the constructor when no step fails, written out step by step. -/
def expectedRun (grid_dimension_ : Nat) (bvhRootBox : BoundingBoxType) (f : Filenames)
    (e : Elapsed) (w : World) : ConstructorRun :=
  let s1 := w.readStep .augmentedTree f.octree_filename f.raw_octree_filename e.beforeOctree
  let s2 := s1.2.readStep .bvh f.bvh_filename f.octree_filename e.beforeBVH
  let s3 := s2.2.readStep .distanceField f.df_filename f.mesh_filename e.beforeDistanceField
  ⟨s1.1, s2.1, s3.1,
    if s3.1 then some (generateDistanceField.setupGrid grid_dimension_ bvhRootBox) else none,
    if s1.1 || s2.1 || s3.1 then
      ((((s3.2.log Event.updateWeights).advance e.beforeOctreeRewrite).write
        f.octree_filename).advance e.beforeBVHRewrite).write f.bvh_filename
    else s3.2⟩

/-- All three cache files are strictly newer than their sources. -/
def cachesFresh (f : Filenames) (w : World) : Bool :=
  cacheNewer w f.octree_filename f.raw_octree_filename &&
    cacheNewer w f.bvh_filename f.octree_filename &&
    cacheNewer w f.df_filename f.mesh_filename

/-! ## Seeding of the distance field -/

/-- What `updateWeights` uses of the BVH and of the occupancy map besides the data modelled
here: the box test by which the BVH query `intersects` selects objects, the positions of the
leafs that `begin_leafs_bbx` .. `end_leafs_bbx` iterates for a box, and the pass
`updateInnerOccupancy`. -/
structure WeightEnvironment where
  intersects : BoundingBoxType → BoundingBoxType → Bool
  leafsInBbx : OccupancyMapType → BoundingBoxType → List (List (Fin 8))
  updateInnerOccupancy : OccupancyMapType → OccupancyMapType

/-- What `updateWeights` changes: the tree and the objects of the BVH (in a fixed order). -/
structure WeightState where
  octree_ : OccupancyMapType
  occupied_bvh_ : List ObjectWithBoundingBox

/-- A `for` loop over the values of `range` whose body may fail. -/
def forLoop {σ : Type} (body : σ → Nat → Except String σ) : List Nat → σ → Except String σ
  | [], s => .ok s
  | i :: rest, s =>
    match body s i with
    | .error err => .error err
    | .ok s' => forLoop body rest s'

/-- First loop of `updateWeights`: every node of the tree gets weight 0. -/
def updateWeights.resetWeights : NodePtr → NodePtr
  | .null => .null
  | .node o c _ ch => .node o c 0 (fun i => updateWeights.resetWeights (ch i))

/-- Second loop nest of `updateWeights`: `max_distance`, starting from
`std::numeric_limits<FloatType>::lowest()`. -/
def updateWeights.maxDistance (g : GridGeometry) (distance_field_ : Grid3f) : Rat :=
  (List.range g.grid_dim_.x.toNat).foldl (fun max_distance x =>
    (List.range g.grid_dim_.y.toNat).foldl (fun max_distance y =>
      (List.range g.grid_dim_.z.toNat).foldl (fun max_distance z =>
        Max.max max_distance (distance_field_.data x y z)) max_distance) max_distance)
    (-floatMax)

/-- The weight `updateWeights` computes for a cell at distance `distance`.  The quotient by a
`max_distance` of zero is not a finite float and is reported as an error. -/
def updateWeights.weight (max_distance distance : Rat) : Except String Rat :=
  if max_distance = 0 then .error "division by a zero max_distance"
  else
    let inv_distance := (max_distance - distance) / max_distance
    .ok (inv_distance * inv_distance)

/-- The box of a grid cell: centred at the grid position of the cell, of the size of the
grid increment. -/
def cellBox (g : GridGeometry) (x y z : Nat) : BoundingBoxType :=
  BoundingBoxType.ofCenterSize (getGridPosition g ⟨x, y, z⟩) g.grid_increment_

/-- `node->setWeight(weight)`. -/
def NodePtr.setWeight (weight : Rat) : NodePtr → NodePtr
  | .null => .null
  | .node o c _ ch => .node o c weight ch

/-- The objects after `result.node->getObject()->weight = weight` for every object the BVH
query returns for `bbox`. -/
def updateWeights.setObjectWeights (env : WeightEnvironment) (bbox : BoundingBoxType)
    (weight : Rat) (objects : List ObjectWithBoundingBox) : List ObjectWithBoundingBox :=
  objects.map (fun o =>
    if env.intersects bbox o.bounding_box then
      ⟨o.bounding_box, ⟨o.object.occupancy, o.object.observation_count, weight⟩⟩
    else o)

/-- The tree after `it->setWeight(weight)` for every leaf in the box. -/
def updateWeights.setLeafWeights (env : WeightEnvironment) (bbox : BoundingBoxType)
    (weight : Rat) (octree : OccupancyMapType) : OccupancyMapType :=
  (env.leafsInBbx octree bbox).foldl
    (fun tree key => tree.replaceAt key ((tree.find key).setWeight weight)) octree

/-- Body of the innermost loop of the third loop nest of `updateWeights`. -/
def updateWeights.cell (env : WeightEnvironment) (g : GridGeometry) (distance_field_ : Grid3f)
    (max_distance : Rat) (x y : Nat) (st : WeightState) (z : Nat) :
    Except String WeightState :=
  match updateWeights.weight max_distance (distance_field_.data x y z) with
  | .error err => .error err
  | .ok weight =>
    let bbox := cellBox g x y z
    .ok ⟨updateWeights.setLeafWeights env bbox weight st.octree_,
      updateWeights.setObjectWeights env bbox weight st.occupied_bvh_⟩

/-- `ViewpointPlannerData::updateWeights`. -/
def updateWeights (env : WeightEnvironment) (g : GridGeometry) (distance_field_ : Grid3f)
    (st : WeightState) : Except String WeightState :=
  let octree := updateWeights.resetWeights st.octree_
  let max_distance := updateWeights.maxDistance g distance_field_
  match
    forLoop (fun st x =>
      forLoop (fun st y =>
        forLoop (updateWeights.cell env g distance_field_ max_distance x y)
          (List.range g.grid_dim_.z.toNat) st)
        (List.range g.grid_dim_.y.toNat) st)
      (List.range g.grid_dim_.x.toNat) ⟨octree, st.occupied_bvh_⟩ with
  | .error err => .error err
  | .ok st' => .ok ⟨env.updateInnerOccupancy st'.octree_, st'.occupied_bvh_⟩

/-- The cells of the grid in the order in which the loop nests visit them: `x` outermost,
`z` innermost. -/
def gridCells (g : GridGeometry) : List (Nat × Nat × Nat) :=
  (List.range g.grid_dim_.x.toNat).flatMap (fun x =>
    (List.range g.grid_dim_.y.toNat).flatMap (fun y =>
      (List.range g.grid_dim_.z.toNat).map (fun z => (x, y, z))))

/-- The cells whose box intersects the box of the object, in the order of the loops. -/
def cellsHitting (env : WeightEnvironment) (g : GridGeometry) (o : ObjectWithBoundingBox) :
    List (Nat × Nat × Nat) :=
  (gridCells g).filter (fun c => env.intersects (cellBox g c.1 c.2.1 c.2.2) o.bounding_box)

/-- The value of the weight when the division is defined. -/
def updateWeights.weightValue (max_distance distance : Rat) : Rat :=
  ((max_distance - distance) / max_distance) * ((max_distance - distance) / max_distance)

/-- Sum of the absolute values of the components: a computable stand-in for the Euclidean
length in examples (both are 0 on the zero vector). -/
def normL1 (v : Vector3) : Rat := |v.x| + |v.y| + |v.z|

/-- A BVH root box: the cube from (0,0,0) to (5,5,5). -/
def exampleBox : BoundingBoxType := ⟨⟨0, 0, 0⟩, ⟨5, 5, 5⟩⟩

/-- A mesh with one (degenerate) triangle whose centroid is the point (0,0,0). -/
def exampleMesh : MeshType := ⟨[⟨0, 0, 0⟩], [[0, 0, 0]]⟩

/-- The seed grid of dimension 4 with cell (0,0,0) seeded to 0 and all others infinite. -/
def exampleSeed : Grid3f := (Grid3f.filled 4 4 4 floatMax).set 0 0 0 0

/-- A distance transform for examples: the distance of a cell to cell (0,0,0) along the
axes. -/
def exampleTransform (seed : Grid3f) : Grid3f :=
  { seed with data := fun x y z => (x : Rat) + y + z }

/-- A distance transform for examples that returns 0 in every cell. -/
def zeroTransform (seed : Grid3f) : Grid3f :=
  { seed with data := fun _ _ _ => 0 }

/-- A mesh with one (degenerate) triangle whose centroid is the point (4.6, 1, 1). -/
def outsideMesh : MeshType := ⟨[⟨23/5, 1, 1⟩], [[0, 0, 0]]⟩

/-- A mesh without faces. -/
def emptyMesh : MeshType := ⟨[], []⟩

/-- A map geometry for examples: free threshold 1/4, every node centred at the origin, a
node at depth `d` of size `4 / 2 ^ d`. -/
def exampleGeometry : OccupancyMapGeometry :=
  ⟨1/4, fun _ => ⟨0, 0, 0⟩, fun key => 4 / 2 ^ key.length⟩

/-- A region of interest for examples: the cube from (-1,-1,-1) to (1,1,1). -/
def exampleRoi : BoundingBoxType := ⟨⟨-1, -1, -1⟩, ⟨1, 1, 1⟩⟩

/-- A consistent tree of three levels: root 0.8 / 10, its child 0 with 0.5 / 20, and that
child's child 3 with 0.25 / 30. -/
def consistentTree : OccupancyMapType :=
  .node (4/5) 10 0 (fun i =>
    if i = 0 then
      .node (1/2) 20 0 (fun j => if j = 3 then .node (1/4) 30 0 (fun _ => .null) else .null)
    else .null)

/-- Tuning constants for examples: sampling depth 1, reach 0, cutoff depth 2; a node counts
as occupied from occupancy 1/2. -/
def exampleConstants : AugmentationConstants :=
  ⟨1, 0, 2, fun n => decide (1/2 ≤ n.getOccupancy)⟩

/-- File names for examples. -/
def exampleFilenames : Filenames :=
  Filenames.ofOptions "tree.ot" "mesh.ply" "" "" ""

/-- A world for examples without cache files: the raw tree was written at time 5, the mesh
at time 3; it is now 9. -/
def freshWorld : World :=
  ⟨fun f => if f = "tree.ot" then some 5 else if f = "mesh.ply" then some 3 else none, 9, []⟩

/-- A world for examples in which only the distance field is cached: the raw tree was
written at time 5, the mesh at time 3 and the distance field at time 4; it is now 9. -/
def distanceFieldCachedWorld : World :=
  ⟨fun f =>
      if f = "tree.ot" then some 5
      else if f = "mesh.ply" then some 3
      else if f = "mesh.ply.df" then some 4
      else none,
    9, []⟩

/-- A world for examples in which the augmented tree cache is older than the raw tree: raw
tree 5, mesh 3, augmented tree 2, BVH 4, distance field 4; it is now 9. -/
def staleTreeWorld : World :=
  ⟨fun f =>
      if f = "tree.ot" then some 5
      else if f = "mesh.ply" then some 3
      else if f = "tree.ot.aug" then some 2
      else if f = "tree.ot.aug.bvh" then some 4
      else if f = "mesh.ply.df" then some 4
      else none,
    9, []⟩

/-- A grid of dimension 1 for examples. -/
def unitGrid : GridGeometry := generateDistanceField.setupGrid 1 exampleBox

/-- The distance field of dimension 1 whose single cell is 0. -/
def zeroField : Grid3f := Grid3f.filled 1 1 1 0

/-- A grid of dimension 2 over the cube from (0,0,0) to (3,3,3) (increment 1). -/
def smallGrid : GridGeometry := ⟨⟨2, 2, 2⟩, ⟨0, 0, 0⟩, 1, ⟨⟨0, 0, 0⟩, ⟨3, 3, 3⟩⟩⟩

/-- A distance field of dimension 2: cell (x, y, z) is at distance x + y + z. -/
def smallField : Grid3f := ⟨2, 2, 2, fun x y z => (x : Rat) + y + z⟩

/-- The closed boxes have a point in common. -/
def boxesOverlap (a b : BoundingBoxType) : Bool :=
  decide (a.min.x ≤ b.max.x ∧ b.min.x ≤ a.max.x ∧ a.min.y ≤ b.max.y ∧ b.min.y ≤ a.max.y ∧
    a.min.z ≤ b.max.z ∧ b.min.z ≤ a.max.z)

/-- An environment for examples: boxes intersect when they have a point in common, no leaf
of the tree lies in any box, and `updateInnerOccupancy` leaves the tree as it is. -/
def exampleEnvironment : WeightEnvironment := ⟨boxesOverlap, fun _ _ => [], id⟩

/-- An object for examples, with weight 7, whose box meets no cell of the grid of
dimension 2. -/
def farObject : ObjectWithBoundingBox :=
  ⟨⟨⟨10, 10, 10⟩, ⟨11, 11, 11⟩⟩, ⟨1/2, 3, 7⟩⟩

/-- Constants for examples that fail the first precondition: sampling depth 1, reach 1. -/
def badConstants : AugmentationConstants :=
  ⟨1, 1, 2, fun n => decide (1/2 ≤ n.getOccupancy)⟩

/-- A BVH root box for examples: the unit cube from (0,0,0) to (1,1,1). -/
def unitCube : BoundingBoxType := ⟨⟨0, 0, 0⟩, ⟨1, 1, 1⟩⟩

theorem NodePtr.find_null (key : List (Fin 8)) : NodePtr.null.find key = .null := by
  induction key with
  | nil => rfl
  | cons i key ih => simpa [NodePtr.find, NodePtr.getChild] using ih

theorem NodePtr.find_append (n : NodePtr) (p q : List (Fin 8)) :
    n.find (p ++ q) = (n.find p).find q := by
  induction p generalizing n with
  | nil => rfl
  | cons i p ih => simp [NodePtr.find, ih]

theorem NodePtr.hasChildren_iff (n : NodePtr) :
    n.hasChildren = true ↔ ∃ i, n.hasChild i = true := by
  simp [NodePtr.hasChildren, List.any_eq_true]

theorem TreeIterator.ext_iff2 (it : TreeIterator) (key : List (Fin 8)) (n : NodePtr) :
    it = ⟨key, n⟩ ↔ it.key = key ∧ it.node = n := by
  cases it; simp

theorem traverse_cond_iff (maxDepth : Option Nat) (k : Nat) :
    (match maxDepth with
      | none => true
      | some d => decide (k < d)) = true ↔ withinDepth maxDepth (k + 1) := by
  cases maxDepth with
  | none => simp [withinDepth]
  | some d => simp [withinDepth, Nat.succ_le_iff]

/-- The traversal started at `n` visits exactly the existing nodes below `n` that are not
beyond the depth limit (and `n` itself). -/
theorem mem_traverse (maxDepth : Option Nat) (n : NodePtr) (key : List (Fin 8))
    (it : TreeIterator) :
    it ∈ traverse maxDepth key n ↔
      ∃ p, it.key = key ++ p ∧ it.node = n.find p ∧ (n.find p).isNode = true ∧
        (p = [] ∨ withinDepth maxDepth (key ++ p).length) := by
  induction n generalizing key with
  | null => simp [traverse, NodePtr.find_null, NodePtr.isNode]
  | node o c w ch ih =>
    simp only [traverse, List.mem_cons, TreeIterator.ext_iff2]
    constructor
    · rintro (⟨hk, hn⟩ | hi)
      · exact ⟨[], by simp [hk], by simp [hn, NodePtr.find], by simp [NodePtr.find, NodePtr.isNode],
          Or.inl rfl⟩
      · split at hi
        · rename_i hc
          rw [traverse_cond_iff] at hc
          simp only [List.mem_flatMap, List.mem_finRange, true_and] at hi
          obtain ⟨i, hi⟩ := hi
          obtain ⟨p, h1, h2, h3, h4⟩ := (ih i _).1 hi
          refine ⟨i :: p, by simp [h1], by simpa [NodePtr.find, NodePtr.getChild] using h2,
            by simpa [NodePtr.find, NodePtr.getChild] using h3, Or.inr ?_⟩
          rcases h4 with h4 | h4
          · subst h4; simpa using hc
          · simpa using h4
        · simp at hi
    · rintro ⟨p, h1, h2, h3, h4⟩
      cases p with
      | nil => left; exact ⟨by simpa using h1, by simpa [NodePtr.find] using h2⟩
      | cons i p =>
        right
        have h4 : withinDepth maxDepth (key ++ i :: p).length := by
          rcases h4 with h4 | h4
          · cases h4
          · exact h4
        have hc : withinDepth maxDepth (key.length + 1) := by
          cases maxDepth with
          | none => trivial
          | some d =>
            simp only [withinDepth, List.length_append, List.length_cons] at h4 ⊢
            omega
        rw [if_pos ((traverse_cond_iff _ _).2 hc)]
        simp only [List.mem_flatMap, List.mem_finRange, true_and]
        refine ⟨i, (ih i _).2 ⟨p, by simp [h1], ?_, ?_, Or.inr ?_⟩⟩
        · simpa [NodePtr.find, NodePtr.getChild] using h2
        · simpa [NodePtr.find, NodePtr.getChild] using h3
        · simpa using h4

/-- Positions visited by a traversal are pairwise different. -/
theorem nodup_traverse_keys (maxDepth : Option Nat) (n : NodePtr) (key : List (Fin 8)) :
    ((traverse maxDepth key n).map TreeIterator.key).Nodup := by
  induction n generalizing key with
  | null => simp [traverse]
  | node o c w ch ih =>
    simp only [traverse, List.map_cons, List.nodup_cons]
    split
    · rw [List.map_flatMap]
      refine ⟨?_, ?_⟩
      · simp only [List.mem_flatMap, List.mem_map, not_exists, not_and]
        rintro i _ it hit hk
        obtain ⟨p, h1, _⟩ := (mem_traverse _ _ _ _).1 hit
        rw [hk] at h1
        have := congrArg List.length h1
        simp at this
      · rw [List.nodup_flatMap]
        refine ⟨fun i _ => ih i _, ?_⟩
        refine (List.nodup_finRange 8).pairwise_of_forall_ne ?_
        intro i _ j _ hij
        simp only [Function.onFun]
        rw [List.disjoint_left]
        intro k hk1 hk2
        simp only [List.mem_map] at hk1 hk2
        obtain ⟨it1, hit1, rfl⟩ := hk1
        obtain ⟨it2, hit2, hk2⟩ := hk2
        obtain ⟨p1, h1, _⟩ := (mem_traverse _ _ _ _).1 hit1
        obtain ⟨p2, h2, _⟩ := (mem_traverse _ _ _ _).1 hit2
        rw [hk2, h1] at h2
        simp only [List.append_assoc, List.append_cancel_left_eq, List.singleton_append,
          List.cons.injEq] at h2
        exact hij h2.1
    · simp

theorem mem_begin_tree_zero (tree : OccupancyMapType) (it : TreeIterator) :
    it ∈ begin_tree tree 0 ↔ it.node = tree.find it.key ∧ (tree.find it.key).isNode = true := by
  simp only [begin_tree, if_true, mem_traverse, List.nil_append, withinDepth, or_true, and_true]
  constructor
  · rintro ⟨p, h1, h2, h3⟩
    subst h1
    exact ⟨h2, h3⟩
  · rintro ⟨h2, h3⟩
    exact ⟨it.key, rfl, h2, h3⟩

theorem generateBVHTree.loop_eq (m : OccupancyMapGeometry) (roi_bbox : BoundingBoxType)
    (l : List TreeIterator) (objects : List ObjectWithBoundingBox) :
    generateBVHTree.loop m roi_bbox l objects =
      objects ++ (l.filter (retainedLeaf m roi_bbox)).map
        (fun it =>
          ⟨(BoundingBoxType.ofCenterSize (m.getCoordinate it.key) (m.getSize it.key)).constrainTo
              roi_bbox,
            ⟨it.node.getOccupancy, it.node.getObservationCount, it.node.getWeight⟩⟩) := by
  induction l generalizing objects with
  | nil => simp [generateBVHTree.loop]
  | cons it l ih =>
    simp only [generateBVHTree.loop, TreeIterator.isLeaf, List.filter_cons, retainedLeaf]
    by_cases h1 : it.node.hasChildren = true
    · simp [h1, ih]
    · by_cases h2 : (m.isNodeFree it.node && isNodeKnown it.node) = true
      · simp [h1, h2, ih]
      · by_cases h3 : ((BoundingBoxType.ofCenterSize (m.getCoordinate it.key)
            (m.getSize it.key)).constrainTo roi_bbox).isEmpty = true
        · simp [h1, h2, h3, ih]
        · simp [h1, h2, h3, ih]

theorem BoundingBoxType.constrainTo_within (b roi : BoundingBoxType) :
    (b.constrainTo roi).within roi := by
  simp [BoundingBoxType.within, BoundingBoxType.constrainTo]

theorem isTreeConsistent.childLoop_iff (n : NodePtr) (l : List (Fin 8)) :
    isTreeConsistent.childLoop n l = true ↔ ∀ i ∈ l, n.hasChild i = true → childOK n i := by
  induction l with
  | nil => simp [isTreeConsistent.childLoop]
  | cons j l ih =>
    simp only [isTreeConsistent.childLoop, List.mem_cons, forall_eq_or_imp]
    by_cases hj : n.hasChild j = true
    · simp only [hj, if_true, forall_true_left]
      by_cases h1 : n.getObservationCount > (n.getChild j).getObservationCount
      · simp only [h1, if_true, childOK]
        constructor
        · intro h; cases h
        · rintro ⟨⟨h, _⟩, _⟩; omega
      · simp only [h1, if_false]
        by_cases h2 : n.getOccupancy < (n.getChild j).getOccupancy
        · simp only [h2, if_true, childOK]
          constructor
          · intro h; cases h
          · rintro ⟨⟨_, h⟩, _⟩; exact absurd h (not_le.2 h2)
        · simp only [h2, if_false, ih, childOK]
          constructor
          · intro h; exact ⟨⟨by omega, not_lt.1 h2⟩, h⟩
          · intro h; exact h.2
    · simp [hj, ih]

theorem isTreeConsistent.loop_iff (l : List TreeIterator) :
    isTreeConsistent.loop l = true ↔
      ∀ it ∈ l, ∀ i, it.node.hasChild i = true → childOK it.node i := by
  induction l with
  | nil => simp [isTreeConsistent.loop]
  | cons it l ih =>
    simp only [isTreeConsistent.loop, List.mem_cons, forall_eq_or_imp]
    by_cases hc : it.node.hasChildren = true
    · simp only [hc, if_true]
      by_cases hl : isTreeConsistent.childLoop it.node (List.finRange 8) = true
      · simp only [hl, if_true, ih]
        have := (isTreeConsistent.childLoop_iff _ _).1 hl
        exact ⟨fun h => ⟨fun i hi => this i (List.mem_finRange i) hi, h⟩, fun h => h.2⟩
      · simp only [hl, if_false]
        constructor
        · intro h; cases h
        · rintro ⟨h, _⟩
          exact absurd ((isTreeConsistent.childLoop_iff _ _).2 (fun i _ hi => h i hi)) hl
    · rw [if_neg hc, ih]
      constructor
      · intro h
        refine ⟨fun i hi => ?_, h⟩
        exact absurd ((NodePtr.hasChildren_iff _).2 ⟨i, hi⟩) hc
      · intro h; exact h.2

/-- Characterisation of the checker by positions in the tree. -/
theorem isTreeConsistent_iff_find (tree : OccupancyMapType) :
    isTreeConsistent tree = true ↔
      ∀ (key : List (Fin 8)) (i : Fin 8), (tree.find key).hasChild i = true →
        childOK (tree.find key) i := by
  simp only [isTreeConsistent, isTreeConsistent.loop_iff, mem_begin_tree_zero]
  constructor
  · intro h key i hi
    have hn : (tree.find key).isNode = true := by
      cases hf : tree.find key with
      | null => simp [hf, NodePtr.hasChild, NodePtr.getChild, NodePtr.isNode] at hi
      | node o c w ch => rfl
    exact h ⟨key, tree.find key⟩ ⟨rfl, hn⟩ i hi
  · rintro h it ⟨h1, _⟩ i hi
    rw [h1] at hi ⊢
    exact h it.key i hi

theorem ClipsOn.foldl {ι : Type} (F : Grid3f → ι → Grid3f) (S : ι → Nat → Nat → Nat → Prop)
    (c : Rat) (hF : ∀ df i, ClipsOn (S i) c df (F df i)) (l : List ι) (df : Grid3f) :
    ClipsOn (fun x y z => ∃ i ∈ l, S i x y z) c df (l.foldl F df) := by
  induction l generalizing df with
  | nil => intro x y z; simp
  | cons i l ih =>
    intro x y z
    have h1 := hF df i x y z
    have h2 := ih (F df i) x y z
    simp only [List.foldl_cons, List.mem_cons, exists_eq_or_imp]
    by_cases hi : S i x y z
    · by_cases hl : ∃ j ∈ l, S j x y z
      · refine ⟨fun _ => ?_, fun h => absurd (Or.inl hi) h⟩
        rw [h2.1 hl, h1.1 hi, min_assoc, min_self]
      · refine ⟨fun _ => ?_, fun h => absurd (Or.inl hi) h⟩
        rw [h2.2 hl, h1.1 hi]
    · by_cases hl : ∃ j ∈ l, S j x y z
      · refine ⟨fun _ => ?_, fun h => absurd (Or.inr hl) h⟩
        rw [h2.1 hl, h1.2 hi]
      · refine ⟨fun h => ?_, fun _ => ?_⟩
        · rcases h with h | h
          · exact absurd h hi
          · exact absurd h hl
        · rw [h2.2 hl, h1.2 hi]

theorem ClipsOn.congr {P Q : Nat → Nat → Nat → Prop} {c : Rat} {df df' : Grid3f}
    (h : ClipsOn P c df df') (hPQ : ∀ x y z, P x y z ↔ Q x y z) : ClipsOn Q c df df' := by
  intro x y z
  rw [← hPQ]
  exact h x y z

theorem generateDistanceField.clipCell_clipsOn (c : Rat) (x y : Nat) (df : Grid3f) (z : Nat) :
    ClipsOn (fun a b d => a = x ∧ b = y ∧ d = z) c df
      (generateDistanceField.clipCell c x y df z) := by
  intro a b d
  unfold generateDistanceField.clipCell
  by_cases hgt : df.data x y z > c
  · rw [if_pos hgt]
    constructor
    · rintro ⟨rfl, rfl, rfl⟩
      simp [Grid3f.set, min_eq_right (le_of_lt hgt)]
    · intro h
      simp [Grid3f.set, h]
  · rw [if_neg hgt]
    constructor
    · rintro ⟨rfl, rfl, rfl⟩
      rw [min_eq_left (not_lt.1 hgt)]
    · intro _; rfl

theorem generateDistanceField.clip_clipsOn (g : GridGeometry) (c : Rat) (df : Grid3f) :
    ClipsOn (fun x y z => x < g.grid_dim_.x.toNat ∧ y < g.grid_dim_.y.toNat ∧
      z < g.grid_dim_.z.toNat) c df (generateDistanceField.clip g c df) := by
  unfold generateDistanceField.clip
  refine (ClipsOn.foldl _ (fun x a b d => a = x ∧ b < g.grid_dim_.y.toNat ∧
    d < g.grid_dim_.z.toNat) c ?_ _ df).congr ?_
  · intro df x
    refine (ClipsOn.foldl _ (fun y a b d => a = x ∧ b = y ∧ d < g.grid_dim_.z.toNat) c ?_ _
      df).congr ?_
    · intro df y
      refine (ClipsOn.foldl _ (fun z a b d => a = x ∧ b = y ∧ d = z) c ?_ _ df).congr ?_
      · intro df z
        exact generateDistanceField.clipCell_clipsOn c x y df z
      · intro a b d
        simp only [List.mem_range]
        constructor
        · rintro ⟨z, hz, h1, h2, rfl⟩; exact ⟨h1, h2, hz⟩
        · rintro ⟨h1, h2, hz⟩; exact ⟨d, hz, h1, h2, rfl⟩
    · intro a b d
      simp only [List.mem_range]
      constructor
      · rintro ⟨y, hy, h1, rfl, h3⟩; exact ⟨h1, hy, h3⟩
      · rintro ⟨h1, hy, h3⟩; exact ⟨b, hy, h1, rfl, h3⟩
  · intro a b d
    simp only [List.mem_range]
    constructor
    · rintro ⟨x, hx, rfl, h2, h3⟩; exact ⟨hx, h2, h3⟩
    · rintro ⟨hx, h2, h3⟩; exact ⟨a, hx, rfl, h2, h3⟩

theorem generateDistanceField_ok_iff (N : Nat) (c : Rat) (bbox : BoundingBoxType)
    (mesh : MeshType) (norm : Vector3 → Rat) (transform : Grid3f → Grid3f)
    (g : GridGeometry) (df : Grid3f) :
    generateDistanceField N c bbox mesh norm transform = .ok (g, df) ↔
      ∃ seed, generateDistanceField.seedGrid N bbox mesh norm = .ok seed ∧
        g = generateDistanceField.setupGrid N bbox ∧
        df = generateDistanceField.clip (generateDistanceField.setupGrid N bbox) c
          (transform seed) := by
  unfold generateDistanceField
  cases h : generateDistanceField.seedGrid N bbox mesh norm with
  | error e => simp
  | ok seed =>
    simp only [Except.ok.injEq, Prod.mk.injEq, exists_eq_left']
    constructor
    · rintro ⟨h1, h2⟩; exact ⟨h1.symm, h2.symm⟩
    · rintro ⟨h1, h2⟩; exact ⟨h1.symm, h2.symm⟩

/-- The value of a cell of the grid after `generateDistanceField`. -/
theorem generateDistanceField_cell (N : Nat) (c : Rat) (bbox : BoundingBoxType)
    (mesh : MeshType) (norm : Vector3 → Rat) (transform : Grid3f → Grid3f)
    (g : GridGeometry) (df seed : Grid3f)
    (hs : generateDistanceField.seedGrid N bbox mesh norm = .ok seed)
    (h : generateDistanceField N c bbox mesh norm transform = .ok (g, df))
    (x y z : Nat) (hx : x < N) (hy : y < N) (hz : z < N) :
    df.data x y z = Min.min ((transform seed).data x y z) c := by
  obtain ⟨seed', hs', -, rfl⟩ := (generateDistanceField_ok_iff _ _ _ _ _ _ _ _).1 h
  rw [hs] at hs'
  cases hs'
  exact ((generateDistanceField.clip_clipsOn _ c (transform seed)) x y z).1
    (by simpa [generateDistanceField.setupGrid] using ⟨hx, hy, hz⟩)

theorem roundNearestEven_eq (q : Rat) (n : Int) (h1 : (n : Rat) - 1 / 2 < q)
    (h2 : q < n + 1 / 2) : roundNearestEven q = n := by
  unfold roundNearestEven
  have hf1 : ((⌊q⌋ : Int) : Rat) ≤ q := Int.floor_le q
  have hf2 : q < ⌊q⌋ + 1 := Int.lt_floor_add_one q
  split
  · rename_i h
    have ha : ((⌊q⌋ : Int) : Rat) < n + 1 := by linarith
    have hb : (n : Rat) - 1 < ⌊q⌋ := by linarith
    have ha' : ⌊q⌋ < n + 1 := by exact_mod_cast ha
    have hb' : n - 1 < ⌊q⌋ := by exact_mod_cast hb
    omega
  · rename_i h
    split
    · rename_i h'
      have ha : ((⌊q⌋ : Int) : Rat) < n := by linarith
      have hb : (n : Rat) - 2 < ⌊q⌋ := by linarith
      have ha' : ⌊q⌋ < n := by exact_mod_cast ha
      have hb' : n - 2 < ⌊q⌋ := by exact_mod_cast hb
      omega
    · rename_i h'
      have he : q - ⌊q⌋ = 1 / 2 := le_antisymm (not_lt.1 h') (not_lt.1 h)
      have ha : ((⌊q⌋ : Int) : Rat) < n := by linarith
      have hb : (n : Rat) - 1 < ⌊q⌋ := by linarith
      have ha' : ⌊q⌋ < n := by exact_mod_cast ha
      have hb' : n - 1 < ⌊q⌋ := by exact_mod_cast hb
      omega

theorem roundNearestEven_intCast (n : Int) : roundNearestEven n = n :=
  roundNearestEven_eq n n (by linarith) (by linarith)

theorem abs_roundNearestEven_sub_le (q : Rat) : |(roundNearestEven q : Rat) - q| ≤ 1 / 2 := by
  unfold roundNearestEven
  have hf1 : ((⌊q⌋ : Int) : Rat) ≤ q := Int.floor_le q
  have hf2 : q < ⌊q⌋ + 1 := Int.lt_floor_add_one q
  rw [abs_le]
  split
  · constructor <;> linarith
  · rename_i h
    split
    · push_cast; constructor <;> linarith
    · rename_i h'
      split
      · constructor <;> linarith
      · push_cast; constructor <;> linarith

theorem fl32.exponent_eq (q : Rat) (e : Int) (h1 : (2 : Rat) ^ e ≤ |q|)
    (h2 : |q| < (2 : Rat) ^ (e + 1)) (he : -126 ≤ e) : fl32.exponent q = e := by
  have hpos : 0 < |q| := lt_of_lt_of_le (by positivity) h1
  have hlog : Int.log 2 |q| = e := by
    apply le_antisymm
    · have := (Int.lt_zpow_iff_log_lt (by norm_num : 1 < 2) hpos).1 (by exact_mod_cast h2)
      omega
    · exact (Int.zpow_le_iff_le_log (by norm_num : 1 < 2) hpos).1 (by exact_mod_cast h1)
  unfold fl32.exponent
  rw [hlog]
  exact max_eq_left he

theorem fl32_eq (q : Rat) (e n : Int) (h1 : (2 : Rat) ^ e ≤ |q|)
    (h2 : |q| < (2 : Rat) ^ (e + 1)) (he : -126 ≤ e)
    (hn1 : (n : Rat) - 1 / 2 < q / 2 ^ (e - 23)) (hn2 : q / 2 ^ (e - 23) < n + 1 / 2) :
    fl32 q = n * 2 ^ (e - 23) := by
  have hpos : 0 < |q| := lt_of_lt_of_le (by positivity) h1
  have hq : q ≠ 0 := abs_pos.1 hpos
  unfold fl32
  rw [if_neg hq, fl32.exponent_eq q e h1 h2 he, roundNearestEven_eq _ n hn1 hn2]

/-- A value with a significand of 24 bits is not changed by the rounding. -/
theorem fl32_of_significand (n e : Int) (h1 : 2 ^ 23 ≤ |n|) (h2 : |n| < 2 ^ 24)
    (he : -126 ≤ e) : fl32 (n * 2 ^ (e - 23)) = n * 2 ^ (e - 23) := by
  have hu : (0 : Rat) < 2 ^ (e - 23) := by positivity
  have h1' : (2 : Rat) ^ 23 ≤ |(n : Rat)| := by exact_mod_cast h1
  have h2' : |(n : Rat)| < 2 ^ 24 := by exact_mod_cast h2
  apply fl32_eq _ e n _ _ he
  · rw [mul_div_assoc, div_self (ne_of_gt hu)]; linarith
  · rw [mul_div_assoc, div_self (ne_of_gt hu)]; linarith
  · rw [abs_mul, abs_of_pos hu]
    calc (2 : Rat) ^ e = 2 ^ (23 : Int) * 2 ^ (e - 23) := by
          rw [← zpow_add₀ (by norm_num)]; congr 1; ring
      _ ≤ |(n : Rat)| * 2 ^ (e - 23) := by
          apply mul_le_mul_of_nonneg_right _ (le_of_lt hu)
          exact_mod_cast h1'
  · rw [abs_mul, abs_of_pos hu]
    calc |(n : Rat)| * 2 ^ (e - 23) < 2 ^ (24 : Int) * 2 ^ (e - 23) := by
          apply mul_lt_mul_of_pos_right _ hu
          exact_mod_cast h2'
      _ = 2 ^ (e + 1) := by
          rw [← zpow_add₀ (by norm_num)]; congr 1; ring

/-- The relative error of the rounding is at most `2 ^ (-24)` in the normal range. -/
theorem abs_fl32_sub_le (q : Rat) (h : (2 : Rat) ^ (-126 : Int) ≤ |q|) :
    |fl32 q - q| ≤ |q| / 2 ^ 24 := by
  have hpos : 0 < |q| := lt_of_lt_of_le (by positivity) h
  have hq : q ≠ 0 := abs_pos.1 hpos
  have hle : (-126 : Int) ≤ Int.log 2 |q| :=
    (Int.zpow_le_iff_le_log (by norm_num : 1 < 2) hpos).1 (by exact_mod_cast h)
  have hex : fl32.exponent q = Int.log 2 |q| := max_eq_left hle
  have h2e : (2 : Rat) ^ Int.log 2 |q| ≤ |q| := by
    have := Int.zpow_log_le_self (by norm_num : 1 < 2) hpos
    exact_mod_cast this
  unfold fl32
  rw [if_neg hq, hex]
  set e := Int.log 2 |q| with he
  have hu : (0 : Rat) < 2 ^ (e - 23) := by positivity
  have hr := abs_roundNearestEven_sub_le (q / 2 ^ (e - 23))
  have : (roundNearestEven (q / 2 ^ (e - 23)) : Rat) * 2 ^ (e - 23) - q =
      ((roundNearestEven (q / 2 ^ (e - 23)) : Rat) - q / 2 ^ (e - 23)) * 2 ^ (e - 23) := by
    field_simp
  rw [this, abs_mul, abs_of_pos hu]
  calc |(roundNearestEven (q / 2 ^ (e - 23)) : Rat) - q / 2 ^ (e - 23)| * 2 ^ (e - 23)
      ≤ 1 / 2 * 2 ^ (e - 23) := mul_le_mul_of_nonneg_right hr (le_of_lt hu)
    _ = 2 ^ e / 2 ^ 24 := by
        rw [zpow_sub₀ (by norm_num : (2 : Rat) ≠ 0)]
        norm_num
        ring
    _ ≤ |q| / 2 ^ 24 := by
        apply div_le_div_of_nonneg_right h2e (by positivity)

theorem fl32_eq_self (q : Rat) (n e : Int) (hq : q = n * 2 ^ (e - 23)) (h1 : 2 ^ 23 ≤ |n|)
    (h2 : |n| < 2 ^ 24) (he : -126 ≤ e) : fl32 q = q := by
  subst hq
  exact fl32_of_significand n e h1 h2 he

theorem fl32_one : fl32 1 = 1 :=
  fl32_eq_self 1 8388608 0 (by norm_num) (by norm_num) (by norm_num) (by norm_num)

theorem fl32_five : fl32 5 = 5 :=
  fl32_eq_self 5 10485760 2 (by norm_num) (by norm_num) (by norm_num) (by norm_num)

theorem roundToInt_eq (q : Rat) (z : Int) (h0 : 0 ≤ q) (h1 : (z : Rat) ≤ q + 1 / 2)
    (h2 : q + 1 / 2 < z + 1) : roundToInt q = z := by
  unfold roundToInt
  rw [if_pos h0, Int.floor_eq_iff]
  exact ⟨h1, h2⟩

theorem setupGrid_exampleBox :
    generateDistanceField.setupGrid 4 exampleBox =
      ⟨⟨4, 4, 4⟩, ⟨0, 0, 0⟩, 1, ⟨⟨0, 0, 0⟩, ⟨5, 5, 5⟩⟩⟩ := by
  have h5 : ((4 : Rat) + 1) = 5 := by norm_num
  simp [generateDistanceField.setupGrid, exampleBox, BoundingBoxType.getMaxExtent, h5, fl32_five,
    fl32_one]

theorem fl32_natCast (n : Nat) (h : n < 2 ^ 24) : fl32 (n : Rat) = n := by
  by_cases h0 : n = 0
  · subst h0; simp [fl32]
  have hq : (n : Rat) ≠ 0 := by exact_mod_cast h0
  have h1 : (1 : Rat) ≤ n := by exact_mod_cast Nat.one_le_iff_ne_zero.2 h0
  have habs : |(n : Rat)| = n := abs_of_nonneg (by positivity)
  have hpos : (0 : Rat) < n := by linarith
  have hlo : (0 : Int) ≤ Int.log 2 (n : Rat) :=
    (Int.zpow_le_iff_le_log (by norm_num : 1 < 2) hpos).1 (by simpa using h1)
  have hhi : Int.log 2 (n : Rat) < 24 :=
    (Int.lt_zpow_iff_log_lt (by norm_num : 1 < 2) hpos).1 (by
      have : (n : Rat) < 2 ^ (24 : Nat) := by exact_mod_cast h
      exact_mod_cast this)
  have hex : fl32.exponent (n : Rat) = Int.log 2 (n : Rat) := by
    unfold fl32.exponent
    rw [habs]
    exact max_eq_left (by omega)
  unfold fl32
  rw [if_neg hq, hex]
  obtain ⟨k, hk⟩ : ∃ k : Nat, (k : Int) = 23 - Int.log 2 (n : Rat) := ⟨(23 - Int.log 2 (n : Rat)).toNat, by omega⟩
  have he : Int.log 2 (n : Rat) - 23 = -(k : Int) := by omega
  rw [he, zpow_neg, zpow_natCast]
  have hint : (n : Rat) / (2 ^ k)⁻¹ = (((n * 2 ^ k : Nat) : Int) : Rat) := by
    push_cast
    field_simp
  rw [hint, roundNearestEven_intCast]
  push_cast
  field_simp

theorem fl32_inv_41 : fl32 (1 / 41) = 3273603 / 134217728 := by
  have := fl32_eq (1 / 41) (-6) 13094412 (by rw [abs_of_pos] <;> norm_num)
    (by rw [abs_of_pos] <;> norm_num) (by norm_num) (by norm_num) (by norm_num)
  rw [this]; norm_num

theorem fl32_scaled_41 : fl32 (3273603 / 134217728 * 41) = 16777215 / 16777216 := by
  have := fl32_eq (3273603 / 134217728 * 41) (-1) 16777215 (by rw [abs_of_pos] <;> norm_num)
    (by rw [abs_of_pos] <;> norm_num) (by norm_num) (by norm_num) (by norm_num)
  rw [this]; norm_num

theorem fl32_below_one : fl32 (16777215 / 16777216) = 16777215 / 16777216 :=
  fl32_eq_self _ 16777215 (-1) (by norm_num) (by norm_num) (by norm_num) (by norm_num)

theorem setupGrid_unitCube :
    generateDistanceField.setupGrid 40 unitCube =
      ⟨⟨40, 40, 40⟩, ⟨0, 0, 0⟩, 3273603 / 134217728,
        ⟨⟨0, 0, 0⟩, ⟨16777215 / 16777216, 16777215 / 16777216, 16777215 / 16777216⟩⟩⟩ := by
  have h41 : ((40 : Rat) + 1) = 41 := by norm_num
  have hf : fl32 41 = 41 :=
    fl32_eq_self 41 10747904 5 (by norm_num) (by norm_num) (by norm_num) (by norm_num)
  simp only [generateDistanceField.setupGrid, unitCube, BoundingBoxType.getMaxExtent,
    Nat.cast_ofNat, h41, hf, sub_zero, max_self, fl32_inv_41, fl32_scaled_41, zero_add,
    fl32_below_one]

theorem getMaxExtent_exampleBox : exampleBox.getMaxExtent = 5 := by
  simp [exampleBox, BoundingBoxType.getMaxExtent]

theorem seedGrid_exampleMesh :
    generateDistanceField.seedGrid 4 exampleBox exampleMesh normL1 = .ok exampleSeed := by
  have r0 : roundToInt 0 = 0 := roundToInt_eq 0 0 (by norm_num) (by norm_num) (by norm_num)
  simp [generateDistanceField.seedGrid, setupGrid_exampleBox, exampleMesh,
    generateDistanceField.seedLoop, Vector3.add, Vector3.sdiv, Vector3.sub, Vector3.smul,
    isInsideGrid, BoundingBoxType.isInside, getGridIndices, getGridIndices.adjust, r0,
    Grid3f.inRange, Grid3f.filled, getGridPosition, Vector3i.castFloat, normL1, floatMax,
    exampleSeed]

theorem finRange8 : List.finRange 8 = [0, 1, 2, 3, 4, 5, 6, 7] := by decide

theorem generateBVHTree_scenarioTree :
    generateBVHTree exampleGeometry exampleRoi scenarioTree =
      [⟨⟨⟨-1, -1, -1⟩, ⟨1, 1, 1⟩⟩, ⟨4/5, 20, 0⟩⟩] := by
  simp [generateBVHTree, begin_tree, traverse, generateBVHTree.loop, finRange8, scenarioTree,
    TreeIterator.isLeaf, NodePtr.hasChildren, NodePtr.hasChild, NodePtr.getChild, NodePtr.isNode,
    OccupancyMapGeometry.isNodeFree, isNodeKnown, exampleGeometry,
    exampleRoi, BoundingBoxType.constrainTo, BoundingBoxType.ofCenterSize,
    BoundingBoxType.isEmpty, NodePtr.getOccupancy, NodePtr.getObservationCount,
    NodePtr.getWeight]
  norm_num

/-! ## Lemmas on the augmentation -/

theorem accumulateWeight_eq (k : AugmentationConstants) (n : NodePtr) (depth : Nat)
    (total : Rat) : accumulateWeight k depth n total = total := by
  induction n generalizing depth total with
  | null => rfl
  | node o c w ch ih =>
    unfold accumulateWeight
    split
    · generalize (List.finRange 8).reverse = l
      induction l generalizing total with
      | nil => rfl
      | cons i l ihl =>
        rw [List.foldl_cons, ihl]
        split
        · exact ih i _ _
        · rfl
    · split
      · simp
      · rfl

theorem weightsZero_find (n : NodePtr) (key : List (Fin 8)) (h : weightsZero n) :
    weightsZero (n.find key) := by
  induction key generalizing n with
  | nil => exact h
  | cons i key ih =>
    cases n with
    | null => simpa [NodePtr.find, NodePtr.getChild, NodePtr.find_null] using trivial
    | node o c w ch => exact ih _ (h.2 i)

theorem weightsZero_getWeight (n : NodePtr) (h : weightsZero n) : n.getWeight = 0 := by
  cases n with
  | null => rfl
  | node o c w ch => exact h.1

theorem passWeightDown_zero (n : NodePtr) (key : List (Fin 8)) (h : weightsZero n) :
    passWeightDown 0 key n = .ok (n, passOrder key n) := by
  induction n generalizing key with
  | null => rfl
  | node o c w ch ih =>
    obtain ⟨hw, hch⟩ := h
    subst hw
    have hi : ∀ i, passWeightDown 0 (key ++ [i]) (ch i) = .ok (ch i, passOrder (key ++ [i]) (ch i)) :=
      fun i => ih i _ (hch i)
    simp only [passWeightDown, hi, Except.toBool, if_true, List.all_eq_true, implies_true,
      passOrder]

theorem NodePtr.replaceAt_find (n : NodePtr) (key : List (Fin 8)) :
    n.replaceAt key (n.find key) = n := by
  induction key generalizing n with
  | nil => cases n <;> rfl
  | cons i key ih =>
    cases n with
    | null => rfl
    | node o c w ch =>
      simp only [NodePtr.replaceAt, NodePtr.find, NodePtr.getChild, ih, Function.update_eq_self]

theorem generateAugmentedOctree.queryLoop_zero (k : AugmentationConstants)
    (queries : List (List (Fin 8))) (tree : OccupancyMapType)
    (writes : List (List (Fin 8) × List (Fin 8))) (h : weightsZero tree) :
    generateAugmentedOctree.queryLoop k queries ⟨tree, 0, writes⟩ =
      .ok ⟨tree, 0, writes ++ queries.flatMap
        (fun q => (passOrder q (tree.find q)).map (fun key => (q, key)))⟩ := by
  induction queries generalizing writes with
  | nil => simp [generateAugmentedOctree.queryLoop]
  | cons q rest ih =>
    simp only [generateAugmentedOctree.queryLoop, accumulateWeight_eq, gt_iff_lt, lt_self_iff_false,
      if_false, passWeightDown_zero _ _ (weightsZero_find tree q h), NodePtr.replaceAt_find, ih,
      List.flatMap_cons, List.append_assoc]

theorem weightsZero_convert (n : NodePtr) : weightsZero (convertToAugmentedMap n) := by
  induction n with
  | null => trivial
  | node o c w ch ih => exact ⟨rfl, ih⟩

theorem find_convert (n : NodePtr) (key : List (Fin 8)) :
    (convertToAugmentedMap n).find key = convertToAugmentedMap (n.find key) := by
  induction key generalizing n with
  | nil => rfl
  | cons i key ih =>
    cases n with
    | null => simp [NodePtr.find, NodePtr.getChild, convertToAugmentedMap, NodePtr.find_null]
    | node o c w ch => simp [NodePtr.find, NodePtr.getChild, convertToAugmentedMap, ih]

theorem getChild_convert (n : NodePtr) (i : Fin 8) :
    (convertToAugmentedMap n).getChild i = convertToAugmentedMap (n.getChild i) := by
  cases n <;> rfl

theorem isNode_convert (n : NodePtr) : (convertToAugmentedMap n).isNode = n.isNode := by
  cases n <;> rfl

theorem getOccupancy_convert (n : NodePtr) :
    (convertToAugmentedMap n).getOccupancy = n.getOccupancy := by
  cases n <;> rfl

theorem getObservationCount_convert (n : NodePtr) :
    (convertToAugmentedMap n).getObservationCount = n.getObservationCount := by
  cases n <;> rfl

theorem isTreeConsistent_convert (tree : OccupancyMapType) :
    isTreeConsistent (convertToAugmentedMap tree) = isTreeConsistent tree := by
  rw [Bool.eq_iff_iff, isTreeConsistent_iff_find, isTreeConsistent_iff_find]
  simp only [find_convert, NodePtr.hasChild, childOK, getChild_convert, isNode_convert,
    getOccupancy_convert, getObservationCount_convert]

/-- The outcome of `generateAugmentedOctree`. -/
theorem generateAugmentedOctree_eq (k : AugmentationConstants) (raw : OccupancyMapType) :
    generateAugmentedOctree k raw =
      if isTreeConsistent raw = false then .error "Input tree is inconsistent"
      else if ¬ ((k.OCCUPANCY_WEIGHT_DEPTH : Int) - (k.OCCUPANCY_WEIGHT_REACH : Int) > 0) then
        .error "Assertion failed: OCCUPANCY_WEIGHT_DEPTH - OCCUPANCY_WEIGHT_REACH > 0"
      else if ¬ (k.OCCUPANCY_WEIGHT_DEPTH_CUTOFF > k.OCCUPANCY_WEIGHT_DEPTH) then
        .error "Assertion failed: OCCUPANCY_WEIGHT_DEPTH_CUTOFF > OCCUPANCY_WEIGHT_DEPTH"
      else .ok ⟨convertToAugmentedMap raw, 0,
        (generateAugmentedOctree.collectQueryNodes k (convertToAugmentedMap raw)).flatMap
          (fun q => (passOrder q ((convertToAugmentedMap raw).find q)).map
            (fun key => (q, key)))⟩ := by
  unfold generateAugmentedOctree
  simp only [isTreeConsistent_convert,
    generateAugmentedOctree.queryLoop_zero k _ _ _ (weightsZero_convert raw), List.nil_append]
  cases isTreeConsistent raw <;> simp

theorem NodePtr.isNode_find_of_append (n : NodePtr) (p s : List (Fin 8))
    (h : (n.find (p ++ s)).isNode = true) : (n.find p).isNode = true := by
  rw [NodePtr.find_append] at h
  cases hp : n.find p with
  | null => rw [hp, NodePtr.find_null] at h; exact h
  | node o c w ch => rfl

theorem mem_passOrder (n : NodePtr) (key p : List (Fin 8)) :
    p ∈ passOrder key n ↔ ∃ s, p = key ++ s ∧ (n.find s).isNode = true := by
  induction n generalizing key with
  | null => simp [passOrder, NodePtr.find_null, NodePtr.isNode]
  | node o c w ch ih =>
    simp only [passOrder, List.mem_cons, List.mem_flatMap, List.mem_reverse, List.mem_finRange,
      true_and, ih]
    constructor
    · rintro (rfl | ⟨i, s, rfl, hs⟩)
      · exact ⟨[], by simp, rfl⟩
      · exact ⟨i :: s, by simp, by simpa [NodePtr.find, NodePtr.getChild] using hs⟩
    · rintro ⟨s, rfl, hs⟩
      cases s with
      | nil => left; simp
      | cons i s =>
        right
        exact ⟨i, s, by simp, by simpa [NodePtr.find, NodePtr.getChild] using hs⟩

theorem nodup_passOrder (n : NodePtr) (key : List (Fin 8)) : (passOrder key n).Nodup := by
  induction n generalizing key with
  | null => simp [passOrder]
  | node o c w ch ih =>
    simp only [passOrder, List.nodup_cons]
    refine ⟨?_, ?_⟩
    · simp only [List.mem_flatMap, mem_passOrder, not_exists, not_and]
      rintro i _ s hs
      have := congrArg List.length hs
      simp at this
    · rw [List.nodup_flatMap]
      refine ⟨fun i _ => ih i _, ?_⟩
      refine (List.nodup_reverse.2 (List.nodup_finRange 8)).pairwise_of_forall_ne ?_
      intro i _ j _ hij
      simp only [Function.onFun]
      rw [List.disjoint_left]
      intro p hp1 hp2
      obtain ⟨s1, h1, _⟩ := (mem_passOrder _ _ _).1 hp1
      obtain ⟨s2, h2, _⟩ := (mem_passOrder _ _ _).1 hp2
      rw [h1] at h2
      simp only [List.append_assoc, List.append_cancel_left_eq, List.singleton_append,
        List.cons.injEq] at h2
      exact hij h2.1

theorem generateAugmentedOctree.mem_collectQueryNodes (k : AugmentationConstants)
    (tree : OccupancyMapType) (q : List (Fin 8)) :
    q ∈ generateAugmentedOctree.collectQueryNodes k tree ↔
      q.length = k.OCCUPANCY_WEIGHT_DEPTH ∧ (tree.find q).isNode = true := by
  simp only [generateAugmentedOctree.collectQueryNodes, List.mem_map, List.mem_filter,
    begin_tree, mem_traverse, List.nil_append, TreeIterator.getDepth, beq_iff_eq]
  constructor
  · rintro ⟨it, ⟨⟨p, h1, _, h3, _⟩, hd⟩, rfl⟩
    exact ⟨hd, by rw [h1]; exact h3⟩
  · rintro ⟨hd, hn⟩
    refine ⟨⟨q, tree.find q⟩, ⟨⟨q, rfl, rfl, hn, Or.inr ?_⟩, hd⟩, rfl⟩
    by_cases h0 : k.OCCUPANCY_WEIGHT_DEPTH = 0
    · simp [h0, withinDepth]
    · simp [h0, withinDepth, hd]

theorem generateAugmentedOctree.nodup_collectQueryNodes (k : AugmentationConstants)
    (tree : OccupancyMapType) : (generateAugmentedOctree.collectQueryNodes k tree).Nodup := by
  unfold generateAugmentedOctree.collectQueryNodes
  exact ((List.filter_sublist _).map _).nodup (nodup_traverse_keys _ _ _)

/-- What a successful run of `generateAugmentedOctree` returns. -/
theorem generateAugmentedOctree_ok (k : AugmentationConstants) (raw : OccupancyMapType)
    (st : AugmentState) (h : generateAugmentedOctree k raw = .ok st) :
    isTreeConsistent raw = true ∧
    st = ⟨convertToAugmentedMap raw, 0,
        (generateAugmentedOctree.collectQueryNodes k (convertToAugmentedMap raw)).flatMap
          (fun q => (passOrder q ((convertToAugmentedMap raw).find q)).map
            (fun key => (q, key)))⟩ := by
  rw [generateAugmentedOctree_eq] at h
  split at h
  · cases h
  · rename_i hc
    split at h
    · cases h
    · split at h
      · cases h
      · exact ⟨by simpa using hc, by cases h; rfl⟩

/-- The record of the writes of a successful run. -/
theorem generateAugmentedOctree_writes (k : AugmentationConstants) (raw : OccupancyMapType)
    (st : AugmentState) (h : generateAugmentedOctree k raw = .ok st) (q p : List (Fin 8)) :
    (q, p) ∈ st.writes ↔
      q ∈ generateAugmentedOctree.collectQueryNodes k st.output_tree ∧
        (∃ s, p = q ++ s) ∧ (st.output_tree.find p).isNode = true := by
  obtain ⟨-, rfl⟩ := generateAugmentedOctree_ok k raw st h
  simp only [List.mem_flatMap, List.mem_map, Prod.mk.injEq, mem_passOrder]
  constructor
  · rintro ⟨q', hq', p', ⟨s, rfl, hs⟩, rfl, rfl⟩
    refine ⟨hq', ⟨s, rfl⟩, ?_⟩
    rw [NodePtr.find_append]; exact hs
  · rintro ⟨hq, ⟨s, rfl⟩, hn⟩
    refine ⟨q, hq, q ++ s, ⟨s, rfl, ?_⟩, rfl, rfl⟩
    rw [← NodePtr.find_append]; exact hn

theorem generateAugmentedOctree_writes_nodup (k : AugmentationConstants)
    (raw : OccupancyMapType) (st : AugmentState)
    (h : generateAugmentedOctree k raw = .ok st) : (st.writes.map Prod.snd).Nodup := by
  obtain ⟨-, rfl⟩ := generateAugmentedOctree_ok k raw st h
  simp only [List.map_flatMap, List.map_map, Function.comp_def, List.map_id']
  rw [List.nodup_flatMap]
  refine ⟨fun q _ => nodup_passOrder _ _, ?_⟩
  refine (generateAugmentedOctree.nodup_collectQueryNodes k _).pairwise_of_forall_ne ?_
  intro q1 hq1 q2 hq2 hne
  simp only [Function.onFun]
  rw [List.disjoint_left]
  intro p hp1 hp2
  obtain ⟨s1, h1, _⟩ := (mem_passOrder _ _ _).1 hp1
  obtain ⟨s2, h2, _⟩ := (mem_passOrder _ _ _).1 hp2
  have hl1 := ((generateAugmentedOctree.mem_collectQueryNodes _ _ _).1 hq1).1
  have hl2 := ((generateAugmentedOctree.mem_collectQueryNodes _ _ _).1 hq2).1
  rw [h1] at h2
  exact hne (List.append_inj_left h2 (hl1.trans hl2.symm))

theorem isTreeConsistent_consistentTree : isTreeConsistent consistentTree = true := by
  simp [isTreeConsistent, begin_tree, traverse, finRange8, consistentTree,
    isTreeConsistent.loop, isTreeConsistent.childLoop, NodePtr.hasChildren, NodePtr.hasChild,
    NodePtr.getChild, NodePtr.isNode, NodePtr.getOccupancy, NodePtr.getObservationCount]
  norm_num

theorem generateAugmentedOctree_consistentTree :
    generateAugmentedOctree exampleConstants consistentTree =
      .ok ⟨convertToAugmentedMap consistentTree, 0, [([0], [0]), ([0], [0, 3])]⟩ := by
  rw [generateAugmentedOctree_eq, isTreeConsistent_consistentTree]
  simp [exampleConstants,
    generateAugmentedOctree.collectQueryNodes, begin_tree, traverse, finRange8, consistentTree,
    convertToAugmentedMap, TreeIterator.getDepth, passOrder, NodePtr.find, NodePtr.getChild]

theorem isNode_consistentTree_0_3 :
    ((convertToAugmentedMap consistentTree).find ([0] ++ [3])).isNode = true := by
  simp [consistentTree, convertToAugmentedMap, NodePtr.find, NodePtr.getChild, NodePtr.isNode]

theorem isTreeConsistent_scenarioTree : isTreeConsistent scenarioTree = false := by
  rw [← Bool.not_eq_true, isTreeConsistent_iff_find]
  intro h
  have := (h [] 0 (by simp [NodePtr.find, scenarioTree, NodePtr.hasChild, NodePtr.getChild,
    NodePtr.isNode])).2
  simp [NodePtr.find, scenarioTree, NodePtr.getChild, NodePtr.getOccupancy] at this
  norm_num at this

/-! ## Lemmas on the cache protocol -/

theorem readAndAugmentOctree_spec (w : World) (cache src : String) (t : Nat)
    (hsrc : w.last_write_time src = some t) :
    ∃ generated w', readAndAugmentOctree w cache src false = .ok (generated, w') ∧
      (generated = true ↔ cacheNotNewer w cache t) ∧
      readOutcome .augmentedTree cache w generated w' := by
  unfold readAndAugmentOctree cacheNotNewer readOutcome
  cases hc : w.last_write_time cache with
  | none => simp [hsrc, World.log, World.write]
  | some tc =>
    by_cases h : tc > t
    · simp [hsrc, h, World.log, not_le.2 h]
    · simp [hsrc, h, World.log, World.write, not_lt.1 h]

theorem readBVHTree_spec (w : World) (cache src : String) (t : Nat)
    (hsrc : w.last_write_time src = some t) :
    ∃ generated w', readBVHTree w cache src = .ok (generated, w') ∧
      (generated = true ↔ cacheNotNewer w cache t) ∧
      readOutcome .bvh cache w generated w' := by
  unfold readBVHTree cacheNotNewer readOutcome
  cases hc : w.last_write_time cache with
  | none => simp [World.log, World.write]
  | some tc =>
    by_cases h : tc > t
    · simp [hsrc, h, World.log, not_le.2 h]
    · simp [hsrc, h, World.log, World.write, not_lt.1 h]

theorem readMeshDistanceField_spec (w : World) (cache src : String) (t : Nat)
    (hsrc : w.last_write_time src = some t) :
    ∃ generated w', readMeshDistanceField w cache src = .ok (generated, w') ∧
      (generated = true ↔ cacheNotNewer w cache t) ∧
      readOutcome .distanceField cache w generated w' := by
  unfold readMeshDistanceField cacheNotNewer readOutcome
  cases hc : w.last_write_time cache with
  | none => simp [World.log, World.write]
  | some tc =>
    by_cases h : tc > t
    · simp [hsrc, h, World.log, not_le.2 h]
    · simp [hsrc, h, World.log, World.write, not_lt.1 h]

/-! ## Lemmas on the constructor -/

theorem exampleFilenames_eq :
    exampleFilenames =
      ⟨"tree.ot", "mesh.ply", "tree.ot.aug", "tree.ot.aug.bvh", "mesh.ply.df"⟩ := by
  rfl

theorem World.advance_last_write_time (w : World) (d : Nat) :
    (w.advance d).last_write_time = w.last_write_time := rfl

theorem World.advance_now (w : World) (d : Nat) : (w.advance d).now = w.now + d := rfl

theorem World.advance_events (w : World) (d : Nat) : (w.advance d).events = w.events := rfl

theorem World.log_last_write_time (w : World) (ev : Event) :
    (w.log ev).last_write_time = w.last_write_time := rfl

theorem World.log_now (w : World) (ev : Event) : (w.log ev).now = w.now := rfl

theorem World.log_events (w : World) (ev : Event) : (w.log ev).events = w.events ++ [ev] := rfl

theorem World.write_last_write_time (w : World) (file name : String) :
    (w.write file).last_write_time name =
      if name = file then some w.now else w.last_write_time name := rfl

theorem World.write_now (w : World) (file : String) : (w.write file).now = w.now := rfl

theorem World.write_events (w : World) (file : String) :
    (w.write file).events = w.events ++ [Event.write file] := rfl

theorem cacheNewer_iff (w : World) (cache source : String) :
    cacheNewer w cache source = true ↔
      ∃ tc ts, w.last_write_time cache = some tc ∧ w.last_write_time source = some ts ∧
        ts < tc := by
  unfold cacheNewer
  cases w.last_write_time cache with
  | none => simp
  | some tc =>
    cases w.last_write_time source with
    | none => simp
    | some ts => simp

theorem cacheNewer_congr (w' w : World) (cache source : String)
    (h : w'.last_write_time = w.last_write_time) :
    cacheNewer w' cache source = cacheNewer w cache source := by
  unfold cacheNewer
  rw [h]

theorem World.afterStep_last_write_time (w : World) (a : Artifact) (cache : String)
    (g : Bool) (name : String) :
    (w.afterStep a cache g).last_write_time name =
      if g = true ∧ name = cache then some w.now else w.last_write_time name := by
  cases g <;> simp [World.afterStep, World.log, World.write]

theorem World.afterStep_now (w : World) (a : Artifact) (cache : String) (g : Bool) :
    (w.afterStep a cache g).now = w.now := by
  cases g <;> simp [World.afterStep, World.log, World.write]

theorem World.afterStep_events (w : World) (a : Artifact) (cache : String) (g : Bool) :
    (w.afterStep a cache g).events = w.events ++ stepEvents a cache g := by
  cases g <;> simp [World.afterStep, World.log, World.write, stepEvents]

theorem World.readStep_last_write_time (w : World) (a : Artifact) (cache source : String)
    (d : Nat) (name : String) :
    (w.readStep a cache source d).2.last_write_time name =
      if (w.readStep a cache source d).1 = true ∧ name = cache then some (w.now + d)
      else w.last_write_time name := by
  simp only [World.readStep, World.afterStep_last_write_time, World.advance_now,
    World.advance_last_write_time]

theorem World.readStep_now (w : World) (a : Artifact) (cache source : String) (d : Nat) :
    (w.readStep a cache source d).2.now = w.now + d := by
  simp only [World.readStep, World.afterStep_now, World.advance_now]

theorem World.readStep_events (w : World) (a : Artifact) (cache source : String) (d : Nat) :
    (w.readStep a cache source d).2.events =
      w.events ++ stepEvents a cache (w.readStep a cache source d).1 := by
  simp only [World.readStep, World.afterStep_events, World.advance_events]

theorem World.readStep_loaded (w : World) (a : Artifact) (cache source : String) (d : Nat) :
    (w.readStep a cache source d).1 = false ↔ cacheNewer w cache source = true := by
  simp [World.readStep]

theorem World.readStep_exists (w : World) (a : Artifact) (cache source : String) (d : Nat)
    (name : String) (t : Nat) (h : w.last_write_time name = some t) :
    ∃ t', (w.readStep a cache source d).2.last_write_time name = some t' := by
  rw [World.readStep_last_write_time]
  split
  · exact ⟨_, rfl⟩
  · exact ⟨t, h⟩

theorem World.readStep_cache_exists (w : World) (a : Artifact) (cache source : String)
    (d : Nat) : ∃ t, (w.readStep a cache source d).2.last_write_time cache = some t := by
  rw [World.readStep_last_write_time]
  cases hn : (w.readStep a cache source d).1 with
  | true => simp
  | false =>
    simp only [Bool.false_eq_true, false_and, if_false]
    obtain ⟨tc, _, hc, _⟩ := (cacheNewer_iff _ _ _).1 ((World.readStep_loaded _ _ _ _ _).1 hn)
    exact ⟨tc, hc⟩

theorem readBVHTree_eq (w : World) (cache src : String) (d t : Nat)
    (hsrc : w.last_write_time src = some t) :
    readBVHTree (w.advance d) cache src = .ok (w.readStep .bvh cache src d) := by
  unfold readBVHTree World.readStep cacheNewer World.afterStep
  simp only [World.advance_last_write_time, hsrc]
  cases hc : w.last_write_time cache with
  | none => simp [World.log_last_write_time, World.advance_last_write_time]
  | some tc =>
    by_cases h : tc > t
    · simp [h]
    · simp [h]

theorem readMeshDistanceField_eq (w : World) (cache src : String) (d t : Nat)
    (hsrc : w.last_write_time src = some t) :
    readMeshDistanceField (w.advance d) cache src =
      .ok (w.readStep .distanceField cache src d) := by
  unfold readMeshDistanceField World.readStep cacheNewer World.afterStep
  simp only [World.advance_last_write_time, hsrc]
  cases hc : w.last_write_time cache with
  | none => simp [World.log_last_write_time, World.advance_last_write_time]
  | some tc =>
    by_cases h : tc > t
    · simp [h]
    · simp [h]

theorem readAndAugmentOctree_eq (w : World) (cache src : String) (d t : Nat)
    (hsrc : w.last_write_time src = some t) :
    readAndAugmentOctree (w.advance d) cache src false =
      .ok (w.readStep .augmentedTree cache src d) := by
  unfold readAndAugmentOctree World.readStep cacheNewer World.afterStep
  simp only [World.advance_last_write_time, hsrc]
  cases hc : w.last_write_time cache with
  | none => simp [World.log_last_write_time, World.advance_last_write_time, hsrc]
  | some tc =>
    by_cases h : tc > t
    · simp [h]
    · simp [h, World.log_last_write_time, World.advance_last_write_time, hsrc]

theorem readAndAugmentOctree_source (w : World) (cache src : String) (r : Bool × World)
    (h : readAndAugmentOctree w cache src false = .ok r) :
    ∃ t, w.last_write_time src = some t := by
  cases hs : w.last_write_time src with
  | some t => exact ⟨t, rfl⟩
  | none =>
    exfalso
    unfold readAndAugmentOctree at h
    cases hc : w.last_write_time cache with
    | none => simp [hc, hs, World.log] at h
    | some tc => simp [hc, hs] at h

theorem ViewpointPlannerData_eq (grid_dimension_ : Nat) (bvhRootBox : BoundingBoxType)
    (f : Filenames) (e : Elapsed) (w : World) (tm tr : Nat)
    (hm : w.last_write_time f.mesh_filename = some tm)
    (hr : w.last_write_time f.raw_octree_filename = some tr) :
    ViewpointPlannerData grid_dimension_ bvhRootBox f e w =
      .ok (expectedRun grid_dimension_ bvhRootBox f e w) := by
  unfold ViewpointPlannerData expectedRun
  simp only [hm]
  rw [readAndAugmentOctree_eq w _ _ _ tr hr]
  simp only []
  obtain ⟨toct, ho⟩ := World.readStep_cache_exists w .augmentedTree f.octree_filename
    f.raw_octree_filename e.beforeOctree
  rw [readBVHTree_eq _ _ _ _ toct ho]
  simp only []
  obtain ⟨t1, h1⟩ := World.readStep_exists w .augmentedTree f.octree_filename
    f.raw_octree_filename e.beforeOctree f.mesh_filename tm hm
  obtain ⟨t2, h2⟩ := World.readStep_exists _ .bvh f.bvh_filename f.octree_filename
    e.beforeBVH f.mesh_filename t1 h1
  rw [readMeshDistanceField_eq _ _ _ _ t2 h2]
  simp only []
  split <;> rfl

theorem ViewpointPlannerData_sources (grid_dimension_ : Nat) (bvhRootBox : BoundingBoxType)
    (f : Filenames) (e : Elapsed) (w : World) (r : ConstructorRun)
    (h : ViewpointPlannerData grid_dimension_ bvhRootBox f e w = .ok r) :
    (∃ tm, w.last_write_time f.mesh_filename = some tm) ∧
      ∃ tr, w.last_write_time f.raw_octree_filename = some tr := by
  unfold ViewpointPlannerData at h
  cases hm : w.last_write_time f.mesh_filename with
  | none => simp [hm] at h
  | some tm =>
    refine ⟨⟨tm, rfl⟩, ?_⟩
    simp only [hm] at h
    cases h1 : readAndAugmentOctree (w.advance e.beforeOctree) f.octree_filename
        f.raw_octree_filename false with
    | error err => simp [h1] at h
    | ok r1 =>
      obtain ⟨tr, htr⟩ := readAndAugmentOctree_source _ _ _ _ h1
      exact ⟨tr, by simpa [World.advance] using htr⟩

/-- A successful run of the constructor is the run written out step by step. -/
theorem ViewpointPlannerData_ok (grid_dimension_ : Nat) (bvhRootBox : BoundingBoxType)
    (f : Filenames) (e : Elapsed) (w : World) (r : ConstructorRun)
    (h : ViewpointPlannerData grid_dimension_ bvhRootBox f e w = .ok r) :
    r = expectedRun grid_dimension_ bvhRootBox f e w := by
  obtain ⟨⟨tm, hm⟩, ⟨tr, hr⟩⟩ := ViewpointPlannerData_sources _ _ _ _ _ _ h
  rw [ViewpointPlannerData_eq _ _ _ _ _ tm tr hm hr] at h
  cases h
  rfl

theorem expectedRun_events (grid_dimension_ : Nat) (bvhRootBox : BoundingBoxType)
    (f : Filenames) (e : Elapsed) (w : World) :
    (expectedRun grid_dimension_ bvhRootBox f e w).world.events =
      w.events ++
        (stepEvents .augmentedTree f.octree_filename
            (expectedRun grid_dimension_ bvhRootBox f e w).augmented_octree_generated ++
          stepEvents .bvh f.bvh_filename
            (expectedRun grid_dimension_ bvhRootBox f e w).bvh_generated ++
          stepEvents .distanceField f.df_filename
            (expectedRun grid_dimension_ bvhRootBox f e w).df_generated) ++
        (if ((expectedRun grid_dimension_ bvhRootBox f e w).augmented_octree_generated ||
            (expectedRun grid_dimension_ bvhRootBox f e w).bvh_generated ||
            (expectedRun grid_dimension_ bvhRootBox f e w).df_generated) = true then
          [Event.updateWeights, Event.write f.octree_filename, Event.write f.bvh_filename]
        else []) := by
  simp only [expectedRun]
  split
  · simp [World.write_events, World.advance_events, World.log_events, World.readStep_events]
  · simp [World.readStep_events]

theorem expectedRun_untouched (grid_dimension_ : Nat) (bvhRootBox : BoundingBoxType)
    (f : Filenames) (e : Elapsed) (w : World)
    (h : ((expectedRun grid_dimension_ bvhRootBox f e w).augmented_octree_generated ||
      (expectedRun grid_dimension_ bvhRootBox f e w).bvh_generated ||
      (expectedRun grid_dimension_ bvhRootBox f e w).df_generated) = false) :
    (expectedRun grid_dimension_ bvhRootBox f e w).world.last_write_time =
      w.last_write_time := by
  simp only [expectedRun] at h ⊢
  rw [if_neg (by simpa using h)]
  simp only [Bool.or_eq_false_iff] at h
  obtain ⟨⟨h1, h2⟩, h3⟩ := h
  funext name
  rw [World.readStep_last_write_time, h3]
  simp only [Bool.false_eq_true, false_and, if_false]
  rw [World.readStep_last_write_time, h2]
  simp only [Bool.false_eq_true, false_and, if_false]
  rw [World.readStep_last_write_time, h1]
  simp only [Bool.false_eq_true, false_and, if_false]

theorem World.readStep_untouched (w : World) (a : Artifact) (cache source : String) (d : Nat)
    (h : cacheNewer w cache source = true) :
    (w.readStep a cache source d).2.last_write_time = w.last_write_time := by
  funext name
  rw [World.readStep_last_write_time, (World.readStep_loaded _ _ _ _ _).2 h]
  simp

/-- The three flags of a run are all false exactly when it starts with all three caches
fresh. -/
theorem expectedRun_loads_iff (grid_dimension_ : Nat) (bvhRootBox : BoundingBoxType)
    (f : Filenames) (e : Elapsed) (w : World) :
    ((expectedRun grid_dimension_ bvhRootBox f e w).augmented_octree_generated = false ∧
      (expectedRun grid_dimension_ bvhRootBox f e w).bvh_generated = false ∧
      (expectedRun grid_dimension_ bvhRootBox f e w).df_generated = false) ↔
    cachesFresh f w = true := by
  simp only [expectedRun, cachesFresh, Bool.and_eq_true, World.readStep_loaded]
  constructor
  · rintro ⟨h1, h2, h3⟩
    have l1 := World.readStep_untouched w .augmentedTree _ _ e.beforeOctree h1
    rw [cacheNewer_congr _ w _ _ l1] at h2
    have l2 := World.readStep_untouched _ .bvh _ _ e.beforeBVH
      ((cacheNewer_congr _ w _ _ l1).trans h2)
    rw [cacheNewer_congr _ w _ _ (l2.trans l1)] at h3
    exact ⟨⟨h1, h2⟩, h3⟩
  · rintro ⟨⟨h1, h2⟩, h3⟩
    have l1 := World.readStep_untouched w .augmentedTree _ _ e.beforeOctree h1
    have h2' := (cacheNewer_congr _ w f.bvh_filename f.octree_filename l1).trans h2
    have l2 := World.readStep_untouched _ .bvh _ _ e.beforeBVH h2'
    exact ⟨h1, h2', (cacheNewer_congr _ w _ _ (l2.trans l1)).trans h3⟩

theorem expectedRun_exists (grid_dimension_ : Nat) (bvhRootBox : BoundingBoxType)
    (f : Filenames) (e : Elapsed) (w : World) (name : String) (t : Nat)
    (h : w.last_write_time name = some t) :
    ∃ t', (expectedRun grid_dimension_ bvhRootBox f e w).world.last_write_time name =
      some t' := by
  obtain ⟨t1, h1⟩ := World.readStep_exists w .augmentedTree f.octree_filename
    f.raw_octree_filename e.beforeOctree name t h
  obtain ⟨t2, h2⟩ := World.readStep_exists _ .bvh f.bvh_filename f.octree_filename
    e.beforeBVH name t1 h1
  obtain ⟨t3, h3⟩ := World.readStep_exists _ .distanceField f.df_filename f.mesh_filename
    e.beforeDistanceField name t2 h2
  simp only [expectedRun]
  split
  · simp only [World.write_last_write_time, World.advance_last_write_time,
      World.log_last_write_time]
    split
    · exact ⟨_, rfl⟩
    · split
      · exact ⟨_, rfl⟩
      · exact ⟨t3, h3⟩
  · exact ⟨t3, h3⟩

/-- After a run that started when raw tree and mesh were strictly older than the clock, with
pairwise different file names, and in which time passed before the last write of the BVH
file, all three caches are fresh. -/
theorem expectedRun_fresh (grid_dimension_ : Nat) (bvhRootBox : BoundingBoxType)
    (f : Filenames) (e : Elapsed) (w : World) (tr tm : Nat) (hd : f.distinct)
    (hr : w.last_write_time f.raw_octree_filename = some tr) (hrt : tr < w.now)
    (hm : w.last_write_time f.mesh_filename = some tm) (hmt : tm < w.now)
    (he : 0 < e.beforeBVHRewrite) :
    cachesFresh f (expectedRun grid_dimension_ bvhRootBox f e w).world = true := by
  by_cases hany : ((expectedRun grid_dimension_ bvhRootBox f e w).augmented_octree_generated ||
      (expectedRun grid_dimension_ bvhRootBox f e w).bvh_generated ||
      (expectedRun grid_dimension_ bvhRootBox f e w).df_generated) = true
  · simp only [Filenames.distinct, List.nodup_cons, List.mem_cons, List.mem_singleton,
      not_or, List.not_mem_nil, not_false_eq_true, List.nodup_nil, and_true] at hd
    obtain ⟨⟨d1, d2, d3, d4⟩, ⟨d5, d6, d7⟩, ⟨d8, d9⟩, d10⟩ := hd
    simp only [expectedRun] at hany ⊢
    rw [if_pos hany]
    simp only [cachesFresh, Bool.and_eq_true, cacheNewer_iff, World.write_last_write_time,
      World.advance_last_write_time, World.log_last_write_time, World.write_now,
      World.advance_now, World.log_now, World.readStep_last_write_time, World.readStep_now]
    refine ⟨⟨?_, ?_⟩, ?_⟩
    · refine ⟨w.now + e.beforeOctree + e.beforeBVH + e.beforeDistanceField +
        e.beforeOctreeRewrite, tr, ?_, ?_, ?_⟩
      · simp [d8]
      · simp [d3, d2, d4, hr]
      · omega
    · refine ⟨w.now + e.beforeOctree + e.beforeBVH + e.beforeDistanceField +
        e.beforeOctreeRewrite + e.beforeBVHRewrite, w.now + e.beforeOctree + e.beforeBVH +
        e.beforeDistanceField + e.beforeOctreeRewrite, ?_, ?_, ?_⟩
      · simp
      · simp [d8]
      · omega
    · cases h3 : (((w.readStep .augmentedTree f.octree_filename f.raw_octree_filename
          e.beforeOctree).2.readStep .bvh f.bvh_filename f.octree_filename
          e.beforeBVH).2.readStep .distanceField f.df_filename f.mesh_filename
          e.beforeDistanceField).1 with
      | true =>
        refine ⟨w.now + e.beforeOctree + e.beforeBVH + e.beforeDistanceField, tm, ?_, ?_, ?_⟩
        · simp [Ne.symm d10, Ne.symm d9]
        · simp [d5, d6, d7, hm]
        · omega
      | false =>
        obtain ⟨tc, ts, hc, hs, hlt⟩ := (cacheNewer_iff _ _ _).1
          ((World.readStep_loaded _ _ _ _ _).1 h3)
        simp only [World.readStep_last_write_time] at hc hs
        refine ⟨tc, ts, ?_, ?_, hlt⟩
        · simpa [Ne.symm d10, Ne.symm d9] using hc
        · simpa [d5, d6, d7] using hs
  · have hany' : ((expectedRun grid_dimension_ bvhRootBox f e w).augmented_octree_generated ||
        (expectedRun grid_dimension_ bvhRootBox f e w).bvh_generated ||
        (expectedRun grid_dimension_ bvhRootBox f e w).df_generated) = false := by
      simpa using hany
    have hl := expectedRun_untouched _ _ _ _ _ hany'
    simp only [Bool.or_eq_false_iff] at hany'
    have hf := (expectedRun_loads_iff grid_dimension_ bvhRootBox f e w).1
      ⟨hany'.1.1, hany'.1.2, hany'.2⟩
    simp only [cachesFresh] at hf ⊢
    rw [cacheNewer_congr _ w _ _ hl, cacheNewer_congr _ w _ _ hl, cacheNewer_congr _ w _ _ hl]
    exact hf

theorem freshWorld_run (e : Elapsed) :
    ViewpointPlannerData 4 exampleBox exampleFilenames e freshWorld =
      .ok (expectedRun 4 exampleBox exampleFilenames e freshWorld) :=
  ViewpointPlannerData_eq _ _ _ _ _ 3 5 (by simp [exampleFilenames_eq, freshWorld])
    (by simp [exampleFilenames_eq, freshWorld])

theorem freshWorld_run_events :
    (expectedRun 4 exampleBox exampleFilenames ⟨0, 0, 0, 0, 0⟩ freshWorld).world.events =
      [Event.generate .augmentedTree, Event.write "tree.ot.aug", Event.generate .bvh,
        Event.write "tree.ot.aug.bvh", Event.generate .distanceField,
        Event.write "mesh.ply.df", Event.updateWeights, Event.write "tree.ot.aug",
        Event.write "tree.ot.aug.bvh"] := by
  simp [expectedRun, exampleFilenames_eq, freshWorld, cacheNewer, World.readStep,
    World.afterStep, World.advance, World.log, World.write]

theorem exampleFilenames_distinct : exampleFilenames.distinct := by
  simp [Filenames.distinct, exampleFilenames_eq]

theorem staleTreeWorld_run (e : Elapsed) :
    ViewpointPlannerData 4 exampleBox exampleFilenames e staleTreeWorld =
      .ok (expectedRun 4 exampleBox exampleFilenames e staleTreeWorld) :=
  ViewpointPlannerData_eq _ _ _ _ _ 3 5 (by simp [exampleFilenames_eq, staleTreeWorld])
    (by simp [exampleFilenames_eq, staleTreeWorld])

theorem distanceFieldCachedWorld_run (e : Elapsed) :
    ViewpointPlannerData 4 exampleBox exampleFilenames e distanceFieldCachedWorld =
      .ok (expectedRun 4 exampleBox exampleFilenames e distanceFieldCachedWorld) :=
  ViewpointPlannerData_eq _ _ _ _ _ 3 5
    (by simp [exampleFilenames_eq, distanceFieldCachedWorld])
    (by simp [exampleFilenames_eq, distanceFieldCachedWorld])

/-! ## Lemmas on the weight update -/

theorem foldl_flatMap_eq {α β σ : Type} (f : σ → β → σ) (g : α → List β) (l : List α)
    (s : σ) : (l.flatMap g).foldl f s = l.foldl (fun s a => (g a).foldl f s) s := by
  induction l generalizing s with
  | nil => rfl
  | cons a l ih => simp [List.flatMap_cons, List.foldl_append, ih]

/-- Three nested loops over the grid visit the cells in the order of `gridCells`. -/
theorem foldl_gridCells {σ : Type} (g : GridGeometry) (h : σ → Nat → Nat → Nat → σ) (s : σ) :
    (List.range g.grid_dim_.x.toNat).foldl (fun s x =>
      (List.range g.grid_dim_.y.toNat).foldl (fun s y =>
        (List.range g.grid_dim_.z.toNat).foldl (fun s z => h s x y z) s) s) s =
    (gridCells g).foldl (fun s c => h s c.1 c.2.1 c.2.2) s := by
  simp only [gridCells, foldl_flatMap_eq, List.foldl_map]

theorem mem_gridCells (g : GridGeometry) (x y z : Nat) :
    (x, y, z) ∈ gridCells g ↔
      x < g.grid_dim_.x.toNat ∧ y < g.grid_dim_.y.toNat ∧ z < g.grid_dim_.z.toNat := by
  simp only [gridCells, List.mem_flatMap, List.mem_map, List.mem_range, Prod.mk.injEq]
  constructor
  · rintro ⟨x', hx, y', hy, z', hz, rfl, rfl, rfl⟩
    exact ⟨hx, hy, hz⟩
  · rintro ⟨hx, hy, hz⟩
    exact ⟨x, hx, y, hy, z, hz, rfl, rfl, rfl⟩

theorem foldl_max_ge_init (l : List Rat) (m : Rat) : m ≤ l.foldl Max.max m := by
  induction l generalizing m with
  | nil => exact le_refl _
  | cons a l ih => exact le_trans (le_max_left _ _) (ih _)

theorem foldl_max_ge_mem (l : List Rat) (m a : Rat) (h : a ∈ l) : a ≤ l.foldl Max.max m := by
  induction l generalizing m with
  | nil => cases h
  | cons b l ih =>
    rcases List.mem_cons.1 h with rfl | h
    · exact le_trans (le_max_right _ _) (foldl_max_ge_init _ _)
    · exact ih _ h

theorem foldl_max_mem (l : List Rat) (m : Rat) : l.foldl Max.max m = m ∨ l.foldl Max.max m ∈ l := by
  induction l generalizing m with
  | nil => exact Or.inl rfl
  | cons b l ih =>
    rcases ih (Max.max m b) with h | h
    · rw [List.foldl_cons, h]
      rcases max_choice m b with hm | hm
      · exact Or.inl hm
      · exact Or.inr (by rw [hm]; exact List.mem_cons_self _ _)
    · exact Or.inr (List.mem_cons_of_mem _ h)

/-- The value of `max_distance` as a maximum over the list of the cell values. -/
theorem updateWeights.maxDistance_eq (g : GridGeometry) (df : Grid3f) :
    updateWeights.maxDistance g df =
      ((gridCells g).map (fun c => df.data c.1 c.2.1 c.2.2)).foldl Max.max (-floatMax) := by
  unfold updateWeights.maxDistance
  rw [foldl_gridCells g (fun m x y z => Max.max m (df.data x y z)), List.foldl_map]

theorem floatMax_pos : 0 < floatMax := by
  unfold floatMax; norm_num

theorem updateWeights.maxDistance_ge (g : GridGeometry) (df : Grid3f) (x y z : Nat)
    (hx : x < g.grid_dim_.x.toNat) (hy : y < g.grid_dim_.y.toNat)
    (hz : z < g.grid_dim_.z.toNat) :
    df.data x y z ≤ updateWeights.maxDistance g df := by
  rw [updateWeights.maxDistance_eq]
  apply foldl_max_ge_mem
  exact List.mem_map.2 ⟨(x, y, z), (mem_gridCells g x y z).2 ⟨hx, hy, hz⟩, rfl⟩

theorem updateWeights.maxDistance_attained (g : GridGeometry) (df : Grid3f)
    (h : updateWeights.maxDistance g df ≠ -floatMax) :
    ∃ x y z, x < g.grid_dim_.x.toNat ∧ y < g.grid_dim_.y.toNat ∧ z < g.grid_dim_.z.toNat ∧
      df.data x y z = updateWeights.maxDistance g df := by
  rw [updateWeights.maxDistance_eq] at h ⊢
  rcases foldl_max_mem ((gridCells g).map (fun c => df.data c.1 c.2.1 c.2.2)) (-floatMax)
    with h1 | h1
  · exact absurd h1 h
  · obtain ⟨⟨x, y, z⟩, hc, hv⟩ := List.mem_map.1 h1
    obtain ⟨hx, hy, hz⟩ := (mem_gridCells g x y z).1 hc
    exact ⟨x, y, z, hx, hy, hz, hv⟩

theorem updateWeights.weight_ok (max_distance distance : Rat) (h : max_distance ≠ 0) :
    updateWeights.weight max_distance distance =
      .ok (updateWeights.weightValue max_distance distance) := by
  simp [updateWeights.weight, h, updateWeights.weightValue]

theorem updateWeights.weightValue_bounds (M d : Rat) (hM : 0 < M) (h0 : 0 ≤ d) (h1 : d ≤ M) :
    0 ≤ updateWeights.weightValue M d ∧ updateWeights.weightValue M d ≤ 1 := by
  have hq0 : 0 ≤ (M - d) / M := div_nonneg (by linarith) (le_of_lt hM)
  have hq1 : (M - d) / M ≤ 1 := by
    rw [div_le_one hM]; linarith
  unfold updateWeights.weightValue
  exact ⟨mul_nonneg hq0 hq0, by nlinarith⟩

theorem unitGrid_dim : unitGrid.grid_dim_ = ⟨1, 1, 1⟩ := by
  simp [unitGrid, generateDistanceField.setupGrid]

theorem maxDistance_zeroField : updateWeights.maxDistance unitGrid zeroField = 0 := by
  simp [updateWeights.maxDistance, unitGrid_dim, zeroField, Grid3f.filled, List.range_succ]
  exact le_of_lt floatMax_pos

theorem gridCells_smallGrid :
    gridCells smallGrid =
      [(0, 0, 0), (0, 0, 1), (0, 1, 0), (0, 1, 1), (1, 0, 0), (1, 0, 1), (1, 1, 0),
        (1, 1, 1)] := by
  simp [gridCells, smallGrid, List.range_succ]

theorem cellsHitting_farObject :
    cellsHitting exampleEnvironment smallGrid farObject = [] := by
  rw [cellsHitting, gridCells_smallGrid]
  simp [exampleEnvironment, boxesOverlap, cellBox,
    getGridPosition, smallGrid, farObject, BoundingBoxType.ofCenterSize, Vector3.add,
    Vector3.smul, Vector3i.castFloat, List.filter_cons]
  norm_num

/-! ## Lemmas on the seeding of the distance field -/

/-- C1: `isTreeConsistent` returns true exactly when, at every node of the tree and for
every existing child of it, the parent's observation count is at most the child's and the
parent's occupancy is at least the child's; the two-level scenario tree (root 0.5 / 10,
child 0.8 / 20) is rejected. -/
theorem C1_isTreeConsistent_iff :
    (∀ tree : OccupancyMapType,
      isTreeConsistent tree = true ↔
        ∀ (key : List (Fin 8)) (i : Fin 8), (tree.find key).hasChild i = true →
          (tree.find key).getObservationCount ≤
              ((tree.find key).getChild i).getObservationCount ∧
            (tree.find key).getOccupancy ≥ ((tree.find key).getChild i).getOccupancy) ∧
    isTreeConsistent scenarioTree = false := by
  refine ⟨fun tree => isTreeConsistent_iff_find tree, ?_⟩
  rw [← Bool.not_eq_true, isTreeConsistent_iff_find]
  intro h
  have := (h [] 0 (by simp [NodePtr.find, scenarioTree, NodePtr.hasChild, NodePtr.getChild,
    NodePtr.isNode])).2
  simp [NodePtr.find, scenarioTree, NodePtr.getChild, NodePtr.getOccupancy] at this
  norm_num at this

/-- C2 (the code falls short of it): with a grid of dimension 4 over the box from (0,0,0) to
(5,5,5), the point (4.6, 1, 1) is inside the grid box, yet `getGridIndices` returns 4, the
grid dimension, on the first axis; a mesh face with that centroid makes
`generateDistanceField` access the seed grid out of range. -/
theorem C2_getGridIndices_reaches_grid_dimension :
    isInsideGrid (generateDistanceField.setupGrid 4 exampleBox) ⟨23/5, 1, 1⟩ = true ∧
    getGridIndices (generateDistanceField.setupGrid 4 exampleBox) ⟨23/5, 1, 1⟩ = ⟨4, 1, 1⟩ ∧
    (generateDistanceField.setupGrid 4 exampleBox).grid_dim_ = ⟨4, 4, 4⟩ ∧
    ∀ (c : Rat) (norm : Vector3 → Rat) (transform : Grid3f → Grid3f),
      generateDistanceField 4 c exampleBox outsideMesh norm transform =
        .error "seed_grid index out of range" := by
  have r1 : roundToInt 1 = 1 := roundToInt_eq 1 1 (by norm_num) (by norm_num) (by norm_num)
  have r5 : roundToInt (23/5) = 5 :=
    roundToInt_eq (23/5) 5 (by norm_num) (by norm_num) (by norm_num)
  have hI : isInsideGrid (generateDistanceField.setupGrid 4 exampleBox) ⟨23/5, 1, 1⟩ = true := by
    simp [setupGrid_exampleBox, isInsideGrid, BoundingBoxType.isInside]
    norm_num
  have hG : getGridIndices (generateDistanceField.setupGrid 4 exampleBox) ⟨23/5, 1, 1⟩ =
      ⟨4, 1, 1⟩ := by
    simp [setupGrid_exampleBox, getGridIndices, getGridIndices.adjust, Vector3.sub, Vector3.sdiv,
      r1, r5]
    norm_num
  refine ⟨hI, hG, by simp [setupGrid_exampleBox], ?_⟩
  intro c norm transform
  have hv : (((⟨23/5, 1, 1⟩ : Vector3).add ⟨23/5, 1, 1⟩).add ⟨23/5, 1, 1⟩).sdiv 3 =
      ⟨23/5, 1, 1⟩ := by
    simp [Vector3.add, Vector3.sdiv]; norm_num
  have hinc : (generateDistanceField.setupGrid 4 exampleBox).grid_increment_ ≠ 0 := by
    simp [setupGrid_exampleBox]
  simp [generateDistanceField, generateDistanceField.seedGrid, outsideMesh,
    generateDistanceField.seedLoop, hv, hI, hG, hinc, Grid3f.inRange, Grid3f.filled]

/-- C3: every (box, object) pair that `generateBVHTree` hands to the BVH build has a box
that is not empty and lies entirely within the region of interest. -/
theorem C3_bvh_boxes_within_roi (m : OccupancyMapGeometry) (roi_bbox : BoundingBoxType)
    (octree : OccupancyMapType) (obj : ObjectWithBoundingBox)
    (h : obj ∈ generateBVHTree m roi_bbox octree) :
    obj.bounding_box.isEmpty = false ∧ obj.bounding_box.within roi_bbox := by
  simp only [generateBVHTree, generateBVHTree.loop_eq, List.nil_append, List.mem_map,
    List.mem_filter, retainedLeaf, Bool.and_eq_true, Bool.not_eq_true'] at h
  obtain ⟨it, ⟨_, _, he⟩, rfl⟩ := h
  exact ⟨he, BoundingBoxType.constrainTo_within _ _⟩

/-- C3, example: the single object built from the scenario tree. -/
theorem C3_bvh_boxes_within_roi_witness :
    (⟨⟨⟨-1, -1, -1⟩, ⟨1, 1, 1⟩⟩, ⟨4/5, 20, 0⟩⟩ : ObjectWithBoundingBox) ∈
        generateBVHTree exampleGeometry exampleRoi scenarioTree ∧
      (BoundingBoxType.isEmpty ⟨⟨-1, -1, -1⟩, ⟨1, 1, 1⟩⟩ = false ∧
        BoundingBoxType.within ⟨⟨-1, -1, -1⟩, ⟨1, 1, 1⟩⟩ exampleRoi) :=
  ⟨by rw [generateBVHTree_scenarioTree]; exact List.mem_singleton.2 rfl,
   C3_bvh_boxes_within_roi exampleGeometry exampleRoi scenarioTree
     ⟨⟨⟨-1, -1, -1⟩, ⟨1, 1, 1⟩⟩, ⟨4/5, 20, 0⟩⟩
     (by rw [generateBVHTree_scenarioTree]; exact List.mem_singleton.2 rfl)⟩

/-- C4: the objects `generateBVHTree` hands to the BVH build are, in traversal order, one
object per leaf that is not at once free and known and whose box (leaf centre, leaf size)
clipped to the region of interest is not empty; the object has that clipped box and the
leaf's occupancy, observation count and weight; the traversal visits every existing node of
the tree, each position once.  Hence an object is handed to the build exactly when it is
that of a leaf of the tree which is not (free and known) and has a non-empty clipped box;
inner nodes and leaves that are free and known contribute none. -/
theorem C4_bvh_objects_are_retained_leaves (m : OccupancyMapGeometry)
    (roi_bbox : BoundingBoxType) (octree : OccupancyMapType) :
    generateBVHTree m roi_bbox octree =
      ((begin_tree octree 0).filter (fun it =>
        !it.node.hasChildren &&
          !(decide (it.node.getOccupancy < m.occupancy_thres_free) &&
            decide (it.node.getObservationCount > 0)) &&
          !((BoundingBoxType.ofCenterSize (m.getCoordinate it.key)
            (m.getSize it.key)).constrainTo roi_bbox).isEmpty)).map
        (fun it =>
          ⟨(BoundingBoxType.ofCenterSize (m.getCoordinate it.key) (m.getSize it.key)).constrainTo
              roi_bbox,
            ⟨it.node.getOccupancy, it.node.getObservationCount, it.node.getWeight⟩⟩) ∧
    (∀ it, it ∈ begin_tree octree 0 ↔
      it.node = octree.find it.key ∧ (octree.find it.key).isNode = true) ∧
    ((begin_tree octree 0).map TreeIterator.key).Nodup ∧
    ∀ obj, obj ∈ generateBVHTree m roi_bbox octree ↔
      ∃ key, (octree.find key).isNode = true ∧ (octree.find key).hasChildren = false ∧
        ¬ ((octree.find key).getOccupancy < m.occupancy_thres_free ∧
          (octree.find key).getObservationCount > 0) ∧
        ((BoundingBoxType.ofCenterSize (m.getCoordinate key) (m.getSize key)).constrainTo
          roi_bbox).isEmpty = false ∧
        obj.bounding_box =
          (BoundingBoxType.ofCenterSize (m.getCoordinate key) (m.getSize key)).constrainTo
            roi_bbox ∧
        obj.object.occupancy = (octree.find key).getOccupancy ∧
        obj.object.observation_count = (octree.find key).getObservationCount ∧
        obj.object.weight = (octree.find key).getWeight := by
  have hfilter : retainedLeaf m roi_bbox = fun it =>
      !it.node.hasChildren &&
        !(decide (it.node.getOccupancy < m.occupancy_thres_free) &&
          decide (it.node.getObservationCount > 0)) &&
        !((BoundingBoxType.ofCenterSize (m.getCoordinate it.key)
          (m.getSize it.key)).constrainTo roi_bbox).isEmpty := rfl
  have heq := generateBVHTree.loop_eq m roi_bbox (begin_tree octree 0) []
  rw [List.nil_append, hfilter] at heq
  refine ⟨heq, mem_begin_tree_zero octree, nodup_traverse_keys _ _ _, ?_⟩
  intro obj
  unfold generateBVHTree
  rw [heq]
  simp only [List.mem_map, List.mem_filter, mem_begin_tree_zero, Bool.and_eq_true,
    Bool.not_eq_true', decide_eq_true_eq, Bool.and_eq_false_iff, decide_eq_false_iff_not]
  constructor
  · rintro ⟨it, ⟨⟨hnode, hisnode⟩, ⟨hleaf, hfk⟩, hne⟩, rfl⟩
    rw [hnode] at hleaf hfk
    refine ⟨it.key, hisnode, hleaf, ?_, hne, rfl, ?_, ?_, ?_⟩
    · rintro ⟨h1, h2⟩
      rcases hfk with h | h
      · exact h h1
      · exact h h2
    · simp only [hnode]
    · simp only [hnode]
    · simp only [hnode]
  · rintro ⟨key, hisnode, hleaf, hfk, hne, hbox, ho, hc, hw⟩
    refine ⟨⟨key, octree.find key⟩, ⟨⟨rfl, hisnode⟩, ⟨hleaf, ?_⟩, hne⟩, ?_⟩
    · by_cases h1 : (octree.find key).getOccupancy < m.occupancy_thres_free
      · right; intro h2; exact hfk ⟨h1, h2⟩
      · left; exact h1
    · cases obj with
      | mk bb o =>
        cases o with
        | mk occ cnt wt =>
          simp only at hbox ho hc hw
          subst hbox ho hc hw
          rfl

/-- C5 as stated fails for a negative cutoff: with cutoff -1 and a distance transform that
returns 0 everywhere, the single cell of a grid of dimension 1 ends at -1. -/
theorem C5_negative_cutoff_counterexample :
    (∀ seed x y z, 0 ≤ (zeroTransform seed).data x y z) ∧
    generateDistanceField 1 (-1) exampleBox emptyMesh normL1 zeroTransform =
      .ok (generateDistanceField.setupGrid 1 exampleBox,
        generateDistanceField.clip (generateDistanceField.setupGrid 1 exampleBox) (-1)
          (zeroTransform (Grid3f.filled 1 1 1 floatMax))) ∧
    ¬ (0 ≤ (generateDistanceField.clip (generateDistanceField.setupGrid 1 exampleBox) (-1)
          (zeroTransform (Grid3f.filled 1 1 1 floatMax))).data 0 0 0) := by
  refine ⟨fun _ _ _ _ => le_refl _, ?_, ?_⟩
  · simp [generateDistanceField, generateDistanceField.seedGrid, emptyMesh,
      generateDistanceField.seedLoop]
  · rw [((generateDistanceField.clip_clipsOn _ (-1) _) 0 0 0).1
      (by simp [generateDistanceField.setupGrid])]
    simp [zeroTransform]

/-- C5 (amended): after `generateDistanceField`, every cell `(x, y, z)` of the
`gridDimension^3` grid satisfies `distanceField(x, y, z) ≤ cutoff`, for every cutoff and
whatever the external distance transform returns; and it satisfies
`0 ≤ distanceField(x, y, z)` if the cutoff is not negative and the external distance
transform returns only non-negative values. -/
theorem C5_distance_field_bounds (grid_dimension_ : Nat) (df_cutoff_ : Rat)
    (bbox : BoundingBoxType) (poisson_mesh_ : MeshType) (norm : Vector3 → Rat)
    (transform : Grid3f → Grid3f) (g : GridGeometry) (distance_field_ : Grid3f)
    (h : generateDistanceField grid_dimension_ df_cutoff_ bbox poisson_mesh_ norm transform =
      .ok (g, distance_field_))
    (x y z : Nat) (hx : x < grid_dimension_) (hy : y < grid_dimension_)
    (hz : z < grid_dimension_) :
    distance_field_.data x y z ≤ df_cutoff_ ∧
      ((∀ seed x y z, 0 ≤ (transform seed).data x y z) → 0 ≤ df_cutoff_ →
        0 ≤ distance_field_.data x y z) := by
  obtain ⟨seed, hs, -, -⟩ := (generateDistanceField_ok_iff _ _ _ _ _ _ _ _).1 h
  rw [generateDistanceField_cell _ _ _ _ _ _ _ _ seed hs h x y z hx hy hz]
  exact ⟨min_le_right _ _, fun hT hc => le_min (hT seed x y z) hc⟩

/-- C5, example: dimension 4, cutoff 1, one seed at cell (0,0,0), cell (3,3,3). -/
theorem C5_distance_field_bounds_witness :
    (∀ seed x y z, 0 ≤ (exampleTransform seed).data x y z) ∧ (0 : Rat) ≤ 1 ∧
    generateDistanceField 4 1 exampleBox exampleMesh normL1 exampleTransform =
      .ok (generateDistanceField.setupGrid 4 exampleBox,
        generateDistanceField.clip (generateDistanceField.setupGrid 4 exampleBox) 1
          (exampleTransform exampleSeed)) ∧
    (0 ≤ (generateDistanceField.clip (generateDistanceField.setupGrid 4 exampleBox) 1
          (exampleTransform exampleSeed)).data 3 3 3 ∧
      (generateDistanceField.clip (generateDistanceField.setupGrid 4 exampleBox) 1
          (exampleTransform exampleSeed)).data 3 3 3 ≤ 1) :=
  have hT : ∀ seed x y z, 0 ≤ (exampleTransform seed).data x y z := fun _ x y z => by
    simp only [exampleTransform]; positivity
  have hrun : generateDistanceField 4 1 exampleBox exampleMesh normL1 exampleTransform =
      .ok (generateDistanceField.setupGrid 4 exampleBox,
        generateDistanceField.clip (generateDistanceField.setupGrid 4 exampleBox) 1
          (exampleTransform exampleSeed)) :=
    (generateDistanceField_ok_iff _ _ _ _ _ _ _ _).2 ⟨exampleSeed, seedGrid_exampleMesh, rfl, rfl⟩
  have hb := C5_distance_field_bounds 4 1 exampleBox exampleMesh normL1 exampleTransform _ _
    hrun 3 3 3 (by decide) (by decide) (by decide)
  ⟨hT, zero_le_one, hrun, hb.2 hT zero_le_one, hb.1⟩

/-- C6: the clipping pass of `generateDistanceField` leaves every cell of the grid equal to
`min(t, cutoff)`, where `t` is the value the external distance transform produced for that
cell from the seed grid; a cell with `t ≤ cutoff` keeps `t`. -/
theorem C6_clipped_field_is_min (grid_dimension_ : Nat) (df_cutoff_ : Rat)
    (bbox : BoundingBoxType) (poisson_mesh_ : MeshType) (norm : Vector3 → Rat)
    (transform : Grid3f → Grid3f) (g : GridGeometry) (distance_field_ seed_grid : Grid3f)
    (hs : generateDistanceField.seedGrid grid_dimension_ bbox poisson_mesh_ norm = .ok seed_grid)
    (h : generateDistanceField grid_dimension_ df_cutoff_ bbox poisson_mesh_ norm transform =
      .ok (g, distance_field_))
    (x y z : Nat) (hx : x < grid_dimension_) (hy : y < grid_dimension_)
    (hz : z < grid_dimension_) :
    distance_field_.data x y z = Min.min ((transform seed_grid).data x y z) df_cutoff_ ∧
      ((transform seed_grid).data x y z ≤ df_cutoff_ →
        distance_field_.data x y z = (transform seed_grid).data x y z) := by
  have hcell := generateDistanceField_cell _ _ _ _ _ _ _ _ seed_grid hs h x y z hx hy hz
  exact ⟨hcell, fun hle => by rw [hcell, min_eq_left hle]⟩

/-- C6, the scenario: dimension 4, cutoff 1.0, the seed grid with only cell (0,0,0) seeded
(to 0.0); cell (3,3,3) ends as `min(transformDistance, 1.0)`. -/
theorem C6_clipped_field_is_min_witness :
    generateDistanceField.seedGrid 4 exampleBox exampleMesh normL1 = .ok exampleSeed ∧
    generateDistanceField 4 1 exampleBox exampleMesh normL1 exampleTransform =
      .ok (generateDistanceField.setupGrid 4 exampleBox,
        generateDistanceField.clip (generateDistanceField.setupGrid 4 exampleBox) 1
          (exampleTransform exampleSeed)) ∧
    ((generateDistanceField.clip (generateDistanceField.setupGrid 4 exampleBox) 1
          (exampleTransform exampleSeed)).data 3 3 3 =
        Min.min ((exampleTransform exampleSeed).data 3 3 3) 1 ∧
      ((exampleTransform exampleSeed).data 3 3 3 ≤ 1 →
        (generateDistanceField.clip (generateDistanceField.setupGrid 4 exampleBox) 1
          (exampleTransform exampleSeed)).data 3 3 3 =
          (exampleTransform exampleSeed).data 3 3 3)) :=
  have hrun : generateDistanceField 4 1 exampleBox exampleMesh normL1 exampleTransform =
      .ok (generateDistanceField.setupGrid 4 exampleBox,
        generateDistanceField.clip (generateDistanceField.setupGrid 4 exampleBox) 1
          (exampleTransform exampleSeed)) :=
    (generateDistanceField_ok_iff _ _ _ _ _ _ _ _).2 ⟨exampleSeed, seedGrid_exampleMesh, rfl, rfl⟩
  ⟨seedGrid_exampleMesh, hrun,
    C6_clipped_field_is_min 4 1 exampleBox exampleMesh normL1 exampleTransform _ _ exampleSeed
      seedGrid_exampleMesh hrun 3 3 3 (by decide) (by decide) (by decide)⟩

/-- C7: after `generateAugmentedOctree` returns, every existing node `N` below a query node
`Q` (a node at the sampling depth), `Q` included, has the weight of `Q`. -/
theorem C7_descendants_share_query_weight (k : AugmentationConstants)
    (raw_octree : OccupancyMapType) (st : AugmentState)
    (h : generateAugmentedOctree k raw_octree = .ok st) (Q N : List (Fin 8))
    (_hQ : Q.length = k.OCCUPANCY_WEIGHT_DEPTH)
    (hN : (st.output_tree.find (Q ++ N)).isNode = true) :
    (st.output_tree.find (Q ++ N)).getWeight = (st.output_tree.find Q).getWeight := by
  obtain ⟨-, rfl⟩ := generateAugmentedOctree_ok k raw_octree st h
  have hz := weightsZero_convert raw_octree
  rw [weightsZero_getWeight _ (weightsZero_find _ (Q ++ N) hz),
    weightsZero_getWeight _ (weightsZero_find _ Q hz)]

/-- C7, example: in the three-level tree with sampling depth 1, the node at position 0, 3
has the weight of the query node at position 0. -/
theorem C7_descendants_share_query_weight_witness :
    generateAugmentedOctree exampleConstants consistentTree =
        .ok ⟨convertToAugmentedMap consistentTree, 0, [([0], [0]), ([0], [0, 3])]⟩ ∧
      ([0] : List (Fin 8)).length = exampleConstants.OCCUPANCY_WEIGHT_DEPTH ∧
      ((convertToAugmentedMap consistentTree).find ([0] ++ [3])).isNode = true ∧
      ((convertToAugmentedMap consistentTree).find ([0] ++ [3])).getWeight =
        ((convertToAugmentedMap consistentTree).find [0]).getWeight :=
  ⟨generateAugmentedOctree_consistentTree, rfl, isNode_consistentTree_0_3,
    C7_descendants_share_query_weight exampleConstants consistentTree
      ⟨convertToAugmentedMap consistentTree, 0, [([0], [0]), ([0], [0, 3])]⟩
      generateAugmentedOctree_consistentTree [0] [3] rfl isNode_consistentTree_0_3⟩

/-- C8 as stated fails: in the run on the three-level tree with sampling depth 1 the root
exists in the returned tree, yet no query node's pass writes it. -/
theorem C8_root_never_written_counterexample :
    generateAugmentedOctree exampleConstants consistentTree =
        .ok ⟨convertToAugmentedMap consistentTree, 0, [([0], [0]), ([0], [0, 3])]⟩ ∧
      ((convertToAugmentedMap consistentTree).find []).isNode = true ∧
      ¬ ∃ q : List (Fin 8),
          (q, ([] : List (Fin 8))) ∈
            ([([0], [0]), ([0], [0, 3])] : List (List (Fin 8) × List (Fin 8))) := by
  refine ⟨generateAugmentedOctree_consistentTree, ?_, ?_⟩
  · simp [consistentTree, convertToAugmentedMap, NodePtr.find, NodePtr.isNode]
  · simp

/-- C8 (amended): after `generateAugmentedOctree` returns, a query node's pass writes a
position exactly when the position is an existing node of the query node's subtree; hence
every node at the sampling depth or deeper is written by exactly one query node (its
ancestor at the sampling depth), a node above the sampling depth is written by none, and no
node is written twice. -/
theorem C8_writes_of_broadcast (k : AugmentationConstants) (raw_octree : OccupancyMapType)
    (st : AugmentState) (h : generateAugmentedOctree k raw_octree = .ok st) :
    (∀ q p, (q, p) ∈ st.writes ↔
      (q.length = k.OCCUPANCY_WEIGHT_DEPTH ∧ (st.output_tree.find q).isNode = true) ∧
        (∃ s, p = q ++ s) ∧ (st.output_tree.find p).isNode = true) ∧
    (∀ p, (st.output_tree.find p).isNode = true → k.OCCUPANCY_WEIGHT_DEPTH ≤ p.length →
      ∃! q, (q, p) ∈ st.writes) ∧
    (∀ p, p.length < k.OCCUPANCY_WEIGHT_DEPTH → ∀ q, (q, p) ∉ st.writes) ∧
    (st.writes.map Prod.snd).Nodup := by
  have hw : ∀ q p, (q, p) ∈ st.writes ↔
      (q.length = k.OCCUPANCY_WEIGHT_DEPTH ∧ (st.output_tree.find q).isNode = true) ∧
        (∃ s, p = q ++ s) ∧ (st.output_tree.find p).isNode = true := by
    intro q p
    rw [generateAugmentedOctree_writes k raw_octree st h,
      generateAugmentedOctree.mem_collectQueryNodes]
  refine ⟨hw, ?_, ?_, generateAugmentedOctree_writes_nodup k raw_octree st h⟩
  · intro p hp hd
    have hsplit : p = p.take k.OCCUPANCY_WEIGHT_DEPTH ++ p.drop k.OCCUPANCY_WEIGHT_DEPTH :=
      (List.take_append_drop _ _).symm
    refine ⟨p.take k.OCCUPANCY_WEIGHT_DEPTH, (hw _ _).2 ⟨⟨?_, ?_⟩, ⟨_, hsplit⟩, hp⟩, ?_⟩
    · simp [List.length_take, hd]
    · rw [hsplit] at hp
      exact NodePtr.isNode_find_of_append _ _ _ hp
    · intro q hq
      obtain ⟨⟨hl, _⟩, ⟨s, rfl⟩, _⟩ := (hw _ _).1 hq
      simp [← hl]
  · intro p hp q hq
    obtain ⟨⟨hl, _⟩, ⟨s, rfl⟩, _⟩ := (hw _ _).1 hq
    simp at hp
    omega

/-- C8, example: the writes of the run on the three-level tree with sampling depth 1. -/
theorem C8_writes_of_broadcast_witness :
    generateAugmentedOctree exampleConstants consistentTree =
        .ok ⟨convertToAugmentedMap consistentTree, 0, [([0], [0]), ([0], [0, 3])]⟩ ∧
      (([0], [0, 3]) : List (Fin 8) × List (Fin 8)) ∈
        ([([0], [0]), ([0], [0, 3])] : List (List (Fin 8) × List (Fin 8))) ∧
      (([([0], [0]), ([0], [0, 3])] : List (List (Fin 8) × List (Fin 8))).map Prod.snd).Nodup :=
  ⟨generateAugmentedOctree_consistentTree, by simp,
    (C8_writes_of_broadcast exampleConstants consistentTree
      ⟨convertToAugmentedMap consistentTree, 0, [([0], [0]), ([0], [0, 3])]⟩
      generateAugmentedOctree_consistentTree).2.2.2⟩

/-- C9: `generateAugmentedOctree` fails with the error "Input tree is inconsistent", and
returns no tree, whenever the raw input tree fails `isTreeConsistent`; every tree it returns
passes `isTreeConsistent` and has, at every position, the occupancy and observation count of
the raw tree. -/
theorem C9_consistency_check (k : AugmentationConstants) (raw_octree : OccupancyMapType) :
    (isTreeConsistent raw_octree = false →
      generateAugmentedOctree k raw_octree = .error "Input tree is inconsistent") ∧
    (∀ st, generateAugmentedOctree k raw_octree = .ok st →
      isTreeConsistent st.output_tree = true ∧
      ∀ key, (st.output_tree.find key).isNode = (raw_octree.find key).isNode ∧
        (st.output_tree.find key).getOccupancy = (raw_octree.find key).getOccupancy ∧
        (st.output_tree.find key).getObservationCount =
          (raw_octree.find key).getObservationCount) := by
  constructor
  · intro h
    rw [generateAugmentedOctree_eq, if_pos h]
  · intro st h
    obtain ⟨hc, rfl⟩ := generateAugmentedOctree_ok k raw_octree st h
    refine ⟨by rw [isTreeConsistent_convert]; exact hc, fun key => ?_⟩
    simp only [find_convert, isNode_convert, getOccupancy_convert, getObservationCount_convert,
      and_self]

/-- C9, examples: the inconsistent scenario tree is refused, and the tree returned for the
consistent three-level tree is consistent. -/
theorem C9_consistency_check_witness :
    isTreeConsistent scenarioTree = false ∧
      generateAugmentedOctree exampleConstants scenarioTree =
        .error "Input tree is inconsistent" ∧
      generateAugmentedOctree exampleConstants consistentTree =
        .ok ⟨convertToAugmentedMap consistentTree, 0, [([0], [0]), ([0], [0, 3])]⟩ ∧
      isTreeConsistent (convertToAugmentedMap consistentTree) = true :=
  ⟨isTreeConsistent_scenarioTree,
    (C9_consistency_check exampleConstants scenarioTree).1 isTreeConsistent_scenarioTree,
    generateAugmentedOctree_consistentTree,
    ((C9_consistency_check exampleConstants consistentTree).2 _
      generateAugmentedOctree_consistentTree).1⟩

/-- C10 as stated fails when cache and source have the same modification time: the BVH file
exists and is not older than the augmented tree file (both were written at time 5), yet
`readBVHTree` regenerates the BVH and writes the file. -/
theorem C10_equal_times_counterexample :
    exampleWorld.last_write_time "tree.ot.aug.bvh" = some 5 ∧
    exampleWorld.last_write_time "tree.ot.aug" = some 5 ∧
    ¬ ((5 : Nat) < 5) ∧
    (readBVHTree exampleWorld "tree.ot.aug.bvh" "tree.ot.aug").map
        (fun r => (r.1, r.2.events)) =
      .ok (true, [Event.generate .bvh, Event.write "tree.ot.aug.bvh"]) := by
  refine ⟨by simp [exampleWorld], by simp [exampleWorld], by decide, ?_⟩
  simp [readBVHTree, exampleWorld, Except.map, World.log, World.write]

/-- C10 (amended): for each derived artifact (augmented tree from the raw tree file, BVH
from the augmented tree file, distance field from the mesh file) whose source file exists,
the read step completes, and it regenerates the artifact (and writes the cache file) if and
only if the cache file is missing or its modification time is not later than that of the
source file; otherwise, when the cache is strictly newer than the source, it loads the cache
and regenerates nothing. -/
theorem C10_regenerate_iff_cache_not_newer (w : World) (cache src : String) (t : Nat)
    (hsrc : w.last_write_time src = some t) :
    (∃ generated w', readAndAugmentOctree w cache src false = .ok (generated, w') ∧
      (generated = true ↔ cacheNotNewer w cache t) ∧
      readOutcome .augmentedTree cache w generated w') ∧
    (∃ generated w', readBVHTree w cache src = .ok (generated, w') ∧
      (generated = true ↔ cacheNotNewer w cache t) ∧
      readOutcome .bvh cache w generated w') ∧
    (∃ generated w', readMeshDistanceField w cache src = .ok (generated, w') ∧
      (generated = true ↔ cacheNotNewer w cache t) ∧
      readOutcome .distanceField cache w generated w') :=
  ⟨readAndAugmentOctree_spec w cache src t hsrc, readBVHTree_spec w cache src t hsrc,
    readMeshDistanceField_spec w cache src t hsrc⟩

/-- C10, example: the distance field file (time 4) is newer than the mesh file (time 3). -/
theorem C10_regenerate_iff_cache_not_newer_witness :
    exampleWorld.last_write_time "mesh.ply" = some 3 ∧
    (readMeshDistanceField exampleWorld "mesh.ply.df" "mesh.ply").map
        (fun r => (r.1, r.2.events)) =
      .ok (false, [Event.loadCached .distanceField]) ∧
    ∃ generated w', readMeshDistanceField exampleWorld "mesh.ply.df" "mesh.ply" =
        .ok (generated, w') ∧
      (generated = true ↔ cacheNotNewer exampleWorld "mesh.ply.df" 3) ∧
      readOutcome .distanceField "mesh.ply.df" exampleWorld generated w' :=
  ⟨by simp [exampleWorld],
    by simp [readMeshDistanceField, exampleWorld, Except.map, World.log, World.write],
    (C10_regenerate_iff_cache_not_newer exampleWorld "mesh.ply.df" "mesh.ply" 3
      (by simp [exampleWorld])).2.2⟩

/-- C11: in every run of the constructor, the record of the run is the record of the three
read steps followed by `updateWeights`, the write of the augmented tree file and the write
of the BVH file when at least one of the three artifacts was regenerated, and by nothing
when all three were loaded from cache; in the latter case no file time is changed. -/
theorem C11_update_iff_regenerated (grid_dimension_ : Nat) (bvhRootBox : BoundingBoxType)
    (f : Filenames) (e : Elapsed) (w : World) (r : ConstructorRun)
    (h : ViewpointPlannerData grid_dimension_ bvhRootBox f e w = .ok r) :
    r.world.events =
      w.events ++
        (stepEvents .augmentedTree f.octree_filename r.augmented_octree_generated ++
          stepEvents .bvh f.bvh_filename r.bvh_generated ++
          stepEvents .distanceField f.df_filename r.df_generated) ++
        (if (r.augmented_octree_generated || r.bvh_generated || r.df_generated) = true then
          [Event.updateWeights, Event.write f.octree_filename, Event.write f.bvh_filename]
        else []) ∧
    ((r.augmented_octree_generated || r.bvh_generated || r.df_generated) = false →
      r.world.last_write_time = w.last_write_time) := by
  rw [ViewpointPlannerData_ok _ _ _ _ _ _ h]
  exact ⟨expectedRun_events _ _ _ _ _, expectedRun_untouched _ _ _ _ _⟩

/-- C11, example: the run without any cache file regenerates all three artifacts, then runs
`updateWeights` and writes both files again. -/
theorem C11_update_iff_regenerated_witness :
    ViewpointPlannerData 4 exampleBox exampleFilenames ⟨0, 0, 0, 0, 0⟩ freshWorld =
        .ok (expectedRun 4 exampleBox exampleFilenames ⟨0, 0, 0, 0, 0⟩ freshWorld) ∧
      (expectedRun 4 exampleBox exampleFilenames ⟨0, 0, 0, 0, 0⟩ freshWorld).world.events =
        [Event.generate .augmentedTree, Event.write "tree.ot.aug", Event.generate .bvh,
          Event.write "tree.ot.aug.bvh", Event.generate .distanceField,
          Event.write "mesh.ply.df", Event.updateWeights, Event.write "tree.ot.aug",
          Event.write "tree.ot.aug.bvh"] ∧
      (((expectedRun 4 exampleBox exampleFilenames ⟨0, 0, 0, 0, 0⟩
            freshWorld).augmented_octree_generated ||
          (expectedRun 4 exampleBox exampleFilenames ⟨0, 0, 0, 0, 0⟩ freshWorld).bvh_generated ||
          (expectedRun 4 exampleBox exampleFilenames ⟨0, 0, 0, 0, 0⟩ freshWorld).df_generated) =
          false →
        (expectedRun 4 exampleBox exampleFilenames ⟨0, 0, 0, 0, 0⟩
          freshWorld).world.last_write_time = freshWorld.last_write_time) :=
  ⟨freshWorld_run _, freshWorld_run_events,
    (C11_update_iff_regenerated 4 exampleBox exampleFilenames ⟨0, 0, 0, 0, 0⟩ freshWorld _
      (freshWorld_run _)).2⟩

/-- C12 as stated fails when the first run writes the augmented tree file and the BVH file
with the same time stamp: started without cache files at time 9 with no time passing, the
first run leaves both files stamped 9; the second run then loads the augmented tree but
regenerates the BVH, runs `updateWeights` and writes both files again. -/
theorem C12_same_time_stamp_counterexample :
    ViewpointPlannerData 4 exampleBox exampleFilenames ⟨0, 0, 0, 0, 0⟩ freshWorld =
        .ok (expectedRun 4 exampleBox exampleFilenames ⟨0, 0, 0, 0, 0⟩ freshWorld) ∧
      (ViewpointPlannerData 4 exampleBox exampleFilenames ⟨1, 1, 1, 1, 1⟩
          (expectedRun 4 exampleBox exampleFilenames ⟨0, 0, 0, 0, 0⟩ freshWorld).world).map
          (fun r => (r.augmented_octree_generated, r.bvh_generated, r.df_generated,
            r.world.events.drop 9)) =
        .ok (false, true, false,
          [Event.loadCached .augmentedTree, Event.generate .bvh,
            Event.write "tree.ot.aug.bvh", Event.loadCached .distanceField,
            Event.updateWeights, Event.write "tree.ot.aug",
            Event.write "tree.ot.aug.bvh"]) := by
  refine ⟨freshWorld_run _, ?_⟩
  rw [ViewpointPlannerData_eq _ _ _ _ _ 3 5
    (by simp [expectedRun, exampleFilenames_eq, freshWorld, cacheNewer, World.readStep,
      World.afterStep, World.advance, World.log, World.write])
    (by simp [expectedRun, exampleFilenames_eq, freshWorld, cacheNewer, World.readStep,
      World.afterStep, World.advance, World.log, World.write])]
  simp [expectedRun, exampleFilenames_eq, freshWorld, cacheNewer, World.readStep,
    World.afterStep, World.advance, World.log, World.write, Except.map]

/-- C12 (amended): after a complete run of the constructor, a second run on the files the
first run left completes and performs zero regenerations exactly when each cache file left
by the first run is strictly newer than its source; it then only loads the three caches
(no `updateWeights`, no write, no file time changed).  The caches are left in that state
whenever the five file names are pairwise different, raw tree and mesh were last written
strictly before the first run started, and time passed between the first run's last write
of the augmented tree file and its last write of the BVH file. -/
theorem C12_second_run_loads_iff_fresh (grid_dimension_ : Nat) (bvhRootBox : BoundingBoxType)
    (f : Filenames) (e e' : Elapsed) (w : World) (r1 : ConstructorRun)
    (h1 : ViewpointPlannerData grid_dimension_ bvhRootBox f e w = .ok r1) :
    ∃ r2, ViewpointPlannerData grid_dimension_ bvhRootBox f e' r1.world = .ok r2 ∧
      ((r2.augmented_octree_generated = false ∧ r2.bvh_generated = false ∧
          r2.df_generated = false) ↔ cachesFresh f r1.world = true) ∧
      (cachesFresh f r1.world = true →
        r2.world.events = r1.world.events ++
          [Event.loadCached .augmentedTree, Event.loadCached .bvh,
            Event.loadCached .distanceField] ∧
        r2.world.last_write_time = r1.world.last_write_time) ∧
      (f.distinct → (∀ t, w.last_write_time f.raw_octree_filename = some t → t < w.now) →
        (∀ t, w.last_write_time f.mesh_filename = some t → t < w.now) →
        0 < e.beforeBVHRewrite → cachesFresh f r1.world = true) := by
  obtain ⟨⟨tm, hm⟩, ⟨tr, hr⟩⟩ := ViewpointPlannerData_sources _ _ _ _ _ _ h1
  have hr1 := ViewpointPlannerData_ok _ _ _ _ _ _ h1
  obtain ⟨tm', hm'⟩ := expectedRun_exists grid_dimension_ bvhRootBox f e w _ tm hm
  obtain ⟨tr', hr'⟩ := expectedRun_exists grid_dimension_ bvhRootBox f e w _ tr hr
  rw [← hr1] at hm' hr'
  refine ⟨_, ViewpointPlannerData_eq _ _ _ _ _ tm' tr' hm' hr',
    expectedRun_loads_iff _ _ _ _ _, ?_, ?_⟩
  · intro hf
    obtain ⟨g1, g2, g3⟩ := (expectedRun_loads_iff grid_dimension_ bvhRootBox f e' r1.world).2 hf
    refine ⟨?_, expectedRun_untouched _ _ _ _ _ (by simp [g1, g2, g3])⟩
    rw [expectedRun_events, g1, g2, g3]
    simp [stepEvents]
  · intro hd hrt hmt he
    rw [hr1]
    exact expectedRun_fresh _ _ _ _ _ tr tm hd hr (hrt _ hr) hm (hmt _ hm) he

/-- C12, example: started without cache files at time 9, with one unit of time before the
last write of the BVH file, the first run leaves all caches fresh and the second run loads
all three. -/
theorem C12_second_run_loads_iff_fresh_witness :
    ViewpointPlannerData 4 exampleBox exampleFilenames ⟨0, 0, 0, 0, 1⟩ freshWorld =
        .ok (expectedRun 4 exampleBox exampleFilenames ⟨0, 0, 0, 0, 1⟩ freshWorld) ∧
      cachesFresh exampleFilenames
        (expectedRun 4 exampleBox exampleFilenames ⟨0, 0, 0, 0, 1⟩ freshWorld).world = true ∧
      ∃ r2, ViewpointPlannerData 4 exampleBox exampleFilenames ⟨0, 0, 0, 0, 0⟩
          (expectedRun 4 exampleBox exampleFilenames ⟨0, 0, 0, 0, 1⟩ freshWorld).world =
          .ok r2 ∧
        r2.augmented_octree_generated = false ∧ r2.bvh_generated = false ∧
          r2.df_generated = false :=
  have h := C12_second_run_loads_iff_fresh 4 exampleBox exampleFilenames ⟨0, 0, 0, 0, 1⟩
    ⟨0, 0, 0, 0, 0⟩ freshWorld _ (freshWorld_run _)
  have hfresh : cachesFresh exampleFilenames
      (expectedRun 4 exampleBox exampleFilenames ⟨0, 0, 0, 0, 1⟩ freshWorld).world = true :=
    h.choose_spec.2.2.2 exampleFilenames_distinct
      (by simp [exampleFilenames_eq, freshWorld]) (by simp [exampleFilenames_eq, freshWorld])
      (by decide)
  ⟨freshWorld_run _, hfresh, h.choose, h.choose_spec.1, h.choose_spec.2.1.2 hfresh⟩

/-- C13 as stated fails for a distance field that is 0 everywhere: the single cell of the
grid of dimension 1 satisfies `0 ≤ d ≤ cutoff` (with cutoff 1), `max_distance` is 0, the
weight of the cell is the quotient 0 / 0, and `updateWeights` does not produce a weight. -/
theorem C13_zero_field_counterexample :
    (∀ x y z, 0 ≤ zeroField.data x y z ∧ zeroField.data x y z ≤ 1) ∧
    updateWeights.maxDistance unitGrid zeroField = 0 ∧
    updateWeights.weight (updateWeights.maxDistance unitGrid zeroField)
        (zeroField.data 0 0 0) = .error "division by a zero max_distance" ∧
    ∀ (env : WeightEnvironment) (st : WeightState),
      updateWeights env unitGrid zeroField st = .error "division by a zero max_distance" := by
  refine ⟨fun x y z => by simp [zeroField, Grid3f.filled], maxDistance_zeroField, ?_, ?_⟩
  · rw [maxDistance_zeroField]; rfl
  · intro env st
    simp [updateWeights, maxDistance_zeroField, unitGrid_dim, List.range_succ, forLoop,
      updateWeights.cell, updateWeights.weight]

/-- C13 (amended): for every distance field whose cells satisfy `0 ≤ d ≤ cutoff` and that
has a cell with `d > 0`, `max_distance` is the maximum cell value of the field and is
positive, and for every grid cell the weight `updateWeights` computes is defined, equals
`((max_distance - d) / max_distance)^2`, lies in [0, 1], is 1 when `d = 0` and 0 when
`d = max_distance`. -/
theorem C13_weight_defined_and_bounded (g : GridGeometry) (distance_field_ : Grid3f)
    (cutoff : Rat)
    (hb : ∀ x y z, x < g.grid_dim_.x.toNat → y < g.grid_dim_.y.toNat →
      z < g.grid_dim_.z.toNat →
      0 ≤ distance_field_.data x y z ∧ distance_field_.data x y z ≤ cutoff)
    (hpos : ∃ x y z, x < g.grid_dim_.x.toNat ∧ y < g.grid_dim_.y.toNat ∧
      z < g.grid_dim_.z.toNat ∧ 0 < distance_field_.data x y z) :
    0 < updateWeights.maxDistance g distance_field_ ∧
    (∀ x y z, x < g.grid_dim_.x.toNat → y < g.grid_dim_.y.toNat → z < g.grid_dim_.z.toNat →
      distance_field_.data x y z ≤ updateWeights.maxDistance g distance_field_) ∧
    (∃ x y z, x < g.grid_dim_.x.toNat ∧ y < g.grid_dim_.y.toNat ∧ z < g.grid_dim_.z.toNat ∧
      distance_field_.data x y z = updateWeights.maxDistance g distance_field_) ∧
    ∀ x y z, x < g.grid_dim_.x.toNat → y < g.grid_dim_.y.toNat → z < g.grid_dim_.z.toNat →
      ∃ weight,
        updateWeights.weight (updateWeights.maxDistance g distance_field_)
          (distance_field_.data x y z) = .ok weight ∧
        weight = ((updateWeights.maxDistance g distance_field_ - distance_field_.data x y z) /
          updateWeights.maxDistance g distance_field_) ^ 2 ∧
        0 ≤ weight ∧ weight ≤ 1 ∧
        (distance_field_.data x y z = 0 → weight = 1) ∧
        (distance_field_.data x y z = updateWeights.maxDistance g distance_field_ →
          weight = 0) := by
  obtain ⟨x0, y0, z0, hx0, hy0, hz0, hd0⟩ := hpos
  have hM : 0 < updateWeights.maxDistance g distance_field_ :=
    lt_of_lt_of_le hd0 (updateWeights.maxDistance_ge g _ x0 y0 z0 hx0 hy0 hz0)
  have hne : updateWeights.maxDistance g distance_field_ ≠ -floatMax := by
    have := floatMax_pos
    intro h; rw [h] at hM; linarith
  refine ⟨hM, fun x y z hx hy hz => updateWeights.maxDistance_ge g _ x y z hx hy hz,
    updateWeights.maxDistance_attained g _ hne, ?_⟩
  intro x y z hx hy hz
  have hle := updateWeights.maxDistance_ge g distance_field_ x y z hx hy hz
  have h0 := (hb x y z hx hy hz).1
  obtain ⟨hw0, hw1⟩ := updateWeights.weightValue_bounds _ _ hM h0 hle
  refine ⟨_, updateWeights.weight_ok _ _ (ne_of_gt hM), ?_, hw0, hw1, ?_, ?_⟩
  · simp [updateWeights.weightValue, pow_two]
  · intro hd
    simp [updateWeights.weightValue, hd, div_self (ne_of_gt hM)]
  · intro hd
    simp [updateWeights.weightValue, hd]

/-- C13, example: the field of dimension 2 with distance x + y + z in cell (x, y, z). -/
theorem C13_weight_defined_and_bounded_witness :
    (∀ x y z, x < smallGrid.grid_dim_.x.toNat → y < smallGrid.grid_dim_.y.toNat →
      z < smallGrid.grid_dim_.z.toNat →
      0 ≤ smallField.data x y z ∧ smallField.data x y z ≤ 3) ∧
    (0 : Rat) < smallField.data 1 1 1 ∧
    0 < updateWeights.maxDistance smallGrid smallField :=
  have hb : ∀ x y z, x < smallGrid.grid_dim_.x.toNat → y < smallGrid.grid_dim_.y.toNat →
      z < smallGrid.grid_dim_.z.toNat →
      0 ≤ smallField.data x y z ∧ smallField.data x y z ≤ 3 := by
    intro x y z hx hy hz
    simp only [smallGrid, Int.toNat_ofNat] at hx hy hz
    have hx' : (x : Rat) ≤ 1 := by exact_mod_cast Nat.lt_succ_iff.1 hx
    have hy' : (y : Rat) ≤ 1 := by exact_mod_cast Nat.lt_succ_iff.1 hy
    have hz' : (z : Rat) ≤ 1 := by exact_mod_cast Nat.lt_succ_iff.1 hz
    simp only [smallField]
    constructor
    · positivity
    · linarith
  have h1 : (0 : Rat) < smallField.data 1 1 1 := by simp [smallField]; norm_num
  ⟨hb, h1,
    (C13_weight_defined_and_bounded smallGrid smallField 3 hb
      ⟨1, 1, 1, by simp [smallGrid], by simp [smallGrid], by simp [smallGrid], h1⟩).1⟩

/-- C14 as stated fails in single precision: for a grid of dimension 40 over the unit cube
the increment is the `float` nearest to 1/41, its product with 41 is below the extent 1, the
grid box ends at 16777215/16777216 on every axis and does not contain the BVH root box; the
corner (1, 1, 1) of the root box is not inside the grid. -/
theorem C14_rounded_grid_counterexample :
    (generateDistanceField.setupGrid 40 unitCube).grid_increment_ * ((40 : Rat) + 1) ≠
      unitCube.getMaxExtent ∧
    (generateDistanceField.setupGrid 40 unitCube).grid_bbox_ =
      ⟨⟨0, 0, 0⟩, ⟨16777215 / 16777216, 16777215 / 16777216, 16777215 / 16777216⟩⟩ ∧
    ¬ unitCube.within (generateDistanceField.setupGrid 40 unitCube).grid_bbox_ ∧
    unitCube.isInside ⟨1, 1, 1⟩ = true ∧
    isInsideGrid (generateDistanceField.setupGrid 40 unitCube) ⟨1, 1, 1⟩ = false := by
  rw [setupGrid_unitCube]
  refine ⟨?_, rfl, ?_, ?_, ?_⟩
  · simp only [unitCube, BoundingBoxType.getMaxExtent]
    norm_num
  · simp only [unitCube, BoundingBoxType.within]
    norm_num
  · simp [unitCube, BoundingBoxType.isInside]
  · simp only [isInsideGrid, BoundingBoxType.isInside]
    norm_num

/-- C14 (amended): for a grid dimension below 2^24 - 1, `generateDistanceField` sets the grid
origin to the minimum of the BVH root box, the increment to the `float` quotient of the
largest-axis extent of the box by gridDimension + 1, and the grid box used by `isInsideGrid`
to the box from the origin to origin + increment x (gridDimension + 1) on every axis, product
and sums rounded to `float`.  The product increment x (gridDimension + 1) differs from the
largest extent by at most the extent times 2^-24 (for a quotient in the normal range).  When
the quotient, the extent and the sums origin + extent are `float` values, increment x
(gridDimension + 1) equals the largest extent, the grid box is the cube from the origin to
origin + largest extent and contains the whole BVH root box. -/
theorem C14_grid_geometry_rounded (grid_dimension_ : Nat) (bbox : BoundingBoxType)
    (hN : grid_dimension_ + 1 < 2 ^ 24) :
    (generateDistanceField.setupGrid grid_dimension_ bbox).grid_origin_ = bbox.min ∧
    (generateDistanceField.setupGrid grid_dimension_ bbox).grid_dim_ =
      ⟨grid_dimension_, grid_dimension_, grid_dimension_⟩ ∧
    (generateDistanceField.setupGrid grid_dimension_ bbox).grid_increment_ =
      fl32 (bbox.getMaxExtent / ((grid_dimension_ : Rat) + 1)) ∧
    (generateDistanceField.setupGrid grid_dimension_ bbox).grid_bbox_ =
      ⟨bbox.min,
        ⟨fl32 (bbox.min.x + fl32 ((generateDistanceField.setupGrid grid_dimension_
            bbox).grid_increment_ * ((grid_dimension_ : Rat) + 1))),
          fl32 (bbox.min.y + fl32 ((generateDistanceField.setupGrid grid_dimension_
            bbox).grid_increment_ * ((grid_dimension_ : Rat) + 1))),
          fl32 (bbox.min.z + fl32 ((generateDistanceField.setupGrid grid_dimension_
            bbox).grid_increment_ * ((grid_dimension_ : Rat) + 1)))⟩⟩ ∧
    ((2 : Rat) ^ (-126 : Int) ≤ bbox.getMaxExtent / ((grid_dimension_ : Rat) + 1) →
      |(generateDistanceField.setupGrid grid_dimension_ bbox).grid_increment_ *
          ((grid_dimension_ : Rat) + 1) - bbox.getMaxExtent| ≤ bbox.getMaxExtent / 2 ^ 24) ∧
    (fl32 (bbox.getMaxExtent / ((grid_dimension_ : Rat) + 1)) =
        bbox.getMaxExtent / ((grid_dimension_ : Rat) + 1) →
      fl32 bbox.getMaxExtent = bbox.getMaxExtent →
      fl32 (bbox.min.x + bbox.getMaxExtent) = bbox.min.x + bbox.getMaxExtent →
      fl32 (bbox.min.y + bbox.getMaxExtent) = bbox.min.y + bbox.getMaxExtent →
      fl32 (bbox.min.z + bbox.getMaxExtent) = bbox.min.z + bbox.getMaxExtent →
      (generateDistanceField.setupGrid grid_dimension_ bbox).grid_increment_ *
          ((grid_dimension_ : Rat) + 1) = bbox.getMaxExtent ∧
      (generateDistanceField.setupGrid grid_dimension_ bbox).grid_bbox_ =
        ⟨bbox.min, ⟨bbox.min.x + bbox.getMaxExtent, bbox.min.y + bbox.getMaxExtent,
          bbox.min.z + bbox.getMaxExtent⟩⟩ ∧
      bbox.within (generateDistanceField.setupGrid grid_dimension_ bbox).grid_bbox_ ∧
      ∀ p : Vector3,
        isInsideGrid (generateDistanceField.setupGrid grid_dimension_ bbox) p = true ↔
          (bbox.min.x ≤ p.x ∧ p.x ≤ bbox.min.x + bbox.getMaxExtent) ∧
          (bbox.min.y ≤ p.y ∧ p.y ≤ bbox.min.y + bbox.getMaxExtent) ∧
          (bbox.min.z ≤ p.z ∧ p.z ≤ bbox.min.z + bbox.getMaxExtent)) ∧
    ∀ (df_cutoff_ : Rat) (poisson_mesh_ : MeshType) (norm : Vector3 → Rat)
      (transform : Grid3f → Grid3f) (g : GridGeometry) (distance_field_ : Grid3f),
      generateDistanceField grid_dimension_ df_cutoff_ bbox poisson_mesh_ norm transform =
          .ok (g, distance_field_) →
        g = generateDistanceField.setupGrid grid_dimension_ bbox := by
  have hcast : fl32 ((grid_dimension_ : Rat) + 1) = (grid_dimension_ : Rat) + 1 := by
    have := fl32_natCast (grid_dimension_ + 1) hN
    push_cast at this
    exact this
  have hpos : (0 : Rat) < (grid_dimension_ : Rat) + 1 := by positivity
  have hinc : (generateDistanceField.setupGrid grid_dimension_ bbox).grid_increment_ =
      fl32 (bbox.getMaxExtent / ((grid_dimension_ : Rat) + 1)) := by
    simp only [generateDistanceField.setupGrid, hcast]
  have hbox : (generateDistanceField.setupGrid grid_dimension_ bbox).grid_bbox_ =
      ⟨bbox.min,
        ⟨fl32 (bbox.min.x + fl32 ((generateDistanceField.setupGrid grid_dimension_
            bbox).grid_increment_ * ((grid_dimension_ : Rat) + 1))),
          fl32 (bbox.min.y + fl32 ((generateDistanceField.setupGrid grid_dimension_
            bbox).grid_increment_ * ((grid_dimension_ : Rat) + 1))),
          fl32 (bbox.min.z + fl32 ((generateDistanceField.setupGrid grid_dimension_
            bbox).grid_increment_ * ((grid_dimension_ : Rat) + 1)))⟩⟩ := by
    simp only [generateDistanceField.setupGrid, hcast]
  have hmul : bbox.getMaxExtent / ((grid_dimension_ : Rat) + 1) * ((grid_dimension_ : Rat) + 1)
      = bbox.getMaxExtent := by
    field_simp
  refine ⟨rfl, rfl, hinc, hbox, ?_, ?_, ?_⟩
  · intro hnorm
    have hq : (0 : Rat) ≤ bbox.getMaxExtent / ((grid_dimension_ : Rat) + 1) :=
      le_trans (by positivity) hnorm
    have hb := abs_fl32_sub_le (bbox.getMaxExtent / ((grid_dimension_ : Rat) + 1))
      (by rw [abs_of_nonneg hq]; exact hnorm)
    rw [abs_of_nonneg hq] at hb
    rw [hinc]
    have : fl32 (bbox.getMaxExtent / ((grid_dimension_ : Rat) + 1)) *
          ((grid_dimension_ : Rat) + 1) - bbox.getMaxExtent =
        (fl32 (bbox.getMaxExtent / ((grid_dimension_ : Rat) + 1)) -
          bbox.getMaxExtent / ((grid_dimension_ : Rat) + 1)) * ((grid_dimension_ : Rat) + 1) := by
      rw [sub_mul, hmul]
    rw [this, abs_mul, abs_of_pos hpos]
    calc |fl32 (bbox.getMaxExtent / ((grid_dimension_ : Rat) + 1)) -
            bbox.getMaxExtent / ((grid_dimension_ : Rat) + 1)| * ((grid_dimension_ : Rat) + 1)
        ≤ bbox.getMaxExtent / ((grid_dimension_ : Rat) + 1) / 2 ^ 24 *
            ((grid_dimension_ : Rat) + 1) := mul_le_mul_of_nonneg_right hb (le_of_lt hpos)
      _ = bbox.getMaxExtent / 2 ^ 24 := by field_simp; ring
  · intro hq hE hx hy hz
    have hprod : (generateDistanceField.setupGrid grid_dimension_ bbox).grid_increment_ *
        ((grid_dimension_ : Rat) + 1) = bbox.getMaxExtent := by
      rw [hinc, hq, hmul]
    have hbox' : (generateDistanceField.setupGrid grid_dimension_ bbox).grid_bbox_ =
        ⟨bbox.min, ⟨bbox.min.x + bbox.getMaxExtent, bbox.min.y + bbox.getMaxExtent,
          bbox.min.z + bbox.getMaxExtent⟩⟩ := by
      rw [hbox, hprod, hE, hx, hy, hz]
    refine ⟨hprod, hbox', ?_, ?_⟩
    · rw [hbox']
      simp only [BoundingBoxType.within, le_refl, and_self, true_and]
      refine ⟨?_, ?_, ?_⟩
      · have : bbox.max.x - bbox.min.x ≤ bbox.getMaxExtent := le_max_left _ _
        linarith
      · have : bbox.max.y - bbox.min.y ≤ bbox.getMaxExtent :=
          le_trans (le_max_left _ _) (le_max_right _ _)
        linarith
      · have : bbox.max.z - bbox.min.z ≤ bbox.getMaxExtent :=
          le_trans (le_max_right _ _) (le_max_right _ _)
        linarith
    · intro p
      simp only [isInsideGrid, hbox', BoundingBoxType.isInside, Bool.and_eq_true,
        decide_eq_true_eq]
      tauto
  · intro c mesh norm transform g df h
    obtain ⟨_, _, hg, _⟩ := (generateDistanceField_ok_iff _ _ _ _ _ _ _ _).1 h
    exact hg

/-- C14, example: dimension 4 over the cube from (0,0,0) to (5,5,5); the quotient 5/5 and the
sums 0 + 5 are `float` values, the increment is 1 and the grid box is the cube itself. -/
theorem C14_grid_geometry_rounded_witness :
    4 + 1 < 2 ^ 24 ∧
    (2 : Rat) ^ (-126 : Int) ≤ exampleBox.getMaxExtent / ((4 : Nat) + 1) ∧
    |(generateDistanceField.setupGrid 4 exampleBox).grid_increment_ * (((4 : Nat) : Rat) + 1) -
        exampleBox.getMaxExtent| ≤ exampleBox.getMaxExtent / 2 ^ 24 ∧
    (generateDistanceField.setupGrid 4 exampleBox).grid_increment_ * (((4 : Nat) : Rat) + 1) =
      exampleBox.getMaxExtent ∧
    exampleBox.within (generateDistanceField.setupGrid 4 exampleBox).grid_bbox_ :=
  have h := C14_grid_geometry_rounded 4 exampleBox (by norm_num)
  have hn : (2 : Rat) ^ (-126 : Int) ≤ exampleBox.getMaxExtent / ((4 : Nat) + 1) := by
    rw [getMaxExtent_exampleBox]
    have : (2 : Rat) ^ (-126 : Int) ≤ 2 ^ (0 : Int) := zpow_le_zpow_right₀ (by norm_num) (by norm_num)
    norm_num at this ⊢
  have he := h.2.2.2.2.2.1
    (by rw [getMaxExtent_exampleBox]; norm_num; exact fl32_one)
    (by rw [getMaxExtent_exampleBox]; exact fl32_five)
    (by rw [getMaxExtent_exampleBox]; simp [exampleBox, fl32_five])
    (by rw [getMaxExtent_exampleBox]; simp [exampleBox, fl32_five])
    (by rw [getMaxExtent_exampleBox]; simp [exampleBox, fl32_five])
  ⟨by norm_num, hn, h.2.2.2.2.1 hn, he.1, he.2.2.1⟩

/-- C16: for tuning constants with `D_query - R ≤ 0` or `D_cutoff ≤ D_query`,
`generateAugmentedOctree` ends in an error for every input tree, so no augmented tree is
produced: for a consistent tree the error is the failed assertion on the constants, an
inconsistent tree is refused by the consistency check before it.  For constants with
`D_query - R > 0` and `D_cutoff > D_query` no assertion on the constants fails, and a
consistent tree is augmented. -/
theorem C16_constants_precondition (k : AugmentationConstants) (raw_octree : OccupancyMapType) :
    (((k.OCCUPANCY_WEIGHT_DEPTH : Int) - (k.OCCUPANCY_WEIGHT_REACH : Int) ≤ 0 ∨
        k.OCCUPANCY_WEIGHT_DEPTH_CUTOFF ≤ k.OCCUPANCY_WEIGHT_DEPTH) →
      ∃ err, generateAugmentedOctree k raw_octree = .error err ∧
        (isTreeConsistent raw_octree = false → err = "Input tree is inconsistent") ∧
        (isTreeConsistent raw_octree = true →
          err = "Assertion failed: OCCUPANCY_WEIGHT_DEPTH - OCCUPANCY_WEIGHT_REACH > 0" ∨
          err = "Assertion failed: OCCUPANCY_WEIGHT_DEPTH_CUTOFF > OCCUPANCY_WEIGHT_DEPTH")) ∧
    (((k.OCCUPANCY_WEIGHT_DEPTH : Int) - (k.OCCUPANCY_WEIGHT_REACH : Int) > 0 ∧
        k.OCCUPANCY_WEIGHT_DEPTH_CUTOFF > k.OCCUPANCY_WEIGHT_DEPTH) →
      generateAugmentedOctree k raw_octree ≠
        .error "Assertion failed: OCCUPANCY_WEIGHT_DEPTH - OCCUPANCY_WEIGHT_REACH > 0" ∧
      generateAugmentedOctree k raw_octree ≠
        .error "Assertion failed: OCCUPANCY_WEIGHT_DEPTH_CUTOFF > OCCUPANCY_WEIGHT_DEPTH" ∧
      (isTreeConsistent raw_octree = true →
        ∃ st, generateAugmentedOctree k raw_octree = .ok st)) := by
  rw [generateAugmentedOctree_eq]
  constructor
  · intro hbad
    cases hc : isTreeConsistent raw_octree with
    | false => exact ⟨_, by simp, fun _ => rfl, fun h => (by cases h)⟩
    | true =>
      simp only [Bool.true_eq_false, if_false]
      by_cases h1 : (k.OCCUPANCY_WEIGHT_DEPTH : Int) - (k.OCCUPANCY_WEIGHT_REACH : Int) > 0
      · have h2 : ¬ (k.OCCUPANCY_WEIGHT_DEPTH_CUTOFF > k.OCCUPANCY_WEIGHT_DEPTH) := by
          rcases hbad with hb | hb
          · omega
          · omega
        rw [if_neg (not_not.2 h1), if_pos h2]
        exact ⟨_, rfl, fun h => h.elim, fun _ => Or.inr rfl⟩
      · rw [if_pos h1]
        exact ⟨_, rfl, fun h => h.elim, fun _ => Or.inl rfl⟩
  · rintro ⟨h1, h2⟩
    cases hc : isTreeConsistent raw_octree with
    | false => simp
    | true =>
      simp only [Bool.true_eq_false, if_false]
      rw [if_neg (not_not.2 h1), if_neg (not_not.2 h2)]
      exact ⟨by simp, by simp, fun _ => ⟨_, rfl⟩⟩

/-- C16, examples: with sampling depth 1 and reach 1 the consistent three-level tree is
refused by the first assertion; with sampling depth 1, reach 0 and cutoff depth 2 it is
augmented. -/
theorem C16_constants_precondition_witness :
    (∃ err, generateAugmentedOctree badConstants consistentTree = .error err ∧
      (isTreeConsistent consistentTree = false → err = "Input tree is inconsistent") ∧
      (isTreeConsistent consistentTree = true →
        err = "Assertion failed: OCCUPANCY_WEIGHT_DEPTH - OCCUPANCY_WEIGHT_REACH > 0" ∨
        err = "Assertion failed: OCCUPANCY_WEIGHT_DEPTH_CUTOFF > OCCUPANCY_WEIGHT_DEPTH")) ∧
    ∃ st, generateAugmentedOctree exampleConstants consistentTree = .ok st :=
  ⟨(C16_constants_precondition badConstants consistentTree).1 (Or.inl (by decide)),
    ((C16_constants_precondition exampleConstants consistentTree).2
      ⟨by decide, by decide⟩).2.2 isTreeConsistent_consistentTree⟩

/-- C17 (the code falls short of it): with a distance field file newer than the mesh file and
no augmented tree file, the constructor completes, regenerates the tree and the BVH, loads
the distance field from its cache, and runs `updateWeights`, while the grid members have
never been assigned. -/
theorem C17_grid_unset_when_field_cached :
    ViewpointPlannerData 4 exampleBox exampleFilenames ⟨1, 1, 1, 1, 1⟩
        distanceFieldCachedWorld =
      .ok (expectedRun 4 exampleBox exampleFilenames ⟨1, 1, 1, 1, 1⟩
        distanceFieldCachedWorld) ∧
    (expectedRun 4 exampleBox exampleFilenames ⟨1, 1, 1, 1, 1⟩
        distanceFieldCachedWorld).grid = none ∧
    (expectedRun 4 exampleBox exampleFilenames ⟨1, 1, 1, 1, 1⟩
        distanceFieldCachedWorld).world.events =
      [Event.generate .augmentedTree, Event.write "tree.ot.aug", Event.generate .bvh,
        Event.write "tree.ot.aug.bvh", Event.loadCached .distanceField, Event.updateWeights,
        Event.write "tree.ot.aug", Event.write "tree.ot.aug.bvh"] := by
  refine ⟨distanceFieldCachedWorld_run _, ?_, ?_⟩
  · simp [expectedRun, exampleFilenames_eq, distanceFieldCachedWorld, cacheNewer,
      World.readStep, World.afterStep, World.advance, World.log, World.write]
  · simp [expectedRun, exampleFilenames_eq, distanceFieldCachedWorld, cacheNewer,
      World.readStep, World.afterStep, World.advance, World.log, World.write]

/-- C20: in every run in which `readAndAugmentOctree` regenerates and writes the augmented
tree file, `readBVHTree` regenerates the BVH and writes its file right afterwards, and the
BVH cache is not loaded, provided a BVH file that existed before the run was not stamped
later than the time at which the run starts. -/
theorem C20_tree_regeneration_forces_bvh (grid_dimension_ : Nat) (bvhRootBox : BoundingBoxType)
    (f : Filenames) (e : Elapsed) (w : World) (r : ConstructorRun)
    (h : ViewpointPlannerData grid_dimension_ bvhRootBox f e w = .ok r)
    (hgen : r.augmented_octree_generated = true)
    (htime : ∀ t, w.last_write_time f.bvh_filename = some t → t ≤ w.now) :
    r.bvh_generated = true ∧
    ∃ rest, r.world.events =
        w.events ++ [Event.generate .augmentedTree, Event.write f.octree_filename,
          Event.generate .bvh, Event.write f.bvh_filename] ++ rest ∧
      Event.loadCached .bvh ∉ rest := by
  have hr := ViewpointPlannerData_ok _ _ _ _ _ _ h
  have hbvh : r.bvh_generated = true := by
    rw [hr] at hgen ⊢
    simp only [expectedRun] at hgen ⊢
    rw [← Bool.not_eq_false, World.readStep_loaded, cacheNewer_iff]
    rintro ⟨tc, ts, hc, hs, hlt⟩
    simp only [World.readStep_last_write_time, hgen, true_and, if_true] at hc hs
    cases hs
    split at hc
    · cases hc; omega
    · have := htime _ hc; omega
  refine ⟨hbvh, stepEvents .distanceField f.df_filename r.df_generated ++
    [Event.updateWeights, Event.write f.octree_filename, Event.write f.bvh_filename], ?_, ?_⟩
  · have hev := expectedRun_events grid_dimension_ bvhRootBox f e w
    rw [← hr, hgen, hbvh] at hev
    rw [hev]
    simp [stepEvents]
  · cases r.df_generated <;> simp [stepEvents]

/-- C20, example: the augmented tree file (time 2) is older than the raw tree (time 5), the
BVH file existed (time 4); the run regenerates the tree and then the BVH. -/
theorem C20_tree_regeneration_forces_bvh_witness :
    ViewpointPlannerData 4 exampleBox exampleFilenames ⟨1, 1, 1, 1, 1⟩ staleTreeWorld =
        .ok (expectedRun 4 exampleBox exampleFilenames ⟨1, 1, 1, 1, 1⟩ staleTreeWorld) ∧
      (expectedRun 4 exampleBox exampleFilenames ⟨1, 1, 1, 1, 1⟩
        staleTreeWorld).augmented_octree_generated = true ∧
      staleTreeWorld.last_write_time exampleFilenames.bvh_filename = some 4 ∧
      (expectedRun 4 exampleBox exampleFilenames ⟨1, 1, 1, 1, 1⟩
        staleTreeWorld).bvh_generated = true :=
  have hgen : (expectedRun 4 exampleBox exampleFilenames ⟨1, 1, 1, 1, 1⟩
      staleTreeWorld).augmented_octree_generated = true := by
    simp [expectedRun, exampleFilenames_eq, staleTreeWorld, cacheNewer, World.readStep]
  ⟨staleTreeWorld_run _, hgen, by simp [exampleFilenames_eq, staleTreeWorld],
    (C20_tree_regeneration_forces_bvh 4 exampleBox exampleFilenames ⟨1, 1, 1, 1, 1⟩
      staleTreeWorld _ (staleTreeWorld_run _) hgen
      (by simp [exampleFilenames_eq, staleTreeWorld])).1⟩

/-- C21: for every consistent raw tree, the exploration loop of `generateAugmentedOctree`
ends with total weight 0 for every query node, and indeed from every node at every depth,
whatever the occupancies and observation counts met and whatever `isNodeOccupied` answers.
Hence a run that returns reports the maximum weight 0, every node written by a broadcast
has weight 0 afterwards, as has every other node of the returned tree; and with tuning
constants that pass the two assertions the run does return. -/
theorem C21_total_weight_is_zero (k : AugmentationConstants) (raw_octree : OccupancyMapType)
    (hc : isTreeConsistent raw_octree = true) :
    (∀ query_nav ∈
        generateAugmentedOctree.collectQueryNodes k (convertToAugmentedMap raw_octree),
      accumulateWeight k (gotoParent k.OCCUPANCY_WEIGHT_REACH query_nav).length
        ((convertToAugmentedMap raw_octree).find
          (gotoParent k.OCCUPANCY_WEIGHT_REACH query_nav)) 0 = 0) ∧
    (∀ (depth : Nat) (nav : NodePtr), accumulateWeight k depth nav 0 = 0) ∧
    (∀ st, generateAugmentedOctree k raw_octree = .ok st →
      st.max_total_weight = 0 ∧
      (∀ write ∈ st.writes, (st.output_tree.find write.2).getWeight = 0) ∧
      weightsZero st.output_tree) ∧
    ((k.OCCUPANCY_WEIGHT_DEPTH : Int) - (k.OCCUPANCY_WEIGHT_REACH : Int) > 0 →
      k.OCCUPANCY_WEIGHT_DEPTH_CUTOFF > k.OCCUPANCY_WEIGHT_DEPTH →
      ∃ st, generateAugmentedOctree k raw_octree = .ok st) := by
  refine ⟨fun _ _ => accumulateWeight_eq _ _ _ _, fun _ _ => accumulateWeight_eq _ _ _ _,
    ?_, ?_⟩
  · intro st h
    obtain ⟨-, rfl⟩ := generateAugmentedOctree_ok k raw_octree st h
    exact ⟨rfl, fun _ _ =>
      weightsZero_getWeight _ (weightsZero_find _ _ (weightsZero_convert raw_octree)),
      weightsZero_convert raw_octree⟩
  · intro h1 h2
    rw [generateAugmentedOctree_eq, hc]
    simp [h1, h2]

/-- C21, example: the three-level tree with sampling depth 1, reach 0, cutoff depth 2 and
every node counting as occupied; the leaf below the query node has 30 observations and is
explored, and the total stays 0. -/
theorem C21_total_weight_is_zero_witness :
    isTreeConsistent consistentTree = true ∧
    (∀ query_nav ∈
        generateAugmentedOctree.collectQueryNodes ⟨1, 0, 2, fun _ => true⟩
          (convertToAugmentedMap consistentTree),
      accumulateWeight ⟨1, 0, 2, fun _ => true⟩ (gotoParent 0 query_nav).length
        ((convertToAugmentedMap consistentTree).find (gotoParent 0 query_nav)) 0 = 0) ∧
    (∀ st, generateAugmentedOctree ⟨1, 0, 2, fun _ => true⟩ consistentTree = .ok st →
      st.max_total_weight = 0 ∧
      (∀ write ∈ st.writes, (st.output_tree.find write.2).getWeight = 0) ∧
      weightsZero st.output_tree) ∧
    ∃ st, generateAugmentedOctree ⟨1, 0, 2, fun _ => true⟩ consistentTree = .ok st :=
  have h := C21_total_weight_is_zero ⟨1, 0, 2, fun _ => true⟩ consistentTree
    isTreeConsistent_consistentTree
  ⟨isTreeConsistent_consistentTree, h.1, h.2.2.1, h.2.2.2 (by decide) (by decide)⟩

end Quad3DR
